import Mathlib

/-!
# Authentication token lifecycle, session cache and rate limiting

A shallow embedding of the Go backend of the repository:

* `internal/errors/errors.go`                      (application errors),
* `internal/service/auth/paseto.go`                (`PasetoService`),
* `internal/service/cache/redis.go`                (`RedisService`),
* `internal/handler/middleware/rate_limiter.go`    (in-memory `RateLimiter`).

Conventions of the embedding.

* `time.Time` is an integer number of nanoseconds since the Unix epoch and
  `time.Duration` an integer number of nanoseconds; `t.Add d` is `t + d` and
  `t.After u` is `u < t`.
* A Go result pair `(value, error)` is an `Except GoError value`.
* The collaborators of `PasetoService` are the Go interfaces of
  `internal/service/interfaces.go`; a method of an interface is a function on an
  arbitrary collaborator state `σ`.  Every call that leaves the package is
  appended to `Sys.trace`, so that "the function does not call X" is a statement
  about the trace.
* `time.Now`, and `Sign` / `Verify` of the PASETO library, are not part of the
  repository; they are the fields of `Platform`.  The `n`-th call of `time.Now`
  of a run returns `Platform.Now n`.
-/

set_option maxRecDepth 100000

namespace AuthBackend

deriving instance DecidableEq for Except

/-! ## internal/errors/errors.go -/

/-- AppError of `errors.go`; the wrapped `Err` is kept as its text. -/
structure AppError where
  Code : String
  Message : String
  StatusCode : Nat
  Err : Option String := none
deriving DecidableEq, Repr

/-- A Go `error` value: an `*AppError`, or an error built by `fmt.Errorf` or by
a library, of which only the text is kept. -/
inductive GoError where
  | app (e : AppError)
  | text (msg : String)
deriving DecidableEq, Repr

def NewAuthenticationError (message : String) : AppError :=
  { Code := "AUTHENTICATION_ERROR", Message := message, StatusCode := 401 }

def NewRateLimitError (message : String) : AppError :=
  { Code := "RATE_LIMIT_EXCEEDED", Message := message, StatusCode := 429 }

/-- The method `Error()` of an error value. -/
def GoError.message : GoError → String
  | .app e =>
    match e.Err with
    | some inner => e.Message ++ ": " ++ inner
    | none => e.Message
  | .text msg => msg

/-- The error `fmt.Errorf(context + ": %w", err)`. -/
def GoError.wrap (context : String) (err : GoError) : GoError :=
  .text (context ++ ": " ++ err.message)

/-- The zero value `time.Time{}`: the first instant of the year 1, in
nanoseconds relative to the Unix epoch. -/
def zeroTime : Int := -62135596800000000000

/-! ## internal/models/user.go -/

structure User where
  ID : String
  Email : String
  PasswordHash : String
  FullName : String
  AvatarURL : String
  EmailVerified : Bool
  CreatedAt : Int
  UpdatedAt : Int
deriving DecidableEq, Repr

/-- Session of `models/user.go`; a field that a composite literal leaves out
has its zero value, which for the two times is `zeroTime`. -/
structure Session where
  ID : String
  UserID : String
  RefreshToken : String := ""
  UserAgent : String := ""
  ClientIP : String := ""
  IsBlocked : Bool := false
  ExpiresAt : Int := zeroTime
  CreatedAt : Int := zeroTime
deriving DecidableEq, Repr

structure CreateUserRequest where
  Email : String
  Password : String
  FullName : String
  AvatarURL : String
deriving DecidableEq, Repr

/-- UpdateUserRequest: every field is a pointer, `none` is the nil pointer. -/
structure UpdateUserRequest where
  Email : Option String := none
  Password : Option String := none
  FullName : Option String := none
  AvatarURL : Option String := none
deriving DecidableEq, Repr

structure LoginRequest where
  Email : String
  Password : String
deriving DecidableEq, Repr

structure LoginResponse where
  User : User
  AccessToken : String
  RefreshToken : String
deriving DecidableEq, Repr

structure RefreshTokenRequest where
  RefreshToken : String
deriving DecidableEq, Repr

structure RefreshTokenResponse where
  AccessToken : String
  RefreshToken : String
deriving DecidableEq, Repr

/-! ## internal/config/config.go -/

/-- AuthConfig; the durations are in nanoseconds. -/
structure AuthConfig where
  PublicKey : String
  PrivateKey : String
  AccessTokenTTL : Int
  RefreshTokenTTL : Int
  VerificationTTL : Int
  PasswordResetTTL : Int
  MaxLoginAttempts : Int
  LockoutDuration : Int
  SessionMaxLifetime : Int
deriving DecidableEq, Repr

/-! ## internal/service/auth/paseto.go : data -/

/-- TokenClaims of `paseto.go`; the field `Type` of the source is `Typ` here, since
`Type` is a reserved word. -/
structure TokenClaims where
  ID : String
  Subject : String
  IssuedAt : Int
  ExpiresAt : Int
  Typ : String
deriving DecidableEq, Repr

/-- A key is a byte slice. -/
abbrev Key := List Nat

/-- What the package takes from outside the repository: the clock and the
PASETO v2 library.  `Now n` is what the `n`-th call of `time.Now` returns;
`Sign key claims` and `Verify token key` are `paseto.NewV2().Sign` and
`paseto.NewV2().Verify` (with the decoded claims as result). -/
structure Platform where
  Now : Nat → Int
  Sign : Key → TokenClaims → Except String String
  Verify : String → Key → Except String TokenClaims

/-! ## internal/model/security.go -/

/-- LoginAttempt of `model/security.go`. -/
structure LoginAttempt where
  ID : String := ""
  UserID : String := ""
  IPAddress : String := ""
  UserAgent : String := ""
  Location : String := ""
  Successful : Bool := false
  AttemptedAt : Int := zeroTime
deriving DecidableEq, Repr

/-- SecurityEvent of `model/security.go`. -/
structure SecurityEvent where
  ID : String := ""
  UserID : String := ""
  EventType : String := ""
  IPAddress : String := ""
  UserAgent : String := ""
  Location : String := ""
  Description : String := ""
  CreatedAt : Int := zeroTime
deriving DecidableEq, Repr

/-- AccountLock of `model/security.go`. -/
structure AccountLock where
  ID : String
  UserID : String
  LockedAt : Int
  UnlockAt : Int
  Reason : String
  CreatedBy : String
deriving DecidableEq, Repr

/-- A call that leaves the package. -/
inductive Call where
  | Sign (claims : TokenClaims)
  | Verify (token : String)
  | CheckRateLimit (key : String) (limit : Int) (duration : Int)
  | StoreSession (sessionID userID : String) (expiration : Int)
  | GetSession (sessionID : String)
  | InvalidateSession (sessionID : String)
  | InvalidateCachePattern (pattern : String)
  | CreateUser (req : CreateUserRequest)
  | GetUser (id : String)
  | UpdateUser (id : String) (req : UpdateUserRequest)
  | SendVerificationEmail (recipient token : String)
  | SendPasswordResetEmail (recipient token : String)
  | SendWelcomeEmail (recipient userName : String)
  | SendPasswordChangedEmail (recipient : String)
  | SendLoginNotificationEmail (recipient deviceInfo location : String)
  | RecordLoginAttempt (attempt : LoginAttempt)
  | GetRecentLoginAttempts (userID : String) (limit : Int)
  | LockAccount (userID : String) (unlockAt : Int) (reason : String)
  | UnlockAccount (userID : String)
  | IsAccountLocked (userID : String)
  | RecordSecurityEvent (event : SecurityEvent)
  | GetUserSecurityEvents (userID : String) (limit : Int)
  | GetLocation (ip : String)
  | Log (level message : String)
  | Print (text : String)
deriving DecidableEq, Repr

/-- The state of a run: the state `st` of the collaborators, the number `tick`
of `time.Now` calls made so far, and the calls made so far (oldest first). -/
structure Sys (σ : Type) where
  st : σ
  tick : Nat := 0
  trace : List Call := []
deriving DecidableEq, Repr

/-- The methods of `service.CacheService` used by the auth service. -/
structure CacheService (σ : Type) where
  CheckRateLimit : String → Int → Int → σ → Except GoError Bool × σ
  StoreSession : String → String → Int → σ → Option GoError × σ
  GetSession : String → σ → Except GoError String × σ
  InvalidateSession : String → σ → Option GoError × σ
  InvalidateCachePattern : String → σ → Option GoError × σ

/-- The methods of `service.UserService` used by the auth service. -/
structure UserService (σ : Type) where
  CreateUser : CreateUserRequest → σ → Except GoError User × σ
  GetUser : String → σ → Except GoError User × σ
  UpdateUser : String → UpdateUserRequest → σ → Except GoError User × σ

/-- The methods of `service.EmailService` used by the auth service and by the
security service. -/
structure EmailService (σ : Type) where
  SendVerificationEmail : String → String → σ → Option GoError × σ
  SendPasswordResetEmail : String → String → σ → Option GoError × σ
  SendWelcomeEmail : String → String → σ → Option GoError × σ
  SendPasswordChangedEmail : String → σ → Option GoError × σ
  SendLoginNotificationEmail : String → String → String → σ → Option GoError × σ

/-- PasetoService of `paseto.go`. -/
structure PasetoService (σ : Type) where
  publicKey : Key
  privateKey : Key
  config : AuthConfig
  userSvc : UserService σ
  emailSvc : EmailService σ
  cacheSvc : CacheService σ

/-- Append a call to the trace. -/
def Sys.log {σ : Type} (w : Sys σ) (c : Call) : Sys σ :=
  { w with trace := w.trace ++ [c] }

/-- Run a collaborator method on the collaborator state and record the call. -/
def Sys.call {σ α : Type} (w : Sys σ) (c : Call) (m : σ → α × σ) : α × Sys σ :=
  let r := m w.st
  (r.1, { w with st := r.2, trace := w.trace ++ [c] })

/-- The call `time.Now()`. -/
def timeNow {σ : Type} (P : Platform) (w : Sys σ) : Int × Sys σ :=
  (P.Now w.tick, { w with tick := w.tick + 1 })

/-! ## internal/service/auth/paseto.go : helper functions -/

/-- generateUUID: the decimal text of `time.Now().UnixNano()`. -/
def generateUUID {σ : Type} (P : Platform) (w : Sys σ) : String × Sys σ :=
  let r := timeNow P w
  (toString r.1, r.2)

/-- generateToken of `paseto.go`. -/
def generateToken {σ : Type} (P : Platform) (s : PasetoService σ)
    (subject tokenType : String) (expiration : Int) (w : Sys σ) :
    Except GoError String × Sys σ :=
  let n := timeNow P w
  let now := n.1
  let u := generateUUID P n.2
  let claims : TokenClaims :=
    { ID := u.1, Subject := subject, IssuedAt := now,
      ExpiresAt := now + expiration, Typ := tokenType }
  let w1 := u.2.log (Call.Sign claims)
  match P.Sign s.privateKey claims with
  | .error e => (.error (.text ("failed to generate token: " ++ e)), w1)
  | .ok token => (.ok token, w1)

/-- validateToken of `paseto.go`. -/
def validateToken {σ : Type} (P : Platform) (s : PasetoService σ) (token : String)
    (w : Sys σ) : Except GoError TokenClaims × Sys σ :=
  let w1 := w.log (Call.Verify token)
  match P.Verify token s.publicKey with
  | .error _ => (.error (.app (NewAuthenticationError "invalid token")), w1)
  | .ok claims =>
    let n := timeNow P w1
    if claims.ExpiresAt < n.1 then
      (.error (.app (NewAuthenticationError "token expired")), n.2)
    else
      (.ok claims, n.2)

/-! ## internal/service/auth/paseto.go : the service methods -/

/-! The arithmetic of `float64` on fractions: every operation gives the float64
nearest to the exact result, ties going to the even mantissa.  The fractions of
this file are far from the ends of the range of float64, so neither overflow
nor subnormal numbers are modelled. -/

namespace Float64

/-- The number of binary digits of `n`, by halving; `fuel` bounds the number of
steps. -/
def bitLengthAux : Nat → Nat → Nat
  | 0, _ => 0
  | fuel + 1, n => if n = 0 then 0 else bitLengthAux fuel (n / 2) + 1

/-- The number of binary digits of `n`. -/
def bitLength (n : Nat) : Nat := bitLengthAux n n

/-- The integer nearest to `n / d`, a tie going to the even one. -/
def roundHalfEven (n d : Nat) : Nat :=
  let q := n / d
  let r := n % d
  if 2 * r < d then q
  else if d < 2 * r then q + 1
  else if q % 2 = 0 then q
  else q + 1

/-- The float64 nearest to the fraction `n / d`, as a fraction (numerator,
denominator): the mantissa has 53 binary digits. -/
def nearest (n d : Nat) : Nat × Nat :=
  if n = 0 then (0, 1)
  else
    let a := bitLength n
    let b := bitLength d
    let c := if d * 2 ^ a ≤ n * 2 ^ b then 0 else 1
    let up := a
    let down := b + c + 52
    (roundHalfEven (n * 2 ^ down) (d * 2 ^ up) * 2 ^ up, 2 ^ down)

end Float64

/-- The conversion `int(d.Seconds())` of a duration of `d` nanoseconds that is
not negative.  `Seconds` is `float64(sec) + float64(nsec)/1e9` with
`sec := d / Second` and `nsec := d % Second`, and the conversion to `int` drops
the fraction. -/
def secondsOf (d : Nat) : Nat :=
  let sec := Float64.nearest (d / 1000000000) 1
  let nsec := Float64.nearest (d % 1000000000) 1
  let quotient := Float64.nearest nsec.1 (nsec.2 * 1000000000)
  let sum := Float64.nearest (sec.1 * quotient.2 + quotient.1 * sec.2) (sec.2 * quotient.2)
  sum.1 / sum.2

/-- The conversion `int(d.Seconds())` of a duration: for a negative duration
`sec` and `nsec` are negative, and each operation gives the opposite of its
result on the opposites. -/
def durationSeconds (d : Int) : Int :=
  if d < 0 then -(secondsOf d.natAbs : Int) else (secondsOf d.natAbs : Int)

/-- Login of `paseto.go`.  The source has no statement between the user lookup
and the token generation (only the comment `TODO: Verify password hash`). -/
def Login {σ : Type} (P : Platform) (s : PasetoService σ) (req : LoginRequest)
    (w : Sys σ) : Except GoError LoginResponse × Sys σ :=
  let key := "login_attempts:" ++ req.Email
  let limit := s.config.MaxLoginAttempts
  let duration := durationSeconds s.config.LockoutDuration
  let r := w.call (Call.CheckRateLimit key limit duration)
    (s.cacheSvc.CheckRateLimit key limit duration)
  match r.1 with
  | .error err => (.error err, r.2)
  | .ok allowed =>
    if !allowed then
      (.error (.app (NewRateLimitError "too many login attempts")), r.2)
    else
      let g := r.2.call (Call.GetUser req.Email) (s.userSvc.GetUser req.Email)
      match g.1 with
      | .error err => (.error err, g.2)
      | .ok user =>
        let a := generateToken P s user.ID "access" s.config.AccessTokenTTL g.2
        match a.1 with
        | .error err => (.error err, a.2)
        | .ok accessToken =>
          let f := generateToken P s user.ID "refresh" s.config.RefreshTokenTTL a.2
          match f.1 with
          | .error err => (.error err, f.2)
          | .ok refreshToken =>
            let t := f.2.call
              (Call.StoreSession refreshToken user.ID s.config.RefreshTokenTTL)
              (s.cacheSvc.StoreSession refreshToken user.ID s.config.RefreshTokenTTL)
            match t.1 with
            | some err => (.error err, t.2)
            | none =>
              (.ok { User := user, AccessToken := accessToken,
                     RefreshToken := refreshToken }, t.2)

/-- RefreshToken of `paseto.go`. -/
def RefreshToken {σ : Type} (P : Platform) (s : PasetoService σ)
    (req : RefreshTokenRequest) (w : Sys σ) :
    Except GoError RefreshTokenResponse × Sys σ :=
  let v := validateToken P s req.RefreshToken w
  match v.1 with
  | .error err => (.error err, v.2)
  | .ok claims =>
    if claims.Typ != "refresh" then
      (.error (.app (NewAuthenticationError "invalid token type")), v.2)
    else
      let g := v.2.call (Call.GetSession req.RefreshToken)
        (s.cacheSvc.GetSession req.RefreshToken)
      let missing : Bool :=
        match g.1 with
        | .error _ => true
        | .ok userID => userID == ""
      if missing then
        (.error (.app (NewAuthenticationError "invalid or expired token")), g.2)
      else
        let a := generateToken P s claims.Subject "access" s.config.AccessTokenTTL g.2
        match a.1 with
        | .error err => (.error err, a.2)
        | .ok accessToken =>
          let f := generateToken P s claims.Subject "refresh" s.config.RefreshTokenTTL a.2
          match f.1 with
          | .error err => (.error err, f.2)
          | .ok refreshToken =>
            let d := f.2.call (Call.InvalidateSession req.RefreshToken)
              (s.cacheSvc.InvalidateSession req.RefreshToken)
            match d.1 with
            | some err => (.error err, d.2)
            | none =>
              let t := d.2.call
                (Call.StoreSession refreshToken claims.Subject s.config.RefreshTokenTTL)
                (s.cacheSvc.StoreSession refreshToken claims.Subject
                  s.config.RefreshTokenTTL)
              match t.1 with
              | some err => (.error err, t.2)
              | none =>
                (.ok { AccessToken := accessToken, RefreshToken := refreshToken }, t.2)

/-- Logout of `paseto.go`. -/
def Logout {σ : Type} (s : PasetoService σ) (sessionID : String) (w : Sys σ) :
    Option GoError × Sys σ :=
  w.call (Call.InvalidateSession sessionID) (s.cacheSvc.InvalidateSession sessionID)

/-- ValidateSession of `paseto.go`. -/
def ValidateSession {σ : Type} (P : Platform) (s : PasetoService σ) (token : String)
    (w : Sys σ) : Except GoError Session × Sys σ :=
  let v := validateToken P s token w
  match v.1 with
  | .error err => (.error err, v.2)
  | .ok claims =>
    if claims.Typ != "access" then
      (.error (.app (NewAuthenticationError "invalid token type")), v.2)
    else
      (.ok { ID := claims.ID, UserID := claims.Subject }, v.2)

/-- InvalidateAllSessions of `paseto.go`. -/
def InvalidateAllSessions {σ : Type} (s : PasetoService σ) (userID : String)
    (w : Sys σ) : Option GoError × Sys σ :=
  let pattern := "session:*:" ++ userID
  w.call (Call.InvalidateCachePattern pattern) (s.cacheSvc.InvalidateCachePattern pattern)

/-! ## The Redis server and client behind `RedisService`

The server is a list of entries, at most one per key, each with an optional
expiry time, and a server clock `now` that only the environment advances.  A
key whose expiry time has been reached is absent.  `faults` is the script of
the outcomes of the coming client commands: `some msg` is a transport failure
(the command does not reach the server), `none` and the empty script are
success. -/

structure RedisEntry where
  key : String
  val : String
  expireAt : Option Int
deriving DecidableEq, Repr

structure Redis where
  entries : List RedisEntry := []
  now : Int := 0
  faults : List (Option String) := []
deriving DecidableEq, Repr

namespace Redis

/-- An entry is live while the server clock is before its expiry time. -/
def live (r : Redis) (e : RedisEntry) : Bool :=
  match e.expireAt with
  | none => true
  | some t => decide (r.now < t)

/-- The live entry of a key. -/
def find (r : Redis) (k : String) : Option RedisEntry :=
  r.entries.find? (fun e => e.key == k && r.live e)

/-- GET: the value of a live key. -/
def get (r : Redis) (k : String) : Option String :=
  (r.find k).map (fun e => e.val)

/-- DEL. -/
def del (r : Redis) (k : String) : Redis :=
  { r with entries := r.entries.filter (fun e => e.key != k) }

/-- SET with the expiration argument of go-redis: a positive duration sets the
expiry time, any other duration leaves the key without one. -/
def set (r : Redis) (k v : String) (expiration : Int) : Redis :=
  let e : RedisEntry :=
    { key := k, val := v,
      expireAt := if 0 < expiration then some (r.now + expiration) else none }
  { r with entries := e :: (r.del k).entries }

/-- The value of a decimal digit. -/
def digitVal (c : Char) : Option Nat :=
  if 48 ≤ c.toNat ∧ c.toNat ≤ 57 then some (c.toNat - 48) else none

/-- The number written by a list of decimal digits, after the digits `acc`
already read. -/
def parseDigits : List Char → Nat → Option Nat
  | [], acc => some acc
  | c :: cs, acc =>
    match digitVal c with
    | none => none
    | some d => parseDigits cs (10 * acc + d)

/-- The integer a stored value stands for, as INCR reads it: decimal digits
with an optional minus sign, no leading zero, within the 64-bit range. -/
def parseInt (v : String) : Option Int :=
  let inRange (i : Int) : Option Int :=
    if -9223372036854775808 ≤ i ∧ i ≤ 9223372036854775807 then some i else none
  match v.data with
  | [] => none
  | ['0'] => some 0
  | '0' :: _ => none
  | '-' :: '0' :: _ => none
  | '-' :: c :: cs => (parseDigits (c :: cs) 0).bind (fun n => inRange (-(n : Int)))
  | cs => (parseDigits cs 0).bind (fun n => inRange (n : Int))

/-- INCR: a missing key counts from zero and gets no expiry time; an existing
key keeps its expiry time. -/
def incr (r : Redis) (k : String) : Except String Int × Redis :=
  match r.find k with
  | none => (.ok 1, r.set k "1" 0)
  | some e =>
    match parseInt e.val with
    | none => (.error "ERR value is not an integer or out of range", r)
    | some n =>
      if n = 9223372036854775807 then
        (.error "ERR increment or decrement would overflow", r)
      else
        (.ok (n + 1),
         { r with entries :=
             { e with val := toString (n + 1) } :: (r.del k).entries })

/-- EXPIRE with a duration: a live key gets the expiry time `now + d` (and is
deleted when `d` is not positive); a missing key is left missing. -/
def expire (r : Redis) (k : String) (d : Int) : Redis :=
  match r.find k with
  | none => r
  | some e =>
    if 0 < d then
      { r with entries := { e with expireAt := some (r.now + d) } :: (r.del k).entries }
    else r.del k

/-- The match of one character against a bracket class of a glob pattern;
the argument is the pattern after the opening bracket, the result is the
match and the pattern after the closing bracket. -/
def classMatch (ch : Char) : List Char → Bool → Bool × List Char
  | [], m => (m, [])
  | '\\' :: c :: p, m => classMatch ch p (m || c == ch)
  | ']' :: p, m => (m, p)
  | a :: '-' :: b :: p, m =>
    let lo := min a.toNat b.toNat
    let hi := max a.toNat b.toNat
    classMatch ch p (m || (decide (lo ≤ ch.toNat) && decide (ch.toNat ≤ hi)))
  | c :: p, m => classMatch ch p (m || c == ch)

/-- The match of a star: the continuation `k` accepts some suffix. -/
def starMatch (k : List Char → Bool) : List Char → Bool
  | [] => k []
  | c :: s => k (c :: s) || starMatch k s

/-- Glob match of the MATCH option of SCAN, with `fuel` steps. -/
def globAux : Nat → List Char → List Char → Bool
  | 0, _, _ => false
  | _ + 1, [], s => s.isEmpty
  | fuel + 1, '*' :: p, s => starMatch (globAux fuel p) s
  | _ + 1, _ :: _, [] => false
  | fuel + 1, '?' :: p, _ :: s => globAux fuel p s
  | fuel + 1, '[' :: '^' :: p, ch :: s =>
    let r := classMatch ch p false
    !r.1 && globAux fuel r.2 s
  | fuel + 1, '[' :: p, ch :: s =>
    let r := classMatch ch p false
    r.1 && globAux fuel r.2 s
  | fuel + 1, '\\' :: c :: p, ch :: s => c == ch && globAux fuel p s
  | fuel + 1, c :: p, ch :: s => c == ch && globAux fuel p s

/-- Glob match of a key against a pattern. -/
def globMatch (pattern key : String) : Bool :=
  globAux (pattern.length + 1) pattern.data key.data

/-- SCAN with MATCH, iterated to the end: the live keys that match. -/
def scan (r : Redis) (pattern : String) : List String :=
  ((r.entries.filter r.live).map (fun e => e.key)).filter (globMatch pattern)

/-- One client command reaching for the server: the next outcome of the
script is consumed. -/
def roundTrip (r : Redis) : Option String × Redis :=
  match r.faults with
  | [] => (none, r)
  | f :: fs => (f, { r with faults := fs })

end Redis

/-! ## internal/service/cache/redis.go -/

namespace RedisService

/-- CheckRateLimit of `redis.go`: a pipeline of INCR and EXPIRE. -/
def CheckRateLimit (key : String) (limit duration : Int) (r : Redis) :
    Except GoError Bool × Redis :=
  let t := r.roundTrip
  match t.1 with
  | some e => (.error (.text ("failed to check rate limit: " ++ e)), t.2)
  | none =>
    let i := t.2.incr key
    let r2 := i.2.expire key (duration * 1000000000)
    match i.1 with
    | .error e => (.error (.text ("failed to check rate limit: " ++ e)), r2)
    | .ok count => (.ok (decide (count ≤ limit)), r2)

/-- StoreSession of `redis.go`. -/
def StoreSession (sessionID userID : String) (expiration : Int) (r : Redis) :
    Option GoError × Redis :=
  let t := r.roundTrip
  match t.1 with
  | some e => (some (.text ("failed to store session: " ++ e)), t.2)
  | none => (none, t.2.set ("session:" ++ sessionID) userID expiration)

/-- GetSession of `redis.go`: a missing key is the empty user id, not an
error. -/
def GetSession (sessionID : String) (r : Redis) : Except GoError String × Redis :=
  let t := r.roundTrip
  match t.1 with
  | some e => (.error (.text ("failed to get session: " ++ e)), t.2)
  | none =>
    match t.2.get ("session:" ++ sessionID) with
    | none => (.ok "", t.2)
    | some userID => (.ok userID, t.2)

/-- InvalidateSession of `redis.go`. -/
def InvalidateSession (sessionID : String) (r : Redis) : Option GoError × Redis :=
  let t := r.roundTrip
  match t.1 with
  | some e => (some (.text ("failed to invalidate session: " ++ e)), t.2)
  | none => (none, t.2.del ("session:" ++ sessionID))

/-- The loop of InvalidateCachePattern over the scanned keys. -/
def deleteKeys : List String → Redis → Option GoError × Redis
  | [], r => (none, r)
  | k :: ks, r =>
    let t := r.roundTrip
    match t.1 with
    | some e => (some (.text ("failed to invalidate cache pattern: " ++ e)), t.2)
    | none => deleteKeys ks (t.2.del k)

/-- InvalidateCachePattern of `redis.go`. -/
def InvalidateCachePattern (pattern : String) (r : Redis) : Option GoError × Redis :=
  let t := r.roundTrip
  match t.1 with
  | some e => (some (.text ("failed to scan cache keys: " ++ e)), t.2)
  | none => deleteKeys (t.2.scan pattern) t.2

/-- RedisService as a `service.CacheService`. -/
def cacheService : CacheService Redis :=
  { CheckRateLimit := CheckRateLimit
    StoreSession := StoreSession
    GetSession := GetSession
    InvalidateSession := InvalidateSession
    InvalidateCachePattern := InvalidateCachePattern }

end RedisService

/-! ## internal/handler/middleware/rate_limiter.go -/

/-- What the middleware reads of the `echo.Context` of a request. -/
structure Request where
  Path : String
  RemoteAddr : String
deriving DecidableEq, Repr

/-- What the middleware does with a request: whether it called the next
handler, the status and error text it wrote itself, and the headers it set (in
the order of the `Set` calls). -/
structure Response where
  next : Bool
  status : Option Nat
  body : Option String
  headers : List (String × String)
deriving DecidableEq, Repr

structure RateLimiterConfig where
  Limit : Int
  Window : Int
  Message : String
  KeyFunc : Request → String
  ExcludedRoutes : List String

/-- The client record of the rate limiter. -/
structure client where
  count : Int
  lastAccess : Int
  resetTime : Int
deriving DecidableEq, Repr

/-- RateLimiter: the map `clients` is a list with at most one pair per key. -/
structure RateLimiter where
  clients : List (String × client)
  config : RateLimiterConfig

/-- The conversion `string(rune(x))` of an integer: the conversion to `rune`
keeps the low 32 bits as a signed number, and the conversion to `string` gives
the UTF-8 text of that code point, or of U+FFFD when it is not a code point. -/
def runeString (x : Int) : String :=
  let r : Int := (x + 2147483648) % 4294967296 - 2147483648
  if 0 ≤ r ∧ (r < 55296 ∨ (57343 < r ∧ r ≤ 1114111)) then
    String.singleton (Char.ofNat r.toNat)
  else
    String.singleton (Char.ofNat 65533)

/-- The call `t.Unix()`: whole seconds since the epoch, rounded down. -/
def unixSeconds (t : Int) : Int := t / 1000000000

namespace RateLimiter

/-- cleanupLoop of `rate_limiter.go`, up to its first statement: the call
`time.NewTicker(rl.config.Window)` panics when the window is not positive.  The
result is that panic, or nothing; after a ticker has been made the loop runs
`cleanup` at every tick, which the environment may do between two requests. -/
def cleanupLoop (rl : RateLimiter) : Option String :=
  if rl.config.Window ≤ 0 then some "non-positive interval for NewTicker" else none

/-- NewRateLimiter of `rate_limiter.go`.  It starts cleanupLoop as a goroutine,
and a panic in a goroutine ends the process: the result `.error` is that panic,
the result `.ok` is the new limiter of a process that goes on. -/
def NewRateLimiter (config : RateLimiterConfig) : Except String RateLimiter :=
  let limiter : RateLimiter := { clients := [], config := config }
  match limiter.cleanupLoop with
  | some p => .error p
  | none => .ok limiter

/-- The map assignment `rl.clients[key] = c`. -/
def store (rl : RateLimiter) (key : String) (c : client) : RateLimiter :=
  { rl with clients := (key, c) :: rl.clients.filter (fun p => p.1 != key) }

/-- cleanup of `rate_limiter.go`, run at the time `now`. -/
def cleanup (rl : RateLimiter) (now : Int) : RateLimiter :=
  { rl with clients := rl.clients.filter (fun p => !decide (p.2.resetTime < now)) }

/-- isExcluded of `rate_limiter.go`. -/
def isExcluded (rl : RateLimiter) (path : String) : Bool :=
  rl.config.ExcludedRoutes.any (fun route => route == path)

/-- The handler returned by Middleware, run on one request at the time `now`
(the reading of the one `time.Now()` call of the handler). -/
def Middleware (rl : RateLimiter) (req : Request) (now : Int) : Response × RateLimiter :=
  if rl.isExcluded req.Path then
    ({ next := true, status := none, body := none, headers := [] }, rl)
  else
    let key := rl.config.KeyFunc req
    let fresh : client :=
      { count := 1, lastAccess := now, resetTime := now + rl.config.Window }
    match rl.clients.lookup key with
    | none =>
      ({ next := true, status := none, body := none, headers := [] }, rl.store key fresh)
    | some cl =>
      if cl.resetTime < now then
        ({ next := true, status := none, body := none, headers := [] }, rl.store key fresh)
      else
        let cl1 : client := { cl with lastAccess := now }
        if rl.config.Limit ≤ cl1.count then
          ({ next := false, status := some 429, body := some rl.config.Message,
             headers :=
               [("X-RateLimit-Limit", runeString rl.config.Limit),
                ("X-RateLimit-Remaining", "0"),
                ("X-RateLimit-Reset", runeString (unixSeconds cl1.resetTime)),
                ("Retry-After", runeString (durationSeconds (cl1.resetTime - now)))] },
           rl.store key cl1)
        else
          let cl2 : client := { cl1 with count := cl1.count + 1 }
          let remaining := rl.config.Limit - cl2.count
          ({ next := true, status := none, body := none,
             headers :=
               [("X-RateLimit-Limit", runeString rl.config.Limit),
                ("X-RateLimit-Remaining", runeString remaining),
                ("X-RateLimit-Reset", runeString (unixSeconds cl2.resetTime))] },
           rl.store key cl2)

/-- The handler run on a sequence of requests, each with the clock reading at
which it is handled. -/
def serve (rl : RateLimiter) : List (Request × Int) → List Response × RateLimiter
  | [] => ([], rl)
  | q :: qs =>
    let r := rl.Middleware q.1 q.2
    let rs := serve r.2 qs
    (r.1 :: rs.1, rs.2)

end RateLimiter

/-! ## A concrete platform, service and cache

A small token codec stands for the PASETO library in the closed examples: a
token is the text `v2.public.` followed by the fields of the claims, each of a
fixed or announced width.  `Sign` is a function of the key and the claims, as the
Ed25519 signature of PASETO v2 is. -/

namespace Demo

/-- The character of a decimal digit. -/
def digitChar (d : Nat) : Char := Char.ofNat (48 + d)

/-- The last `k` decimal digits of `n`, most significant first. -/
def fixedDigits : Nat → Nat → List Char
  | 0, _ => []
  | k + 1, n => fixedDigits k (n / 10) ++ [digitChar (n % 10)]

/-- A number field: 19 decimal digits. -/
def writeNat (n : Nat) : List Char := fixedDigits 19 n

/-- A text field: its length, then its characters. -/
def writeStr (s : String) : List Char := writeNat s.length ++ s.data

/-- An integer field: its sign, then its magnitude. -/
def writeInt (i : Int) : List Char :=
  (if i < 0 then '-' else '+') :: writeNat i.natAbs

/-- The text every token starts with. -/
def header : List Char := "v2.public.".data

/-- The text of a token. -/
def encode (c : TokenClaims) : List Char :=
  header ++ writeStr c.ID ++ writeStr c.Subject ++ writeStr c.Typ
    ++ writeInt c.IssuedAt ++ writeInt c.ExpiresAt

/-- Read a number field; the result is the number and the rest of the text. -/
def readNat (l : List Char) : Option (Nat × List Char) :=
  if l.length < 19 then none
  else (Redis.parseDigits (l.take 19) 0).map (fun n => (n, l.drop 19))

/-- Read a text field; the result is the text and the rest of the text. -/
def readStr (l : List Char) : Option (String × List Char) :=
  match readNat l with
  | none => none
  | some (n, rest) =>
    if rest.length < n then none else some (String.mk (rest.take n), rest.drop n)

/-- Read an integer field; the result is the integer and the rest of the text. -/
def readInt (l : List Char) : Option (Int × List Char) :=
  match l with
  | '+' :: t => (readNat t).map (fun r => ((r.1 : Int), r.2))
  | '-' :: t => (readNat t).map (fun r => (-(r.1 : Int), r.2))
  | _ => none

/-- The claims of a token text. -/
def decode (l : List Char) : Option TokenClaims :=
  if l.take 10 = header then
    match readStr (l.drop 10) with
    | none => none
    | some (id, l1) =>
      match readStr l1 with
      | none => none
      | some (sub, l2) =>
        match readStr l2 with
        | none => none
        | some (typ, l3) =>
          match readInt l3 with
          | none => none
          | some (iat, l4) =>
            match readInt l4 with
            | some (exp, []) =>
              some { ID := id, Subject := sub, IssuedAt := iat, ExpiresAt := exp, Typ := typ }
            | _ => none
  else none

/-- The claims a token can carry: every field fits its width. -/
def fits (c : TokenClaims) : Bool :=
  decide (c.ID.length < 10 ^ 19) && decide (c.Subject.length < 10 ^ 19)
    && decide (c.Typ.length < 10 ^ 19) && decide (c.IssuedAt.natAbs < 10 ^ 19)
    && decide (c.ExpiresAt.natAbs < 10 ^ 19)

/-- Sign of the examples: a private key has 64 bytes; the token is the text of
the claims. -/
def Sign (key : Key) (c : TokenClaims) : Except String String :=
  if key.length = 64 ∧ fits c then .ok (String.mk (encode c)) else .error "bad key or claims"

/-- Verify of the examples: a public key has 32 bytes; the claims are read back
from the text of the token. -/
def Verify (token : String) (key : Key) : Except String TokenClaims :=
  if key.length = 32 then
    match decode token.data with
    | some c => .ok c
    | none => .error "invalid token"
  else .error "bad key"

/-- The platform of the examples, with the clock `now`. -/
def platform (now : Nat → Int) : Platform :=
  { Now := now, Sign := Sign, Verify := Verify }

/-- The user of the examples. -/
def user : User :=
  { ID := "user123", Email := "test@example.com", PasswordHash := "$2a$10$storedhash",
    FullName := "Test User", AvatarURL := "", EmailVerified := false,
    CreatedAt := 0, UpdatedAt := 0 }

/-- The error of a user lookup that finds nothing. -/
def notFound : GoError :=
  .app { Code := "NOT_FOUND", Message := "User not found", StatusCode := 404 }

/-- A user service that knows the one user `user`, by id and by email. -/
def userService : UserService Redis :=
  { CreateUser := fun _ r => (.ok user, r)
    GetUser := fun id r =>
      (if id = user.ID ∨ id = user.Email then .ok user else .error notFound, r)
    UpdateUser := fun id _ r =>
      (if id = user.ID then .ok user else .error notFound, r) }

/-- An email service that sends nothing and reports success. -/
def emailService : EmailService Redis :=
  { SendVerificationEmail := fun _ _ r => (none, r)
    SendPasswordResetEmail := fun _ _ r => (none, r)
    SendWelcomeEmail := fun _ _ r => (none, r)
    SendPasswordChangedEmail := fun _ r => (none, r)
    SendLoginNotificationEmail := fun _ _ _ r => (none, r) }

/-- The configuration of `createTestConfig` in `paseto_test.go`. -/
def config : AuthConfig :=
  { PublicKey := "", PrivateKey := "",
    AccessTokenTTL := 900000000000, RefreshTokenTTL := 604800000000000,
    VerificationTTL := 86400000000000, PasswordResetTTL := 86400000000000,
    MaxLoginAttempts := 5, LockoutDuration := 0, SessionMaxLifetime := 0 }

/-- The auth service over the Redis cache service. -/
def service : PasetoService Redis :=
  { publicKey := List.replicate 32 0, privateKey := List.replicate 64 0,
    config := config, userSvc := userService, emailSvc := emailService,
    cacheSvc := RedisService.cacheService }


/-- A clock that advances by one nanosecond at every reading. -/
def clock (n : Nat) : Int := 1700000000000000000 + n

/-- A clock that gives the same reading at every call: two calls of
`time.Now` within one tick of a coarse system clock. -/
def frozen (_ : Nat) : Int := 1700000000000000000

/-- The access token that `service` issues to `user` at the first readings of
`clock`. -/
def accessToken : String :=
  "v2.public.000000000000000001917000000000000000010000000000000000007user1230000000000000000006access+1700000000000000000+1700000900000000000"

/-- The refresh token that `service` issues to `user` at the first readings of
`clock`. -/
def refreshToken : String :=
  "v2.public.000000000000000001917000000000000000010000000000000000007user1230000000000000000007refresh+1700000000000000000+1700604800000000000"


/-- The refresh token that `service` issues to `user` under the clock
`frozen`. -/
def frozenRefreshToken : String :=
  "v2.public.000000000000000001917000000000000000000000000000000000007user1230000000000000000007refresh+1700000000000000000+1700604800000000000"

/-- The access token that `service` issues to `user` under the clock `frozen`. -/
def frozenAccessToken : String :=
  "v2.public.000000000000000001917000000000000000000000000000000000007user1230000000000000000006access+1700000000000000000+1700000900000000000"

/-- The refresh token that Login of `service` issues to `user` at the first
readings of `clock`. -/
def loginRefreshToken : String :=
  "v2.public.000000000000000001917000000000000000030000000000000000007user1230000000000000000007refresh+1700000000000000002+1700604800000000002"

/-- The cache after `StoreSession token user.ID RefreshTokenTTL` on the empty
cache. -/
def stored (token : String) : Redis :=
  (RedisService.StoreSession token user.ID config.RefreshTokenTTL {}).2

/-- The state after the issue of a refresh token and the store of its session:
two clock readings taken, one session in the cache. -/
def issued (token : String) : Sys Redis :=
  { st := stored token, tick := 2 }


/-- A limiter configuration keyed by the remote address, with a window of one
minute. -/
def limiterConfig (limit : Int) (excluded : List String) : RateLimiterConfig :=
  { Limit := limit, Window := 60000000000,
    Message := "Rate limit exceeded. Please try again later.",
    KeyFunc := fun r => r.RemoteAddr, ExcludedRoutes := excluded }

/-- A request to the login route. -/
def loginRequest : Request := { Path := "/api/auth/login", RemoteAddr := "203.0.113.7" }

/-- A request to a health route. -/
def healthRequest : Request := { Path := "/health", RemoteAddr := "203.0.113.7" }

end Demo

/-! ## internal/config/config.go : SecurityConfig -/

/-- SecurityConfig of `config.go`; the duration is in nanoseconds. -/
structure SecurityConfig where
  MaxLoginAttempts : Int
  AccountLockDuration : Int
  EnableLoginNotifications : Bool := false
  EnableSuspiciousActivityDetection : Bool := false
  EnableRateLimiting : Bool := false
  GlobalRateLimit : Int := 0
  AuthRateLimit : Int := 0
deriving DecidableEq, Repr

/-- Library functions the security packages call: `strings.ToLower`,
`net.ParseIP` (the 16-byte form of an address, or nothing), and
`uuid.New().String()`, of which `NewUUID n` is the result of the `n`-th call. -/
structure Libs where
  ToLower : String → String
  ParseIP : String → Option (List Nat)
  NewUUID : Nat → String

/-- One hour, as a `time.Duration`. -/
def hour : Int := 3600000000000

/-- One minute, as a `time.Duration`. -/
def minute : Int := 60000000000

/-! ## internal/service/security/service.go -/

namespace Security

/-- Location of `service.go`; the coordinates are never read. -/
structure Location where
  Country : String
  Region : String
  City : String
deriving DecidableEq, Repr

/-- The interface Repository of `service.go`.  A method that receives a pointer
returns the record as the call left it. -/
structure Repository (σ : Type) where
  RecordLoginAttempt : LoginAttempt → σ → (Option GoError × LoginAttempt) × σ
  GetRecentLoginAttempts : String → Int → σ → Except GoError (List LoginAttempt) × σ
  LockAccount : String → Int → String → σ → Option GoError × σ
  UnlockAccount : String → σ → Option GoError × σ
  IsAccountLocked : String → σ → (Bool × Int × String × Option GoError) × σ
  RecordSecurityEvent : SecurityEvent → σ → (Option GoError × SecurityEvent) × σ
  GetUserSecurityEvents : String → Int → σ → Except GoError (List SecurityEvent) × σ

/-- The interface GeoIPLookup of `service.go`. -/
structure GeoIPLookup (σ : Type) where
  GetLocation : String → σ → Except GoError Location × σ

/-- Service of `service.go`; the calls of its logger are entries `Call.Log` of
the trace (level and message, without the key-value pairs). -/
structure Service (σ : Type) where
  repo : Repository σ
  emailSvc : EmailService σ
  config : SecurityConfig
  geoIPLookup : GeoIPLookup σ

/-- SimpleGeoIPLookup of `service.go`: the same dummy location for every
address. -/
def SimpleGeoIPLookup {σ : Type} : GeoIPLookup σ :=
  { GetLocation := fun _ st =>
      (.ok { Country := "Unknown Country", Region := "Unknown Region",
             City := "Unknown City" }, st) }

/-- The method `To4` of `net.IP`. -/
def To4 (ip : List Nat) : Option (List Nat) :=
  if ip.length = 4 then some ip
  else if ip.length = 16 ∧ (ip.take 10).all (fun b => b == 0) ∧ ip.getD 10 0 = 255
      ∧ ip.getD 11 0 = 255 then some (ip.drop 12)
  else none

/-- The method `IsLoopback` of `net.IP`. -/
def IsLoopback (ip : List Nat) : Bool :=
  match To4 ip with
  | some ip4 => ip4.getD 0 0 == 127
  | none => ip == [0, 0, 0, 0, 0, 0, 0, 0, 0, 0, 0, 0, 0, 0, 0, 1]

/-- The method `IsLinkLocalUnicast` of `net.IP`. -/
def IsLinkLocalUnicast (ip : List Nat) : Bool :=
  match To4 ip with
  | some ip4 => ip4.getD 0 0 == 169 && ip4.getD 1 0 == 254
  | none => ip.length == 16 && ip.getD 0 0 == 254 && (ip.getD 1 0) &&& 192 == 128

/-- The method `IsLinkLocalMulticast` of `net.IP`. -/
def IsLinkLocalMulticast (ip : List Nat) : Bool :=
  match To4 ip with
  | some ip4 => ip4.getD 0 0 == 224 && ip4.getD 1 0 == 0 && ip4.getD 2 0 == 0
  | none => ip.length == 16 && ip.getD 0 0 == 255 && (ip.getD 1 0) &&& 15 == 2

/-- isPrivateIP of `service.go`. -/
def isPrivateIP (L : Libs) (ipStr : String) : Bool :=
  match L.ParseIP ipStr with
  | none => false
  | some ip =>
    let private4 : Bool :=
      match To4 ip with
      | none => false
      | some ip4 =>
        ip4.getD 0 0 == 10
          || (ip4.getD 0 0 == 172 && decide (16 ≤ ip4.getD 1 0) && decide (ip4.getD 1 0 ≤ 31))
          || (ip4.getD 0 0 == 192 && ip4.getD 1 0 == 168)
    if private4 then true
    else IsLoopback ip || IsLinkLocalUnicast ip || IsLinkLocalMulticast ip

/-- getLocationString of `service.go`. -/
def getLocationString {σ : Type} (L : Libs) (s : Service σ) (ipAddress : String)
    (w : Sys σ) : Except GoError String × Sys σ :=
  if ipAddress == "127.0.0.1" || ipAddress == "::1" || isPrivateIP L ipAddress then
    (.ok "Local Network", w)
  else
    let r := w.call (Call.GetLocation ipAddress) (s.geoIPLookup.GetLocation ipAddress)
    match r.1 with
    | .error err => (.error err, r.2)
    | .ok location =>
      if location.City != "" && location.Country != "" then
        (.ok (location.City ++ ", " ++ location.Country), r.2)
      else if location.Country != "" then
        (.ok location.Country, r.2)
      else
        (.ok "Unknown Location", r.2)

/-- The test `strings.Contains` on the characters of two texts. -/
def containsChars (sub : List Char) : List Char → Bool
  | [] => sub.isPrefixOf []
  | c :: cs => sub.isPrefixOf (c :: cs) || containsChars sub cs

/-- The call `strings.Contains(s, substr)`. -/
def contains (s substr : String) : Bool := containsChars substr.data s.data

/-- getDeviceInfo of `service.go`. -/
def getDeviceInfo (L : Libs) (userAgent : String) : String :=
  let ua := L.ToLower userAgent
  let device :=
    if contains ua "iphone" then "iPhone"
    else if contains ua "ipad" then "iPad"
    else if contains ua "android" && contains ua "mobile" then "Android Phone"
    else if contains ua "android" then "Android Tablet"
    else if contains ua "macintosh" then "Mac"
    else if contains ua "windows" then "Windows PC"
    else if contains ua "linux" then "Linux PC"
    else "Unknown Device"
  let os :=
    if contains ua "windows nt 10" then "Windows 10"
    else if contains ua "windows nt 6.3" then "Windows 8.1"
    else if contains ua "windows nt 6.2" then "Windows 8"
    else if contains ua "windows nt 6.1" then "Windows 7"
    else if contains ua "mac os x" then "macOS"
    else if contains ua "android" then "Android"
    else if contains ua "ios" then "iOS"
    else if contains ua "linux" then "Linux"
    else "Unknown OS"
  let browser :=
    if contains ua "chrome" && !contains ua "edg" then "Chrome"
    else if contains ua "firefox" then "Firefox"
    else if contains ua "safari" && !contains ua "chrome" then "Safari"
    else if contains ua "edg" then "Edge"
    else if contains ua "opera" then "Opera"
    else "Unknown Browser"
  device ++ " (" ++ os ++ ", " ++ browser ++ ")"

/-- sendLoginNotification of `service.go`. -/
def sendLoginNotification {σ : Type} (L : Libs) (s : Service σ) (email : String)
    (attempt : LoginAttempt) (w : Sys σ) : Option GoError × Sys σ :=
  let deviceInfo := getDeviceInfo L attempt.UserAgent
  let location := attempt.Location
  w.call (Call.SendLoginNotificationEmail email deviceInfo location)
    (s.emailSvc.SendLoginNotificationEmail email deviceInfo location)

/-- sendAccountLockedEmail of `service.go`: it only writes a log entry, of which
the message is kept. -/
def sendAccountLockedEmail {σ : Type} (_email : String) (_unlockTime : Int)
    (_failedAttempts : Int) (w : Sys σ) : Option GoError × Sys σ :=
  (none, w.log (Call.Log "info" "Account locked"))

/-- sendSuspiciousActivityEmail of `service.go`: it only writes a log entry, of
which the message is kept. -/
def sendSuspiciousActivityEmail {σ : Type} (_email : String) (_event : SecurityEvent)
    (w : Sys σ) : Option GoError × Sys σ :=
  (none, w.log (Call.Log "info" "Suspicious activity detected"))

/-- A log entry of level error when a best-effort call has failed. -/
def logIfError {σ : Type} (err : Option GoError) (message : String) (w : Sys σ) : Sys σ :=
  match err with
  | some _ => w.log (Call.Log "error" message)
  | none => w

/-- The loop of handleSuccessfulLogin over the recent logins; the pair is
`(isNewLocation, isNewDevice)`. -/
def scanLogins (attempt : LoginAttempt) : List LoginAttempt → Bool × Bool → Bool × Bool
  | [], flags => flags
  | login :: rest, flags =>
    if login.ID == attempt.ID then scanLogins attempt rest flags
    else if !login.Successful then scanLogins attempt rest flags
    else
      scanLogins attempt rest
        (if login.Location == attempt.Location then false else flags.1,
         if login.UserAgent == attempt.UserAgent then false else flags.2)

/-- handleSuccessfulLogin of `service.go`. -/
def handleSuccessfulLogin {σ : Type} (P : Platform) (L : Libs) (s : Service σ)
    (userID email : String) (attempt : LoginAttempt) (w : Sys σ) :
    Option GoError × Sys σ :=
  let g := w.call (Call.GetRecentLoginAttempts userID 5)
    (s.repo.GetRecentLoginAttempts userID 5)
  match g.1 with
  | .error err => (some (GoError.wrap "failed to get recent login attempts" err), g.2)
  | .ok recentLogins =>
    let flags := scanLogins attempt recentLogins (true, true)
    let isNewLocation := flags.1
    let isNewDevice := flags.2
    if isNewLocation || isNewDevice then
      let n := sendLoginNotification L s email attempt g.2
      let w1 := logIfError n.1 "Failed to send login notification" n.2
      let eventType := if isNewLocation then "new_location_login" else "new_device_login"
      let t := timeNow P w1
      let event : SecurityEvent :=
        { UserID := userID, EventType := eventType, IPAddress := attempt.IPAddress,
          UserAgent := attempt.UserAgent, Location := attempt.Location,
          Description := "Login from " ++ attempt.Location, CreatedAt := t.1 }
      let r := t.2.call (Call.RecordSecurityEvent event) (s.repo.RecordSecurityEvent event)
      (none, logIfError r.1.1 "Failed to record security event" r.2)
    else
      (none, g.2)

/-- The loop of handleFailedLogin over the recent attempts: `time.Since` reads
the clock once for every failed attempt. -/
def countFailed {σ : Type} (P : Platform) : List LoginAttempt → Int → Sys σ → Int × Sys σ
  | [], failedCount, w => (failedCount, w)
  | a :: rest, failedCount, w =>
    if a.Successful then countFailed P rest failedCount w
    else
      let t := timeNow P w
      if t.1 - a.AttemptedAt < hour then countFailed P rest (failedCount + 1) t.2
      else countFailed P rest failedCount t.2

/-- handleFailedLogin of `service.go`. -/
def handleFailedLogin {σ : Type} (P : Platform) (s : Service σ)
    (userID email : String) (attempt : LoginAttempt) (w : Sys σ) :
    Option GoError × Sys σ :=
  if userID == "" then (none, w)
  else
    let g := w.call (Call.GetRecentLoginAttempts userID 10)
      (s.repo.GetRecentLoginAttempts userID 10)
    match g.1 with
    | .error err => (some (GoError.wrap "failed to get recent login attempts" err), g.2)
    | .ok recentAttempts =>
      let c := countFailed P recentAttempts 0 g.2
      let failedCount := c.1
      if s.config.MaxLoginAttempts ≤ failedCount then
        let lockDuration :=
          if s.config.AccountLockDuration == 0 then 30 * minute
          else s.config.AccountLockDuration
        let t := timeNow P c.2
        let unlockTime := t.1 + lockDuration
        let reason := "Too many failed login attempts (" ++ toString failedCount ++ ")"
        let k := t.2.call (Call.LockAccount userID unlockTime reason)
          (s.repo.LockAccount userID unlockTime reason)
        match k.1 with
        | some err => (some (GoError.wrap "failed to lock account" err), k.2)
        | none =>
          let t2 := timeNow P k.2
          let event : SecurityEvent :=
            { UserID := userID, EventType := "account_locked",
              IPAddress := attempt.IPAddress, UserAgent := attempt.UserAgent,
              Location := attempt.Location, Description := reason, CreatedAt := t2.1 }
          let r := t2.2.call (Call.RecordSecurityEvent event)
            (s.repo.RecordSecurityEvent event)
          let w1 := logIfError r.1.1 "Failed to record security event" r.2
          let m := sendAccountLockedEmail email unlockTime failedCount w1
          (none, logIfError m.1 "Failed to send account locked email" m.2)
      else
        (none, c.2)

/-- The location step that opens RecordLoginAttempt and
DetectSuspiciousActivity: the location of the address, or `Unknown location`
with a warning in the log when the lookup fails. -/
def locate {σ : Type} (L : Libs) (s : Service σ) (ipAddress : String) (w : Sys σ) :
    String × Sys σ :=
  let l := getLocationString L s ipAddress w
  match l.1 with
  | .error _ => ("Unknown location", l.2.log (Call.Log "warn" "Failed to get location for IP"))
  | .ok location => (location, l.2)

/-- The attempt record that RecordLoginAttempt builds before it stores it, and
the state in which it is stored. -/
def newAttempt {σ : Type} (P : Platform) (L : Libs) (s : Service σ)
    (userID ipAddress userAgent : String) (successful : Bool) (w : Sys σ) :
    LoginAttempt × Sys σ :=
  let t := timeNow P w
  let attempt : LoginAttempt :=
    { UserID := userID, IPAddress := ipAddress, UserAgent := userAgent,
      Successful := successful, AttemptedAt := t.1 }
  let l := locate L s ipAddress t.2
  ({ attempt with Location := l.1 }, l.2)

/-- RecordLoginAttempt of `service.go`. -/
def RecordLoginAttempt {σ : Type} (P : Platform) (L : Libs) (s : Service σ)
    (userID email ipAddress userAgent : String) (successful : Bool) (w : Sys σ) :
    Option GoError × Sys σ :=
  let a := newAttempt P L s userID ipAddress userAgent successful w
  let r := a.2.call (Call.RecordLoginAttempt a.1) (s.repo.RecordLoginAttempt a.1)
  match r.1.1 with
  | some err => (some (GoError.wrap "failed to record login attempt" err), r.2)
  | none =>
    let attempt := r.1.2
    if successful then handleSuccessfulLogin P L s userID email attempt r.2
    else handleFailedLogin P s userID email attempt r.2

/-- IsAccountLocked of `service.go`. -/
def IsAccountLocked {σ : Type} (s : Service σ) (userID : String) (w : Sys σ) :
    (Bool × Int × String × Option GoError) × Sys σ :=
  w.call (Call.IsAccountLocked userID) (s.repo.IsAccountLocked userID)

/-- UnlockAccount of `service.go`. -/
def UnlockAccount {σ : Type} (s : Service σ) (userID : String) (w : Sys σ) :
    Option GoError × Sys σ :=
  w.call (Call.UnlockAccount userID) (s.repo.UnlockAccount userID)

/-- The loop of DetectSuspiciousActivity over the events: the keys of the map
`locations`, without repetition; `time.Since` reads the clock once for every
event. -/
def collectLocations {σ : Type} (P : Platform) :
    List SecurityEvent → List String → Sys σ → List String × Sys σ
  | [], locations, w => (locations, w)
  | event :: rest, locations, w =>
    let t := timeNow P w
    if t.1 - event.CreatedAt < 24 * hour then
      collectLocations P rest
        (if locations.contains event.Location then locations
         else locations ++ [event.Location]) t.2
    else collectLocations P rest locations t.2

/-- DetectSuspiciousActivity of `service.go`. -/
def DetectSuspiciousActivity {σ : Type} (P : Platform) (L : Libs) (s : Service σ)
    (userID email ipAddress userAgent activityType : String) (w : Sys σ) :
    Option GoError × Sys σ :=
  let located := locate L s ipAddress w
  let location := located.1
  let g := located.2.call (Call.GetUserSecurityEvents userID 10)
    (s.repo.GetUserSecurityEvents userID 10)
  match g.1 with
  | .error err => (some (GoError.wrap "failed to get user security events" err), g.2)
  | .ok events =>
    let c := collectLocations P events [] g.2
    let locations := c.1
    let isSuspicious : Bool := decide (3 ≤ locations.length) && !locations.contains location
    let t := timeNow P c.2
    let event : SecurityEvent :=
      { UserID := userID, EventType := activityType, IPAddress := ipAddress,
        UserAgent := userAgent, Location := location,
        Description := activityType ++ " from " ++ location, CreatedAt := t.1 }
    let r := t.2.call (Call.RecordSecurityEvent event) (s.repo.RecordSecurityEvent event)
    match r.1.1 with
    | some err => (some (GoError.wrap "failed to record security event" err), r.2)
    | none =>
      if isSuspicious then
        let event2 : SecurityEvent :=
          { r.1.2 with EventType := "suspicious_activity",
                       Description := "Activity from multiple locations in a short time period" }
        let r2 := r.2.call (Call.RecordSecurityEvent event2)
          (s.repo.RecordSecurityEvent event2)
        let w1 := logIfError r2.1.1 "Failed to record suspicious activity event" r2.2
        let m := sendSuspiciousActivityEmail email event2 w1
        (none, logIfError m.1 "Failed to send suspicious activity email" m.2)
      else
        (none, r.2)

end Security

/-! ## internal/repository/security/repository.go

The database is its three tables, each in insertion order, the clock `now` of
the server (the value of `NOW()`), which only the environment advances, and the
script `faults` of the outcomes of the coming statements (as for Redis).  The
schema of the tables is not part of the repository: `uniqueLockUser` says
whether `account_locks.user_id` carries a uniqueness constraint.  `uuids` counts
the calls of `uuid.New` made so far. -/

namespace SecurityRepository

structure DB where
  login_attempts : List LoginAttempt := []
  account_locks : List AccountLock := []
  security_events : List SecurityEvent := []
  now : Int := 0
  uuids : Nat := 0
  uniqueLockUser : Bool := false
  faults : List (Option String) := []
deriving DecidableEq, Repr

/-- One statement sent to the server: the next outcome of the script is
consumed. -/
def exec (db : DB) : Option String × DB :=
  match db.faults with
  | [] => (none, db)
  | f :: fs => (f, { db with faults := fs })

/-- The call `uuid.New().String()`. -/
def newUUID (L : Libs) (db : DB) : String × DB :=
  (L.NewUUID db.uuids, { db with uuids := db.uuids + 1 })

/-- RecordLoginAttempt of `repository.go`. -/
def RecordLoginAttempt (L : Libs) (attempt : LoginAttempt) (db : DB) :
    (Option GoError × LoginAttempt) × DB :=
  let a : LoginAttempt × DB :=
    if attempt.ID == "" then
      let u := newUUID L db
      ({ attempt with ID := u.1 }, u.2)
    else (attempt, db)
  let t := exec a.2
  match t.1 with
  | some e => ((some (.text ("failed to record login attempt: " ++ e)), a.1), t.2)
  | none => ((none, a.1), { t.2 with login_attempts := t.2.login_attempts ++ [a.1] })

/-- Insertion into a list ordered by descending `attempted_at`. -/
def insertAttempt (a : LoginAttempt) : List LoginAttempt → List LoginAttempt
  | [] => [a]
  | b :: rest =>
    if b.AttemptedAt < a.AttemptedAt then a :: b :: rest
    else b :: insertAttempt a rest

/-- The clause `ORDER BY attempted_at DESC`; rows of equal time, of which SQL
leaves the order open, come out in insertion order. -/
def orderAttempts (rows : List LoginAttempt) : List LoginAttempt :=
  rows.foldl (fun sorted a => insertAttempt a sorted) []

/-- GetRecentLoginAttempts of `repository.go`. -/
def GetRecentLoginAttempts (userID : String) (limit : Int) (db : DB) :
    Except GoError (List LoginAttempt) × DB :=
  let t := exec db
  match t.1 with
  | some e => (.error (.text ("failed to get recent login attempts: " ++ e)), t.2)
  | none =>
    (.ok ((orderAttempts (t.2.login_attempts.filter (fun a => a.UserID == userID))).take
      limit.toNat), t.2)

/-- The first statement of LockAccount: `SELECT EXISTS(...)`. -/
def lockCheck (userID : String) (db : DB) : Except GoError Bool × DB :=
  let t := exec db
  match t.1 with
  | some e => (.error (.text ("failed to check if account is locked: " ++ e)), t.2)
  | none => (.ok (t.2.account_locks.any (fun l => l.UserID == userID)), t.2)

/-- The second statement of LockAccount: the UPDATE when the check found a
row, the INSERT otherwise. -/
def lockWrite (L : Libs) (found : Bool) (userID : String) (unlockAt : Int)
    (reason : String) (db : DB) : Option GoError × DB :=
  if found then
    let t := exec db
    match t.1 with
    | some e => (some (.text ("failed to update account lock: " ++ e)), t.2)
    | none =>
      (none, { t.2 with account_locks := t.2.account_locks.map (fun l =>
        if l.UserID == userID then
          { l with UnlockAt := unlockAt, Reason := reason, LockedAt := t.2.now }
        else l) })
  else
    let u := newUUID L db
    let t := exec u.2
    match t.1 with
    | some e => (some (.text ("failed to lock account: " ++ e)), t.2)
    | none =>
      if t.2.uniqueLockUser && t.2.account_locks.any (fun l => l.UserID == userID) then
        (some (.text ("failed to lock account: "
          ++ "UNIQUE constraint failed: account_locks.user_id")), t.2)
      else
        (none, { t.2 with account_locks := t.2.account_locks ++
          [{ ID := u.1, UserID := userID, LockedAt := t.2.now, UnlockAt := unlockAt,
             Reason := reason, CreatedBy := "system" }] })

/-- LockAccount of `repository.go`. -/
def LockAccount (L : Libs) (userID : String) (unlockAt : Int) (reason : String)
    (db : DB) : Option GoError × DB :=
  let c := lockCheck userID db
  match c.1 with
  | .error err => (some err, c.2)
  | .ok found => lockWrite L found userID unlockAt reason c.2

/-- UnlockAccount of `repository.go`. -/
def UnlockAccount (userID : String) (db : DB) : Option GoError × DB :=
  let t := exec db
  match t.1 with
  | some e => (some (.text ("failed to unlock account: " ++ e)), t.2)
  | none =>
    (none, { t.2 with account_locks := t.2.account_locks.filter (fun l => l.UserID != userID) })

/-- IsAccountLocked of `repository.go`: the first row of the user with
`unlock_at > NOW()`. -/
def IsAccountLocked (userID : String) (db : DB) :
    (Bool × Int × String × Option GoError) × DB :=
  let t := exec db
  match t.1 with
  | some e =>
    ((false, zeroTime, "", some (.text ("failed to check if account is locked: " ++ e))), t.2)
  | none =>
    match t.2.account_locks.filter (fun l => l.UserID == userID && decide (t.2.now < l.UnlockAt)) with
    | [] => ((false, zeroTime, "", none), t.2)
    | l :: _ => ((true, l.UnlockAt, l.Reason, none), t.2)

/-- RecordSecurityEvent of `repository.go`. -/
def RecordSecurityEvent (L : Libs) (event : SecurityEvent) (db : DB) :
    (Option GoError × SecurityEvent) × DB :=
  let a : SecurityEvent × DB :=
    if event.ID == "" then
      let u := newUUID L db
      ({ event with ID := u.1 }, u.2)
    else (event, db)
  let t := exec a.2
  match t.1 with
  | some e => ((some (.text ("failed to record security event: " ++ e)), a.1), t.2)
  | none => ((none, a.1), { t.2 with security_events := t.2.security_events ++ [a.1] })

/-- Insertion into a list ordered by descending `created_at`. -/
def insertEvent (a : SecurityEvent) : List SecurityEvent → List SecurityEvent
  | [] => [a]
  | b :: rest =>
    if b.CreatedAt < a.CreatedAt then a :: b :: rest
    else b :: insertEvent a rest

/-- The clause `ORDER BY created_at DESC`. -/
def orderEvents (rows : List SecurityEvent) : List SecurityEvent :=
  rows.foldl (fun sorted a => insertEvent a sorted) []

/-- GetUserSecurityEvents of `repository.go`. -/
def GetUserSecurityEvents (userID : String) (limit : Int) (db : DB) :
    Except GoError (List SecurityEvent) × DB :=
  let t := exec db
  match t.1 with
  | some e => (.error (.text ("failed to get user security events: " ++ e)), t.2)
  | none =>
    (.ok ((orderEvents (t.2.security_events.filter (fun a => a.UserID == userID))).take
      limit.toNat), t.2)

/-- Repository as the interface `security.Repository`. -/
def repository (L : Libs) : Security.Repository DB :=
  { RecordLoginAttempt := RecordLoginAttempt L
    GetRecentLoginAttempts := GetRecentLoginAttempts
    LockAccount := LockAccount L
    UnlockAccount := UnlockAccount
    IsAccountLocked := IsAccountLocked
    RecordSecurityEvent := RecordSecurityEvent L
    GetUserSecurityEvents := GetUserSecurityEvents }

end SecurityRepository

/-! ## A concrete security service over the SQL repository -/

namespace Demo

/-- One part of a dotted IPv4 address: a number up to 255 without a leading
zero. -/
def parseOctet (cs : List Char) : Option Nat :=
  match cs with
  | [] => none
  | ['0'] => some 0
  | '0' :: _ => none
  | _ => (Redis.parseDigits cs 0).bind (fun n => if n ≤ 255 then some n else none)

/-- The parts of a text between the dots. -/
def splitDots : List Char → List Char → List (List Char)
  | [], part => [part]
  | c :: cs, part => if c = '.' then part :: splitDots cs [] else splitDots cs (part ++ [c])

/-- A stand-in for `net.ParseIP`: dotted IPv4 addresses, in the 16-byte form,
and the IPv6 loopback address. -/
def parseIP (ip : String) : Option (List Nat) :=
  if ip = "::1" then some [0, 0, 0, 0, 0, 0, 0, 0, 0, 0, 0, 0, 0, 0, 0, 1]
  else
    match (splitDots ip.data []).map parseOctet with
    | [some a, some b, some c, some d] =>
      some [0, 0, 0, 0, 0, 0, 0, 0, 0, 0, 255, 255, a, b, c, d]
    | _ => none

/-- The libraries of the examples; `ToLower` lowers the letters A to Z. -/
def libs : Libs :=
  { ToLower := fun s => String.mk (s.data.map Char.toLower)
    ParseIP := parseIP
    NewUUID := fun n => "00000000-0000-4000-8000-" ++ String.mk (fixedDigits 12 n) }

/-- An email service over any state that sends nothing and reports success. -/
def emailStub {σ : Type} : EmailService σ :=
  { SendVerificationEmail := fun _ _ r => (none, r)
    SendPasswordResetEmail := fun _ _ r => (none, r)
    SendWelcomeEmail := fun _ _ r => (none, r)
    SendPasswordChangedEmail := fun _ r => (none, r)
    SendLoginNotificationEmail := fun _ _ _ r => (none, r) }

/-- The security configuration of the defaults of `config.go`: five attempts,
a lock of thirty minutes. -/
def securityConfig : SecurityConfig :=
  { MaxLoginAttempts := 5, AccountLockDuration := 1800000000000 }

/-- The security service over the SQL repository. -/
def securityService : Security.Service SecurityRepository.DB :=
  { repo := SecurityRepository.repository libs, emailSvc := emailStub,
    config := securityConfig, geoIPLookup := Security.SimpleGeoIPLookup }

end Demo

namespace Security

/-- The first two steps of RecordLoginAttempt: the attempt record is built and
handed to the repository; the result is what the repository returned and the
state it left. -/
def storeAttempt {σ : Type} (P : Platform) (L : Libs) (s : Service σ)
    (userID ipAddress userAgent : String) (successful : Bool) (w : Sys σ) :
    (Option GoError × LoginAttempt) × Sys σ :=
  let a := newAttempt P L s userID ipAddress userAgent successful w
  a.2.call (Call.RecordLoginAttempt a.1) (s.repo.RecordLoginAttempt a.1)

end Security

namespace Security

/-- The event of DetectSuspiciousActivity after the function has overwritten
its type and its description for the second record. -/
def asSuspicious (event : SecurityEvent) : SecurityEvent :=
  { event with EventType := "suspicious_activity",
               Description := "Activity from multiple locations in a short time period" }

end Security

namespace SecurityRepository

/-- The table `account_locks` holds at most one row for every user. -/
def oneLockPerUser (db : DB) : Prop :=
  ∀ userID : String, (db.account_locks.filter (fun l => l.UserID == userID)).length ≤ 1

/-- A call of LockAccount or of UnlockAccount. -/
inductive LockOp where
  | lock (userID : String) (unlockAt : Int) (reason : String)
  | unlock (userID : String)
deriving DecidableEq, Repr

/-- The database after a call, whatever the call returned. -/
def applyOp (L : Libs) : LockOp → DB → DB
  | .lock userID unlockAt reason, db => (LockAccount L userID unlockAt reason db).2
  | .unlock userID, db => (UnlockAccount userID db).2

/-- The database after a sequence of calls, one after the other. -/
def applyOps (L : Libs) : List LockOp → DB → DB
  | [], db => db
  | op :: ops, db => applyOps L ops (applyOp L op db)

/-- A call of LockAccount in progress: not started, between its two
statements (with the answer of the first), or returned. -/
inductive LockCall where
  | start (userID : String) (unlockAt : Int) (reason : String)
  | checked (found : Bool) (userID : String) (unlockAt : Int) (reason : String)
  | done (err : Option GoError)
deriving DecidableEq, Repr

/-- The next statement of a call of LockAccount. -/
def LockCall.step (L : Libs) : LockCall → DB → LockCall × DB
  | .start userID unlockAt reason, db =>
    let c := lockCheck userID db
    match c.1 with
    | .error err => (.done (some err), c.2)
    | .ok found => (.checked found userID unlockAt reason, c.2)
  | .checked found userID unlockAt reason, db =>
    let x := lockWrite L found userID unlockAt reason db
    (.done x.1, x.2)
  | .done err, db => (.done err, db)

/-- Two calls of LockAccount run concurrently on one database: the schedule
says, statement by statement, which of the two calls goes next (`false` the
first, `true` the second). -/
def interleave (L : Libs) : List Bool → LockCall × LockCall × DB → LockCall × LockCall × DB
  | [], state => state
  | false :: schedule, (a, b, db) =>
    let r := a.step L db
    interleave L schedule (r.1, b, r.2)
  | true :: schedule, (a, b, db) =>
    let r := b.step L db
    interleave L schedule (a, r.1, r.2)

end SecurityRepository

/-- The calls that Login of `paseto.go` can make. -/
def Call.ofLogin : Call → Bool
  | .CheckRateLimit _ _ _ => true
  | .GetUser _ => true
  | .Sign _ => true
  | .StoreSession _ _ _ => true
  | _ => false

namespace Demo

/-- A browser on Linux. -/
def firefox : String := "Mozilla/5.0 (X11; Linux x86_64) Firefox/120.0"

/-- A browser on a phone. -/
def safari : String :=
  "Mozilla/5.0 (iPhone; CPU iPhone OS 17_0 like Mac OS X) Version/17.0 Mobile Safari/604.1"

/-- The location SimpleGeoIPLookup gives to every public address. -/
def unknownCity : String := "Unknown City, Unknown Country"

/-- Row `n` of a login history of `user`: attempt `n` was made `60 - n` seconds
before the first reading of `clock`. -/
def pastAttempt (n : Nat) (successful : Bool) (userAgent location : String) : LoginAttempt :=
  { ID := "attempt-" ++ toString n, UserID := "user123", IPAddress := "203.0.113.7",
    UserAgent := userAgent, Location := location, Successful := successful,
    AttemptedAt := 1700000000000000000 - 60000000000 + 1000000000 * n }

/-- A database whose server clock shows the first reading of `clock`, with the
login history `history`. -/
def database (history : List LoginAttempt) : SecurityRepository.DB :=
  { login_attempts := history, now := 1700000000000000000 }

/-- A failed login of `user`, recorded by the security service under the clock
`now`. -/
def failedLogin (now : Nat → Int) (w : Sys SecurityRepository.DB) :
    Option GoError × Sys SecurityRepository.DB :=
  Security.RecordLoginAttempt (platform now) libs securityService "user123"
    "test@example.com" "203.0.113.7" firefox false w

/-- A successful login of `user`, recorded by the security service under the
clock `now`. -/
def successfulLogin (now : Nat → Int) (w : Sys SecurityRepository.DB) :
    Option GoError × Sys SecurityRepository.DB :=
  Security.RecordLoginAttempt (platform now) libs securityService "user123"
    "test@example.com" "203.0.113.7" firefox true w

/-- Four failed attempts within the last minute. -/
def fourFailures : List LoginAttempt :=
  [pastAttempt 0 false firefox unknownCity, pastAttempt 1 false firefox unknownCity,
   pastAttempt 2 false firefox unknownCity, pastAttempt 3 false firefox unknownCity]

/-- Nine successful attempts that follow `fourFailures`. -/
def nineSuccesses : List LoginAttempt :=
  [pastAttempt 4 true firefox unknownCity, pastAttempt 5 true firefox unknownCity,
   pastAttempt 6 true firefox unknownCity, pastAttempt 7 true firefox unknownCity,
   pastAttempt 8 true firefox unknownCity, pastAttempt 9 true firefox unknownCity,
   pastAttempt 10 true firefox unknownCity, pastAttempt 11 true firefox unknownCity,
   pastAttempt 12 true firefox unknownCity]

/-- A successful attempt followed by four failed ones. -/
def successThenFailures : List LoginAttempt :=
  [pastAttempt 0 true firefox unknownCity, pastAttempt 1 false firefox unknownCity,
   pastAttempt 2 false firefox unknownCity, pastAttempt 3 false firefox unknownCity,
   pastAttempt 4 false firefox unknownCity]

end Demo

namespace Demo

/-- The state of the security service over a database with the login history
`history`, before any call. -/
def securityWorld (history : List LoginAttempt) : Sys SecurityRepository.DB :=
  { st := database history }

/-- The row that RecordLoginAttempt stores for the login of `failedLogin` or of
`successfulLogin` when it is the first row the repository gives an id to and
the clock reads `attemptedAt`. -/
def storedAttempt (successful : Bool) (attemptedAt : Int) : LoginAttempt :=
  { ID := "00000000-0000-4000-8000-000000000000", UserID := "user123",
    IPAddress := "203.0.113.7", UserAgent := firefox, Location := unknownCity,
    Successful := successful, AttemptedAt := attemptedAt }

end Demo

namespace Demo

/-- Row `n` of the security events of `user`: a login at `location`, `60 - n`
seconds before the first reading of `clock`. -/
def pastEvent (n : Nat) (location : String) : SecurityEvent :=
  { ID := "event-" ++ toString n, UserID := "user123", EventType := "login",
    IPAddress := "203.0.113.7", UserAgent := firefox, Location := location,
    Description := "login from " ++ location,
    CreatedAt := 1700000000000000000 - 60000000000 + 1000000000 * n }

/-- Events of the last minute at three places. -/
def threePlaces : List SecurityEvent :=
  [pastEvent 0 "Accra, Ghana", pastEvent 1 "Kumasi, Ghana", pastEvent 2 "Lagos, Nigeria"]

/-- The state of the security service over a database that holds the events of
`threePlaces`. -/
def eventWorld : Sys SecurityRepository.DB :=
  { st := { security_events := threePlaces, now := 1700000000000000000 } }

end Demo

namespace Demo

/-- The database after five failed logins of `user` in a row, recorded by the
security service under `clock`, starting from an empty database. -/
def lockedDatabase : SecurityRepository.DB :=
  (failedLogin clock (failedLogin clock (failedLogin clock (failedLogin clock
    (failedLogin clock (securityWorld [])).2).2).2).2).2.st

end Demo

namespace SecurityRepository

/-- What the UPDATE of LockAccount makes of a row: the rows of `userID` get the
new unlock-at and reason and the time of the server, the others stay. -/
def relock (userID : String) (unlockAt : Int) (reason : String) (now : Int)
    (l : AccountLock) : AccountLock :=
  if l.UserID == userID then
    { l with UnlockAt := unlockAt, Reason := reason, LockedAt := now }
  else l

end SecurityRepository

/-! ## internal/service/auth/paseto.go : registration and email verification -/

/-- VerifyEmailRequest of `models/user.go`. -/
structure VerifyEmailRequest where
  Token : String
deriving DecidableEq, Repr

/-- The statement `fmt.Printf(format, err)` that follows a failed step: the line
written to the standard output is an entry `Call.Print` of the trace. -/
def printIfError {σ : Type} (err : Option GoError) (context : String) (w : Sys σ) : Sys σ :=
  match err with
  | some e => w.log (Call.Print (context ++ ": " ++ e.message ++ "\n"))
  | none => w

/-- SendVerificationEmail of `paseto.go`. -/
def SendVerificationEmail {σ : Type} (P : Platform) (s : PasetoService σ)
    (userID : String) (w : Sys σ) : Option GoError × Sys σ :=
  let g := w.call (Call.GetUser userID) (s.userSvc.GetUser userID)
  match g.1 with
  | .error err => (some err, g.2)
  | .ok user =>
    let t := generateToken P s userID "verification" s.config.VerificationTTL g.2
    match t.1 with
    | .error err => (some err, t.2)
    | .ok token =>
      let m := t.2.call (Call.SendVerificationEmail user.Email token)
        (s.emailSvc.SendVerificationEmail user.Email token)
      match m.1 with
      | some err => (some (GoError.wrap "failed to send verification email" err), m.2)
      | none => (none, m.2)

/-- Register of `paseto.go`. -/
def Register {σ : Type} (P : Platform) (s : PasetoService σ) (req : CreateUserRequest)
    (w : Sys σ) : Except GoError User × Sys σ :=
  let c := w.call (Call.CreateUser req) (s.userSvc.CreateUser req)
  match c.1 with
  | .error err => (.error err, c.2)
  | .ok user =>
    let v := SendVerificationEmail P s user.ID c.2
    let w1 := printIfError v.1 "failed to send verification email" v.2
    let m := w1.call (Call.SendWelcomeEmail user.Email user.FullName)
      (s.emailSvc.SendWelcomeEmail user.Email user.FullName)
    let w2 := printIfError m.1 "failed to send welcome email" m.2
    (.ok user, w2)

/-- VerifyEmail of `paseto.go`.  The update request is the composite literal
of the source, which sets no field (it holds only the comment
`Set email as verified in the database`). -/
def VerifyEmail {σ : Type} (P : Platform) (s : PasetoService σ) (req : VerifyEmailRequest)
    (w : Sys σ) : Option GoError × Sys σ :=
  let v := validateToken P s req.Token w
  match v.1 with
  | .error err => (some err, v.2)
  | .ok claims =>
    if claims.Typ != "verification" then
      (some (.app (NewAuthenticationError "invalid token type")), v.2)
    else
      let updateReq : UpdateUserRequest := {}
      let u := v.2.call (Call.UpdateUser claims.Subject updateReq)
        (s.userSvc.UpdateUser claims.Subject updateReq)
      match u.1 with
      | .error err => (some err, u.2)
      | .ok _ => (none, u.2)

namespace Redis

/-- The environment: `d` nanoseconds pass on the server clock. -/
def elapse (r : Redis) (d : Int) : Redis := { r with now := r.now + d }

end Redis

namespace Demo

/-- The key of the login rate limit of the user of the examples. -/
def loginKey : String := "login_attempts:test@example.com"

/-- The cache after a first CheckRateLimit call on `loginKey`, with limit 2 and
a window of 900 seconds, at the server time 0. -/
def firstCheck : Redis := (RedisService.CheckRateLimit loginKey 2 900 {}).2

/-- The cache after a second such call, 600 seconds later. -/
def secondCheck : Redis :=
  (RedisService.CheckRateLimit loginKey 2 900 (firstCheck.elapse 600000000000)).2

end Demo

namespace Demo

/-- A limiter with limit 2 that holds the records of two clients: the window of
the first ends at 110 s, the window of the second, who is at the limit, ended
at 60 s. -/
def usedLimiter : RateLimiter :=
  { clients :=
      [("198.51.100.9", { count := 1, lastAccess := 50000000000, resetTime := 110000000000 }),
       ("203.0.113.7", { count := 2, lastAccess := 5000000000, resetTime := 60000000000 })],
    config := limiterConfig 2 [] }

/-- Three requests of the second client and one of the first, from 70 s on. -/
def laterRequests : List (Request × Int) :=
  [(loginRequest, 70000000000), (loginRequest, 71000000000),
   ({ Path := "/api/auth/login", RemoteAddr := "198.51.100.9" }, 72000000000),
   (loginRequest, 73000000000)]

end Demo

/-! ## internal/validation/validator.go -/

/-- NewValidationError of `errors.go`. -/
def NewValidationError (message : String) : AppError :=
  { Code := "VALIDATION_ERROR", Message := message, StatusCode := 400 }

/-- The constant ErrPasswordTooWeak of `errors.go`. -/
def ErrPasswordTooWeak : String := "Password does not meet security requirements"

namespace Validation

/-- The predicates of package `unicode` that validatePassword calls. -/
structure Unicode where
  IsUpper : Char → Bool
  IsLower : Char → Bool
  IsNumber : Char → Bool
  IsPunct : Char → Bool
  IsSymbol : Char → Bool

/-- What validatePassword reads of a `validator.FieldLevel`: the text
`fl.Field().String()`. -/
structure FieldLevel where
  Field : String
deriving DecidableEq, Repr

def minPasswordLength : Nat := 8

def maxPasswordLength : Nat := 72

/-- The four variables of the loop of validatePassword. -/
structure Flags where
  hasUpper : Bool := false
  hasLower : Bool := false
  hasNumber : Bool := false
  hasSpecial : Bool := false
deriving DecidableEq, Repr

/-- The loop of validatePassword over the characters of the password: the
`switch` takes the first case that holds. -/
def scanPassword (U : Unicode) : List Char → Flags → Flags
  | [], flags => flags
  | char :: rest, flags =>
    scanPassword U rest
      (if U.IsUpper char then { flags with hasUpper := true }
       else if U.IsLower char then { flags with hasLower := true }
       else if U.IsNumber char then { flags with hasNumber := true }
       else if U.IsPunct char || U.IsSymbol char then { flags with hasSpecial := true }
       else flags)

/-- The panic of the Go runtime on a method call through a nil interface. -/
def nilDereference : String :=
  "runtime error: invalid memory address or nil pointer dereference"

/-- validatePassword of `validator.go`.  The argument `none` is the nil
interface, on which the call `fl.Field()` panics; the result `.error` is a
panic, with its message.  `len(password)` is the number of bytes. -/
def validatePassword (U : Unicode) (fl : Option FieldLevel) : Except String Bool :=
  match fl with
  | none => .error nilDereference
  | some fl =>
    let password := fl.Field
    if password.utf8ByteSize < minPasswordLength
        || password.utf8ByteSize > maxPasswordLength then
      .ok false
    else
      let flags := scanPassword U password.data {}
      .ok (flags.hasUpper && flags.hasLower && flags.hasNumber && flags.hasSpecial)

/-- ValidatePassword of `validator.go`: it calls validatePassword with
`validator.FieldLevel(nil)` and does not read its parameter. -/
def ValidatePassword (U : Unicode) (_password : String) : Except String (Option GoError) :=
  match validatePassword U none with
  | .error p => .error p
  | .ok valid =>
    if !valid then .ok (some (.app (NewValidationError ErrPasswordTooWeak)))
    else .ok none

end Validation

/-! ## internal/handler/user/handler.go -/

namespace UserHandler

/-- The full name that Register of `handler/auth/handler.go` and UpdateProfile
build: `req.FirstName + " " + req.LastName`. -/
def fullName (firstName lastName : String) : String := firstName ++ " " ++ lastName

/-- The loop of splitFullName: the index of the last space seen so far, from
the index `i` on. -/
def lastSpace : List Char → Nat → Int → Int
  | [], _, lastSpaceIndex => lastSpaceIndex
  | r :: rest, i, lastSpaceIndex =>
    lastSpace rest (i + 1) (if r = ' ' then (i : Int) else lastSpaceIndex)

/-- splitFullName of `handler.go`. -/
def splitFullName (fullName : String) : String × String :=
  let parts := fullName.data
  let lastSpaceIndex := lastSpace parts 0 (-1)
  if lastSpaceIndex = -1 then (fullName, "")
  else
    (String.mk (parts.take lastSpaceIndex.toNat),
     String.mk (parts.drop (lastSpaceIndex.toNat + 1)))

end UserHandler

namespace Demo

/-- The state of `eventWorld` with the script `faults` of statement outcomes. -/
def eventWorldWith (faults : List (Option String)) : Sys SecurityRepository.DB :=
  { st := { security_events := threePlaces, now := 1700000000000000000, faults := faults } }

end Demo

/-! # Theorems -/

/-! ## The token codec of the examples: Verify reads back what Sign wrote -/

namespace Demo

theorem digitVal_digitChar (d : Nat) (h : d < 10) :
    Redis.digitVal (digitChar d) = some d := by
  interval_cases d <;> decide

theorem parseDigits_append (xs ys : List Char) (acc : Nat) :
    Redis.parseDigits (xs ++ ys) acc
      = (Redis.parseDigits xs acc).bind (fun a => Redis.parseDigits ys a) := by
  induction xs generalizing acc with
  | nil => simp [Redis.parseDigits]
  | cons x xs ih =>
    simp only [List.cons_append, Redis.parseDigits]
    cases Redis.digitVal x with
    | none => simp
    | some d => simp [ih]

theorem parseDigits_fixedDigits (k n acc : Nat) :
    Redis.parseDigits (fixedDigits k n) acc = some (acc * 10 ^ k + n % 10 ^ k) := by
  induction k generalizing n acc with
  | zero => simp [fixedDigits, Redis.parseDigits, Nat.mod_one]
  | succ k ih =>
    simp only [fixedDigits, parseDigits_append, ih, Option.some_bind, Redis.parseDigits,
      digitVal_digitChar (n % 10) (Nat.mod_lt _ (by decide))]
    congr 1
    have h1 : n % 10 ^ (k + 1) = 10 * (n / 10 % 10 ^ k) + n % 10 := by
      rw [pow_succ, Nat.mul_comm, Nat.mod_mul]
      omega
    rw [h1, pow_succ]
    ring

theorem length_fixedDigits (k n : Nat) : (fixedDigits k n).length = k := by
  induction k generalizing n with
  | zero => simp [fixedDigits]
  | succ k ih => simp [fixedDigits, ih]

theorem readNat_writeNat (n : Nat) (h : n < 10 ^ 19) (rest : List Char) :
    readNat (writeNat n ++ rest) = some (n, rest) := by
  have hl : (writeNat n).length = 19 := length_fixedDigits 19 n
  have ht : (writeNat n ++ rest).take 19 = writeNat n := by
    rw [← hl, List.take_left]
  have hd : (writeNat n ++ rest).drop 19 = rest := by
    rw [← hl, List.drop_left]
  unfold readNat
  rw [ht, hd]
  have hlen : ¬ (writeNat n ++ rest).length < 19 := by
    rw [List.length_append, hl]; omega
  simp only [hlen, if_false]
  unfold writeNat
  rw [parseDigits_fixedDigits, Nat.mod_eq_of_lt h]
  simp

theorem readStr_writeStr (s : String) (h : s.length < 10 ^ 19) (rest : List Char) :
    readStr (writeStr s ++ rest) = some (s, rest) := by
  unfold readStr writeStr
  rw [List.append_assoc, readNat_writeNat _ h]
  have hl : s.data.length = s.length := rfl
  have ht : (s.data ++ rest).take s.length = s.data := by rw [← hl, List.take_left]
  have hd : (s.data ++ rest).drop s.length = rest := by rw [← hl, List.drop_left]
  have hlen : ¬ (s.data ++ rest).length < s.length := by
    rw [List.length_append, hl]; omega
  simp only [hlen, if_false, ht, hd]

theorem readInt_writeInt (i : Int) (h : i.natAbs < 10 ^ 19) (rest : List Char) :
    readInt (writeInt i ++ rest) = some (i, rest) := by
  unfold writeInt
  by_cases hi : i < 0
  · simp only [hi, if_true, List.cons_append, readInt, readNat_writeNat _ h, Option.map_some']
    congr 2
    omega
  · simp only [hi, if_false, List.cons_append, readInt, readNat_writeNat _ h, Option.map_some']
    congr 2
    omega

theorem decode_encode (c : TokenClaims) (h : fits c = true) : decode (encode c) = some c := by
  simp only [fits, Bool.and_eq_true, decide_eq_true_eq] at h
  obtain ⟨⟨⟨⟨h1, h2⟩, h3⟩, h4⟩, h5⟩ := h
  have hh : header.length = 10 := by decide
  unfold decode encode
  simp only [List.append_assoc]
  have ht : (header ++ (writeStr c.ID ++ (writeStr c.Subject ++ (writeStr c.Typ ++
      (writeInt c.IssuedAt ++ writeInt c.ExpiresAt))))).take 10 = header := by
    rw [← hh, List.take_left]
  have hd : (header ++ (writeStr c.ID ++ (writeStr c.Subject ++ (writeStr c.Typ ++
      (writeInt c.IssuedAt ++ writeInt c.ExpiresAt))))).drop 10
      = writeStr c.ID ++ (writeStr c.Subject ++ (writeStr c.Typ ++
      (writeInt c.IssuedAt ++ writeInt c.ExpiresAt))) := by
    rw [← hh, List.drop_left]
  rw [ht, hd]
  simp only [if_true, readStr_writeStr _ h1, readStr_writeStr _ h2, readStr_writeStr _ h3,
    readInt_writeInt _ h4]
  have h6 := readInt_writeInt c.ExpiresAt h5 []
  rw [List.append_nil] at h6
  rw [h6]

theorem Verify_mk (pub : Key) (hpub : pub.length = 32) (l : List Char) (c : TokenClaims)
    (h : decode l = some c) : Verify (String.mk l) pub = .ok c := by
  unfold Verify
  rw [if_pos hpub]
  dsimp only
  rw [h]

/-- Verify accepts what Sign produced, and returns the claims that were signed. -/
theorem Verify_Sign (priv pub : Key) (hpub : pub.length = 32) (c : TokenClaims)
    (token : String) (h : Sign priv c = .ok token) : Verify token pub = .ok c := by
  unfold Sign at h
  split at h
  · rename_i hk
    injection h with h
    subst h
    exact Verify_mk pub hpub _ c (decode_encode c hk.2)
  · cases h

end Demo

/-! ## generateToken, validateToken and the service methods -/

theorem generateToken_fst {σ : Type} (P : Platform) (s : PasetoService σ)
    (subject tokenType : String) (expiration : Int) (w : Sys σ) :
    (generateToken P s subject tokenType expiration w).1
      = match P.Sign s.privateKey
          { ID := toString (P.Now (w.tick + 1)), Subject := subject,
            IssuedAt := P.Now w.tick, ExpiresAt := P.Now w.tick + expiration,
            Typ := tokenType } with
        | .error e => .error (.text ("failed to generate token: " ++ e))
        | .ok token => .ok token := by
  unfold generateToken
  simp only [timeNow, generateUUID]
  split <;> rfl

theorem generateToken_snd {σ : Type} (P : Platform) (s : PasetoService σ)
    (subject tokenType : String) (expiration : Int) (w : Sys σ) :
    (generateToken P s subject tokenType expiration w).2
      = { st := w.st, tick := w.tick + 2,
          trace := w.trace ++ [Call.Sign
            { ID := toString (P.Now (w.tick + 1)), Subject := subject,
              IssuedAt := P.Now w.tick, ExpiresAt := P.Now w.tick + expiration,
              Typ := tokenType }] } := by
  unfold generateToken
  simp only [timeNow, generateUUID, Sys.log]
  split <;> rfl

theorem validateToken_of_verify {σ : Type} (P : Platform) (s : PasetoService σ)
    (token : String) (c : TokenClaims) (w : Sys σ)
    (h : P.Verify token s.publicKey = .ok c) :
    validateToken P s token w
      = if c.ExpiresAt < P.Now w.tick then
          (.error (.app (NewAuthenticationError "token expired")),
            { st := w.st, tick := w.tick + 1, trace := w.trace ++ [Call.Verify token] })
        else
          (.ok c, { st := w.st, tick := w.tick + 1, trace := w.trace ++ [Call.Verify token] }) := by
  unfold validateToken
  simp only [h, timeNow, Sys.log]

theorem validateToken_of_verify_error {σ : Type} (P : Platform) (s : PasetoService σ)
    (token : String) (e : String) (w : Sys σ)
    (h : P.Verify token s.publicKey = .error e) :
    validateToken P s token w
      = (.error (.app (NewAuthenticationError "invalid token")),
          { st := w.st, tick := w.tick, trace := w.trace ++ [Call.Verify token] }) := by
  unfold validateToken
  simp only [h, Sys.log]

/-- C1: a token issued by generateToken for a subject, a type tag and a positive
ttl, under keys for which Verify accepts what Sign produced, is accepted by
validateToken at every clock reading up to its expiry time, and the claims
returned carry that subject and that type tag. -/
theorem validateToken_generateToken {σ : Type} (P : Platform) (s : PasetoService σ)
    (subject tokenType : String) (ttl : Int) (_httl : 0 < ttl) (w w2 : Sys σ)
    (token : String)
    (hkey : ∀ c t, P.Sign s.privateKey c = .ok t → P.Verify t s.publicKey = .ok c)
    (hgen : (generateToken P s subject tokenType ttl w).1 = .ok token)
    (hnow : P.Now w2.tick ≤ P.Now w.tick + ttl) :
    ∃ c, (validateToken P s token w2).1 = .ok c ∧ c.Subject = subject
      ∧ c.Typ = tokenType := by
  rw [generateToken_fst] at hgen
  split at hgen
  · cases hgen
  · rename_i t hs
    injection hgen with ht
    subst ht
    refine ⟨{ ID := toString (P.Now (w.tick + 1)), Subject := subject,
              IssuedAt := P.Now w.tick, ExpiresAt := P.Now w.tick + ttl,
              Typ := tokenType }, ?_, rfl, rfl⟩
    rw [validateToken_of_verify P s _ _ w2 (hkey _ _ hs)]
    simp only [not_lt.mpr hnow, if_false]

/-- C2: for a correctly signed token, validateToken answers token expired
exactly when the clock reading is strictly after ExpiresAt; at a reading equal
to ExpiresAt or earlier it returns the claims. -/
theorem validateToken_expired_iff {σ : Type} (P : Platform) (s : PasetoService σ)
    (token : String) (c : TokenClaims) (w : Sys σ)
    (hsig : P.Verify token s.publicKey = .ok c) :
    ((validateToken P s token w).1
        = .error (.app (NewAuthenticationError "token expired"))
      ↔ c.ExpiresAt < P.Now w.tick)
    ∧ (P.Now w.tick ≤ c.ExpiresAt → (validateToken P s token w).1 = .ok c) := by
  rw [validateToken_of_verify P s token c w hsig]
  by_cases h : c.ExpiresAt < P.Now w.tick
  · simp [h]
  · simp [h]

theorem ValidateSession_of_verify {σ : Type} (P : Platform) (s : PasetoService σ)
    (token : String) (c : TokenClaims) (w : Sys σ)
    (h : P.Verify token s.publicKey = .ok c) :
    ValidateSession P s token w
      = if c.ExpiresAt < P.Now w.tick then
          (.error (.app (NewAuthenticationError "token expired")),
            { st := w.st, tick := w.tick + 1, trace := w.trace ++ [Call.Verify token] })
        else if c.Typ ≠ "access" then
          (.error (.app (NewAuthenticationError "invalid token type")),
            { st := w.st, tick := w.tick + 1, trace := w.trace ++ [Call.Verify token] })
        else
          (.ok { ID := c.ID, UserID := c.Subject },
            { st := w.st, tick := w.tick + 1, trace := w.trace ++ [Call.Verify token] }) := by
  unfold ValidateSession
  rw [validateToken_of_verify P s token c w h]
  by_cases hexp : c.ExpiresAt < P.Now w.tick
  · simp [hexp]
  · by_cases ht : c.Typ = "access"
    · simp [hexp, ht]
    · simp [hexp, ht]

theorem ValidateSession_of_verify_error {σ : Type} (P : Platform) (s : PasetoService σ)
    (token : String) (e : String) (w : Sys σ)
    (h : P.Verify token s.publicKey = .error e) :
    ValidateSession P s token w
      = (.error (.app (NewAuthenticationError "invalid token")),
          { st := w.st, tick := w.tick, trace := w.trace ++ [Call.Verify token] }) := by
  unfold ValidateSession
  rw [validateToken_of_verify_error P s token e w h]

/-- C3: ValidateSession succeeds exactly for the correctly signed, unexpired
tokens whose type tag is access, and then returns the session made of the id and
the subject of the token, its other fields at their zero values (the two times
at the zero time.Time); a correctly signed, unexpired token of another type
(refresh, verification, password reset) is answered with invalid token type; and
the only call ValidateSession makes is Verify, so the session store is neither
read nor changed. -/
theorem ValidateSession_spec {σ : Type} (P : Platform) (s : PasetoService σ)
    (token : String) (w : Sys σ) :
    (∀ sess, (ValidateSession P s token w).1 = .ok sess
      ↔ ∃ c, P.Verify token s.publicKey = .ok c ∧ P.Now w.tick ≤ c.ExpiresAt
          ∧ c.Typ = "access"
          ∧ sess = { ID := c.ID, UserID := c.Subject, RefreshToken := "", UserAgent := "",
                     ClientIP := "", IsBlocked := false, ExpiresAt := zeroTime,
                     CreatedAt := zeroTime })
    ∧ (∀ c, P.Verify token s.publicKey = .ok c → P.Now w.tick ≤ c.ExpiresAt
        → (c.Typ = "refresh" ∨ c.Typ = "verification" ∨ c.Typ = "password_reset")
        → (ValidateSession P s token w).1
            = .error (.app (NewAuthenticationError "invalid token type")))
    ∧ (ValidateSession P s token w).2.st = w.st
    ∧ (ValidateSession P s token w).2.trace = w.trace ++ [Call.Verify token] := by
  cases hv : P.Verify token s.publicKey with
  | error e =>
    rw [ValidateSession_of_verify_error P s token e w hv]
    simp
  | ok c =>
    rw [ValidateSession_of_verify P s token c w hv]
    have hinj : ∀ c2 : TokenClaims, (Except.ok c : Except String TokenClaims) = .ok c2
        → c2 = c := by
      intro c2 h
      injection h with h
      exact h.symm
    refine ⟨?_, ?_, ?_, ?_⟩
    · intro sess
      constructor
      · intro h
        refine ⟨c, rfl, ?_⟩
        by_cases hexp : c.ExpiresAt < P.Now w.tick
        · simp [hexp] at h
        · by_cases ht : c.Typ = "access"
          · simp [hexp, ht] at h
            exact ⟨not_lt.mp hexp, ht, h.symm⟩
          · simp [hexp, ht] at h
      · rintro ⟨c2, h2, h3, h4, h5⟩
        rw [hinj c2 h2] at h3 h4 h5
        simp [not_lt.mpr h3, h4, h5]
    · intro c2 h2 h3 h4
      rw [hinj c2 h2] at h3 h4
      have ht : c.Typ ≠ "access" := by
        rcases h4 with h | h | h <;> rw [h] <;> decide
      simp [not_lt.mpr h3, ht]
    · split <;> [rfl; (split <;> rfl)]
    · split <;> [rfl; (split <;> rfl)]

/-- C4: for a correctly signed, unexpired token of type refresh, when GetSession
for that token string returns the empty user id or an error, RefreshToken fails
with the authentication error invalid or expired token; its only calls are
Verify and GetSession (no token is signed, no session deleted, none stored) and
the cache is left as GetSession left it. -/
theorem RefreshToken_no_session {σ : Type} (P : Platform) (s : PasetoService σ)
    (req : RefreshTokenRequest) (c : TokenClaims) (w : Sys σ)
    (hsig : P.Verify req.RefreshToken s.publicKey = .ok c)
    (hexp : P.Now w.tick ≤ c.ExpiresAt)
    (htyp : c.Typ = "refresh")
    (hmiss : (s.cacheSvc.GetSession req.RefreshToken w.st).1 = .ok ""
      ∨ ∃ e, (s.cacheSvc.GetSession req.RefreshToken w.st).1 = .error e) :
    (RefreshToken P s req w).1
        = .error (.app (NewAuthenticationError "invalid or expired token"))
    ∧ (RefreshToken P s req w).2.trace
        = w.trace ++ [Call.Verify req.RefreshToken, Call.GetSession req.RefreshToken]
    ∧ (RefreshToken P s req w).2.st = (s.cacheSvc.GetSession req.RefreshToken w.st).2 := by
  unfold RefreshToken
  rw [validateToken_of_verify P s _ c w hsig]
  simp only [not_lt.mpr hexp, if_false, htyp, bne_self_eq_false, Bool.false_eq_true,
    Sys.call]
  rcases hmiss with h | ⟨e, h⟩
  · simp [h]
  · simp [h]

/-- C9: when CheckRateLimit for the key login_attempts:email reports not
allowed, Login returns the rate-limit error (code RATE_LIMIT_EXCEEDED, status
429) and its only call is that CheckRateLimit: no user lookup, no token signed,
no session stored; when CheckRateLimit returns an error, Login returns that
error, again with no other call. -/
theorem Login_rate_limited {σ : Type} (P : Platform) (s : PasetoService σ)
    (req : LoginRequest) (w : Sys σ) :
    (((s.cacheSvc.CheckRateLimit ("login_attempts:" ++ req.Email)
          s.config.MaxLoginAttempts (durationSeconds s.config.LockoutDuration) w.st).1
        = .ok false
      → (Login P s req w).1
          = .error (.app { Code := "RATE_LIMIT_EXCEEDED",
                           Message := "too many login attempts", StatusCode := 429 }))
    ∧ (∀ e, (s.cacheSvc.CheckRateLimit ("login_attempts:" ++ req.Email)
          s.config.MaxLoginAttempts (durationSeconds s.config.LockoutDuration) w.st).1
        = .error e
      → (Login P s req w).1 = .error e))
    ∧ ((s.cacheSvc.CheckRateLimit ("login_attempts:" ++ req.Email)
          s.config.MaxLoginAttempts (durationSeconds s.config.LockoutDuration) w.st).1
        ≠ .ok true
      → (Login P s req w).2.trace
          = w.trace ++ [Call.CheckRateLimit ("login_attempts:" ++ req.Email)
              s.config.MaxLoginAttempts (durationSeconds s.config.LockoutDuration)]
        ∧ (Login P s req w).2.st
          = (s.cacheSvc.CheckRateLimit ("login_attempts:" ++ req.Email)
              s.config.MaxLoginAttempts (durationSeconds s.config.LockoutDuration) w.st).2
        ∧ (Login P s req w).2.tick = w.tick) := by
  unfold Login
  simp only [Sys.call]
  cases h : (s.cacheSvc.CheckRateLimit ("login_attempts:" ++ req.Email)
      s.config.MaxLoginAttempts (durationSeconds s.config.LockoutDuration) w.st).1 with
  | error e => simp
  | ok allowed =>
    cases allowed with
    | false => simp [NewRateLimitError]
    | true => simp

/-! ## Instances and closed evaluations -/

theorem validateToken_generateToken_witness :
    ∃ c, (validateToken (Demo.platform Demo.clock) Demo.service Demo.accessToken
        { st := {}, tick := 2 }).1 = .ok c
      ∧ c.Subject = "user123" ∧ c.Typ = "access" :=
  validateToken_generateToken (Demo.platform Demo.clock) Demo.service "user123" "access"
    900000000000 (by decide) { st := {} } { st := {}, tick := 2 } Demo.accessToken
    (fun c t h => Demo.Verify_Sign Demo.service.privateKey Demo.service.publicKey (by decide) c t h) (by decide) (by decide)

theorem validateToken_expired_iff_witness :
    ((validateToken (Demo.platform Demo.clock) Demo.service Demo.accessToken
          { st := ({} : Redis), tick := 2 }).1
        = .error (.app (NewAuthenticationError "token expired"))
      ↔ (1700000900000000000 : Int) < Demo.clock 2)
    ∧ (Demo.clock 2 ≤ (1700000900000000000 : Int)
      → (validateToken (Demo.platform Demo.clock) Demo.service Demo.accessToken
          { st := ({} : Redis), tick := 2 }).1
        = .ok { ID := "1700000000000000001", Subject := "user123",
                IssuedAt := 1700000000000000000, ExpiresAt := 1700000900000000000,
                Typ := "access" }) :=
  validateToken_expired_iff (Demo.platform Demo.clock) Demo.service Demo.accessToken
    { ID := "1700000000000000001", Subject := "user123",
      IssuedAt := 1700000000000000000, ExpiresAt := 1700000900000000000, Typ := "access" }
    { st := {}, tick := 2 } (by decide)

theorem RefreshToken_no_session_witness :
    (RefreshToken (Demo.platform Demo.clock) Demo.service ⟨Demo.refreshToken⟩
        { st := ({} : Redis), tick := 2 }).1
      = .error (.app (NewAuthenticationError "invalid or expired token"))
    ∧ (RefreshToken (Demo.platform Demo.clock) Demo.service ⟨Demo.refreshToken⟩
        { st := ({} : Redis), tick := 2 }).2.trace
      = [] ++ [Call.Verify Demo.refreshToken, Call.GetSession Demo.refreshToken]
    ∧ (RefreshToken (Demo.platform Demo.clock) Demo.service ⟨Demo.refreshToken⟩
        { st := ({} : Redis), tick := 2 }).2.st
      = (RedisService.GetSession Demo.refreshToken {}).2 :=
  RefreshToken_no_session (Demo.platform Demo.clock) Demo.service ⟨Demo.refreshToken⟩
    { ID := "1700000000000000001", Subject := "user123",
      IssuedAt := 1700000000000000000, ExpiresAt := 1700604800000000000, Typ := "refresh" }
    { st := {}, tick := 2 } (by decide) (by decide) rfl (Or.inl (by decide))

/-- C5 fails on the code: when the clock gives the same reading at the issue of
the refresh token T and during the refresh, the token that RefreshToken issues
is T itself, so the session of T, deleted by InvalidateSession, is stored again
by StoreSession; the first RefreshToken call with T succeeds, the session of T
is still in the cache, and a second RefreshToken call with T succeeds too. -/
theorem RefreshToken_replay_succeeds :
    (RefreshToken (Demo.platform Demo.frozen) Demo.service ⟨Demo.frozenRefreshToken⟩
        (Demo.issued Demo.frozenRefreshToken)).1
      = .ok { AccessToken := Demo.frozenAccessToken,
              RefreshToken := Demo.frozenRefreshToken }
    ∧ (RefreshToken (Demo.platform Demo.frozen) Demo.service ⟨Demo.frozenRefreshToken⟩
        (Demo.issued Demo.frozenRefreshToken)).2.st.get
          ("session:" ++ Demo.frozenRefreshToken)
      = some "user123"
    ∧ (RefreshToken (Demo.platform Demo.frozen) Demo.service ⟨Demo.frozenRefreshToken⟩
        (RefreshToken (Demo.platform Demo.frozen) Demo.service
          ⟨Demo.frozenRefreshToken⟩ (Demo.issued Demo.frozenRefreshToken)).2).1
      = .ok { AccessToken := Demo.frozenAccessToken,
              RefreshToken := Demo.frozenRefreshToken } := by
  decide

/-- C6 fails on the code: under a clock that gives the same reading at the issue
of the old refresh token and at the issue of the new one, generateToken issues
the token T and a successful RefreshToken call that is presented T returns T as
the new refresh token. -/
theorem RefreshToken_returns_presented_token :
    (generateToken (Demo.platform Demo.frozen) Demo.service "user123" "refresh"
        Demo.config.RefreshTokenTTL { st := ({} : Redis) }).1
      = .ok Demo.frozenRefreshToken
    ∧ ((RefreshToken (Demo.platform Demo.frozen) Demo.service ⟨Demo.frozenRefreshToken⟩
        (Demo.issued Demo.frozenRefreshToken)).1.map (fun r => r.RefreshToken))
      = .ok Demo.frozenRefreshToken := by
  decide

/-- C7 fails on the code: Login stores the session of the refresh token under
the key session:token, which the pattern session:*:user123 of
InvalidateAllSessions does not match; InvalidateAllSessions returns no error,
the session record of the user is still in the cache, and RefreshToken with the
refresh token issued before still succeeds. -/
theorem InvalidateAllSessions_keeps_session :
    ((Login (Demo.platform Demo.clock) Demo.service
        ⟨"test@example.com", "password123"⟩ { st := ({} : Redis) }).1.map
          (fun r => r.RefreshToken))
      = .ok Demo.loginRefreshToken
    ∧ (InvalidateAllSessions Demo.service "user123"
        (Login (Demo.platform Demo.clock) Demo.service
          ⟨"test@example.com", "password123"⟩ { st := ({} : Redis) }).2).1 = none
    ∧ (InvalidateAllSessions Demo.service "user123"
        (Login (Demo.platform Demo.clock) Demo.service
          ⟨"test@example.com", "password123"⟩ { st := ({} : Redis) }).2).2.st.get
          ("session:" ++ Demo.loginRefreshToken)
      = some "user123"
    ∧ ((RefreshToken (Demo.platform Demo.clock) Demo.service ⟨Demo.loginRefreshToken⟩
        (InvalidateAllSessions Demo.service "user123"
          (Login (Demo.platform Demo.clock) Demo.service
            ⟨"test@example.com", "password123"⟩ { st := ({} : Redis) }).2).2).1.toBool)
      = true := by
  decide

theorem Login_password_irrelevant {σ : Type} (P : Platform) (s : PasetoService σ)
    (email password1 password2 : String) (w : Sys σ) :
    Login P s ⟨email, password1⟩ w = Login P s ⟨email, password2⟩ w := rfl

/-- C10 fails on the code: Login has no password check between the user lookup
and the token generation.  For the stored user test@example.com and every
password in the request, Login succeeds, returns an access and a refresh token,
and stores the session of the refresh token. -/
theorem Login_without_password_check (password : String) :
    (Login (Demo.platform Demo.clock) Demo.service ⟨"test@example.com", password⟩
        { st := ({} : Redis) }).1
      = .ok { User := Demo.user, AccessToken := Demo.accessToken,
              RefreshToken := Demo.loginRefreshToken }
    ∧ (Login (Demo.platform Demo.clock) Demo.service ⟨"test@example.com", password⟩
        { st := ({} : Redis) }).2.st.get ("session:" ++ Demo.loginRefreshToken)
      = some "user123" := by
  rw [Login_password_irrelevant _ _ _ password "" _]
  decide

/-! ## The in-memory rate limiter -/

namespace RateLimiter

theorem lookup_store (rl : RateLimiter) (key : String) (c : client) :
    (rl.store key c).clients.lookup key = some c := by
  simp [store, List.lookup]

theorem config_store (rl : RateLimiter) (key : String) (c : client) :
    (rl.store key c).config = rl.config := rfl

theorem isExcluded_eq_false (rl : RateLimiter) (path : String)
    (h : path ∉ rl.config.ExcludedRoutes) : rl.isExcluded path = false := by
  unfold isExcluded
  rw [List.any_eq_false]
  intro x hx hxe
  have : x = path := by simpa using hxe
  exact h (this ▸ hx)

/-- The first request of a key, or the first after the reset time: the request
is passed on and the record of the key is a new window. -/
theorem Middleware_new_window (rl : RateLimiter) (req : Request) (now : Int)
    (hex : req.Path ∉ rl.config.ExcludedRoutes)
    (h : rl.clients.lookup (rl.config.KeyFunc req) = none
      ∨ ∃ cl, rl.clients.lookup (rl.config.KeyFunc req) = some cl ∧ cl.resetTime < now) :
    (rl.Middleware req now).1 = { next := true, status := none, body := none, headers := [] }
    ∧ (rl.Middleware req now).2
      = rl.store (rl.config.KeyFunc req)
          { count := 1, lastAccess := now, resetTime := now + rl.config.Window } := by
  unfold Middleware
  rw [isExcluded_eq_false rl _ hex]
  rcases h with h | ⟨cl, h, hlt⟩
  · simp [h]
  · simp [h, hlt]

/-- A request within the window of its key, below the limit. -/
theorem Middleware_below_limit (rl : RateLimiter) (req : Request) (now : Int) (cl : client)
    (hex : req.Path ∉ rl.config.ExcludedRoutes)
    (h : rl.clients.lookup (rl.config.KeyFunc req) = some cl)
    (hw : now ≤ cl.resetTime) (hc : cl.count < rl.config.Limit) :
    (rl.Middleware req now).1.next = true
    ∧ (rl.Middleware req now).1.status = none
    ∧ (rl.Middleware req now).2
      = rl.store (rl.config.KeyFunc req)
          { count := cl.count + 1, lastAccess := now, resetTime := cl.resetTime } := by
  unfold Middleware
  rw [isExcluded_eq_false rl _ hex]
  simp [h, not_lt.mpr hw, not_le.mpr hc]

/-- A request within the window of its key, at the limit. -/
theorem Middleware_at_limit (rl : RateLimiter) (req : Request) (now : Int) (cl : client)
    (hex : req.Path ∉ rl.config.ExcludedRoutes)
    (h : rl.clients.lookup (rl.config.KeyFunc req) = some cl)
    (hw : now ≤ cl.resetTime) (hc : rl.config.Limit ≤ cl.count) :
    (rl.Middleware req now).1.next = false
    ∧ (rl.Middleware req now).1.status = some 429
    ∧ (rl.Middleware req now).2
      = rl.store (rl.config.KeyFunc req)
          { count := cl.count, lastAccess := now, resetTime := cl.resetTime } := by
  unfold Middleware
  rw [isExcluded_eq_false rl _ hex]
  simp [h, not_lt.mpr hw, hc]

/-- Requests of one key within the window of its record: as many are passed on
as the record has room for, the others are answered with 429. -/
theorem serve_in_window (key : String) (R : Int) (qs : List (Request × Int)) :
    ∀ (rl : RateLimiter) (cl : client) (room : Nat),
      rl.clients.lookup key = some cl → cl.resetTime = R →
      cl.count + room = rl.config.Limit →
      (∀ q ∈ qs, rl.config.KeyFunc q.1 = key ∧ q.1.Path ∉ rl.config.ExcludedRoutes
        ∧ q.2 ≤ R) →
      (rl.serve qs).1.map (fun r => (r.next, r.status))
          = List.replicate (min qs.length room) (true, none)
            ++ List.replicate (qs.length - room) (false, some 429)
        ∧ (rl.serve qs).2.config = rl.config
        ∧ ∃ cl2, (rl.serve qs).2.clients.lookup key = some cl2 ∧ cl2.resetTime = R := by
  induction qs with
  | nil =>
    intro rl cl room h hR _ _
    exact ⟨by simp [serve], rfl, cl, h, hR⟩
  | cons q qs ih =>
    intro rl cl room h hR hroom hqs
    obtain ⟨hk, hex, ht⟩ := hqs q (List.mem_cons_self _ _)
    have hrest : ∀ p ∈ qs, rl.config.KeyFunc p.1 = key
        ∧ p.1.Path ∉ rl.config.ExcludedRoutes ∧ p.2 ≤ R :=
      fun p hp => hqs p (List.mem_cons_of_mem _ hp)
    rw [← hk] at h
    rw [← hR] at ht
    cases room with
    | zero =>
      have hc : rl.config.Limit ≤ cl.count := by
        rw [← hroom]; simp
      obtain ⟨h1, h2, h3⟩ := Middleware_at_limit rl q.1 q.2 cl hex h ht hc
      have hl : (rl.Middleware q.1 q.2).2.clients.lookup key
          = some { count := cl.count, lastAccess := q.2, resetTime := cl.resetTime } := by
        rw [h3, hk]; exact lookup_store _ _ _
      have hcfg : (rl.Middleware q.1 q.2).2.config = rl.config := by rw [h3]; rfl
      obtain ⟨i1, i2, i3⟩ := ih (rl.Middleware q.1 q.2).2 _ 0 hl hR
        (by rw [hcfg]; exact hroom) (by rw [hcfg]; exact hrest)
      refine ⟨?_, by rw [← hcfg]; exact i2, i3⟩
      simp only [serve, List.map_cons, h1, h2, i1]
      simp [List.replicate_succ]
    | succ r =>
      have hc : cl.count < rl.config.Limit := by
        rw [← hroom]; push_cast; omega
      obtain ⟨h1, h2, h3⟩ := Middleware_below_limit rl q.1 q.2 cl hex h ht hc
      have hl : (rl.Middleware q.1 q.2).2.clients.lookup key
          = some { count := cl.count + 1, lastAccess := q.2, resetTime := cl.resetTime } := by
        rw [h3, hk]; exact lookup_store _ _ _
      have hcfg : (rl.Middleware q.1 q.2).2.config = rl.config := by rw [h3]; rfl
      obtain ⟨i1, i2, i3⟩ := ih (rl.Middleware q.1 q.2).2 _ r hl hR
        (by rw [hcfg, ← hroom]; push_cast; ring) (by rw [hcfg]; exact hrest)
      refine ⟨?_, by rw [← hcfg]; exact i2, i3⟩
      simp only [serve, List.map_cons, h1, h2, i1]
      simp [List.replicate_succ, Nat.succ_min_succ]

/-- Requests of one key at any times: while the count of the record plus the
number of requests stays within the limit, every request is passed on. -/
theorem serve_all_pass (key : String) (qs : List (Request × Int)) :
    ∀ (rl : RateLimiter) (cl : client),
      rl.clients.lookup key = some cl → 1 ≤ cl.count →
      cl.count + qs.length ≤ rl.config.Limit →
      (∀ q ∈ qs, rl.config.KeyFunc q.1 = key ∧ q.1.Path ∉ rl.config.ExcludedRoutes) →
      (rl.serve qs).1.map (fun r => r.next) = List.replicate qs.length true := by
  induction qs with
  | nil => intro rl cl _ _ _ _; simp [serve]
  | cons q qs ih =>
    intro rl cl h h1 hroom hqs
    obtain ⟨hk, hex⟩ := hqs q (List.mem_cons_self _ _)
    have hrest : ∀ p ∈ qs, rl.config.KeyFunc p.1 = key
        ∧ p.1.Path ∉ rl.config.ExcludedRoutes :=
      fun p hp => hqs p (List.mem_cons_of_mem _ hp)
    rw [← hk] at h
    simp only [List.length_cons, Nat.cast_add, Nat.cast_one] at hroom
    by_cases hw : cl.resetTime < q.2
    · obtain ⟨m1, m2⟩ := Middleware_new_window rl q.1 q.2 hex (Or.inr ⟨cl, h, hw⟩)
      have hl : (rl.Middleware q.1 q.2).2.clients.lookup key
          = some { count := 1, lastAccess := q.2, resetTime := q.2 + rl.config.Window } := by
        rw [m2, hk]; exact lookup_store _ _ _
      have hcfg : (rl.Middleware q.1 q.2).2.config = rl.config := by rw [m2]; rfl
      have i1 := ih (rl.Middleware q.1 q.2).2 _ hl (le_refl _)
        (by rw [hcfg]; show (1 : Int) + _ ≤ _; omega) (by rw [hcfg]; exact hrest)
      simp only [serve, List.map_cons, m1, i1, List.length_cons, List.replicate_succ]
    · obtain ⟨m1, _, m3⟩ := Middleware_below_limit rl q.1 q.2 cl hex h (not_lt.mp hw)
        (by omega)
      have hl : (rl.Middleware q.1 q.2).2.clients.lookup key
          = some { count := cl.count + 1, lastAccess := q.2, resetTime := cl.resetTime } := by
        rw [m3, hk]; exact lookup_store _ _ _
      have hcfg : (rl.Middleware q.1 q.2).2.config = rl.config := by rw [m3]; rfl
      have i1 := ih (rl.Middleware q.1 q.2).2 _ hl (by show (1 : Int) ≤ cl.count + 1; omega)
        (by rw [hcfg]; show cl.count + 1 + _ ≤ _; omega) (by rw [hcfg]; exact hrest)
      simp only [serve, List.map_cons, m1, i1, List.length_cons, List.replicate_succ]

end RateLimiter

/-- C8 as stated fails on the code.  With the limit 0 the one request (the
N+1-th for N = 0) of a fresh limiter is passed on, not answered with 429: the
first request of a window is passed on before the limit is read.  And requests
to an excluded route are all passed on: with the limit 1, both of two requests
to an excluded route are passed on. -/
theorem Middleware_limit_zero_passes :
    (RateLimiter.NewRateLimiter (Demo.limiterConfig 0 [])).map
        (fun rl => (rl.serve [(Demo.loginRequest, 0)]).1.map (fun r => (r.next, r.status)))
      ≠ .ok (List.replicate 0 (true, none) ++ [(false, some 429)])
    ∧ (RateLimiter.NewRateLimiter (Demo.limiterConfig 0 [])).map
        (fun rl => (rl.serve [(Demo.loginRequest, 0)]).1.map (fun r => (r.next, r.status)))
      = .ok [(true, none)]
    ∧ (RateLimiter.NewRateLimiter (Demo.limiterConfig 1 ["/health"])).map
        (fun rl => (rl.serve [(Demo.healthRequest, 0), (Demo.healthRequest, 1)]).1.map
          (fun r => (r.next, r.status)))
      ≠ .ok (List.replicate 1 (true, none) ++ [(false, some 429)])
    ∧ (RateLimiter.NewRateLimiter (Demo.limiterConfig 1 ["/health"])).map
        (fun rl => (rl.serve [(Demo.healthRequest, 0), (Demo.healthRequest, 1)]).1.map
          (fun r => (r.next, r.status)))
      = .ok [(true, none), (true, none)] := by
  decide

namespace RateLimiter

/-- NewRateLimiter gives a limiter without records when the window is positive,
and the panic of the ticker otherwise. -/
theorem NewRateLimiter_window (cfg : RateLimiterConfig) :
    (0 < cfg.Window → NewRateLimiter cfg = .ok { clients := [], config := cfg })
    ∧ (cfg.Window ≤ 0 → NewRateLimiter cfg = .error "non-positive interval for NewTicker") := by
  unfold NewRateLimiter cleanupLoop
  constructor
  · intro h
    simp [not_le.mpr h]
  · intro h
    simp [h]

/-- The fixed window of a limiter without records. -/
theorem serve_fixed_window (cfg : RateLimiterConfig) (N : Nat) (key : String)
    (q0 : Request) (t0 : Int) (qs : List (Request × Int))
    (p0 : Request) (u0 : Int) (ps : List (Request × Int))
    (hN : 1 ≤ N) (hL : cfg.Limit = N)
    (hlen : qs.length = N)
    (hq0 : cfg.KeyFunc q0 = key ∧ q0.Path ∉ cfg.ExcludedRoutes)
    (hqs : ∀ q ∈ qs, cfg.KeyFunc q.1 = key ∧ q.1.Path ∉ cfg.ExcludedRoutes
      ∧ q.2 ≤ t0 + cfg.Window)
    (hplen : ps.length + 1 = N)
    (hu0 : t0 + cfg.Window < u0)
    (hp0 : cfg.KeyFunc p0 = key ∧ p0.Path ∉ cfg.ExcludedRoutes)
    (hps : ∀ q ∈ ps, cfg.KeyFunc q.1 = key ∧ q.1.Path ∉ cfg.ExcludedRoutes)
    (rl0 : RateLimiter) (hrl0 : rl0 = { clients := [], config := cfg }) :
    (rl0.serve ((q0, t0) :: qs)).1.map (fun r => (r.next, r.status))
      = List.replicate N (true, none) ++ [(false, some 429)]
    ∧ ((rl0.serve ((q0, t0) :: qs)).2.serve ((p0, u0) :: ps)).1.map (fun r => r.next)
      = List.replicate N true := by
  have hc0 : rl0.config = cfg := by rw [hrl0]
  have hq0x : q0.Path ∉ rl0.config.ExcludedRoutes := by rw [hc0]; exact hq0.2
  -- the first request opens the window
  obtain ⟨a1, a2⟩ := Middleware_new_window rl0 q0 t0 hq0x (Or.inl (by rw [hrl0]; rfl))
  have hcfg1 : (rl0.Middleware q0 t0).2.config = cfg := by
    rw [a2]; exact hc0
  have hl1 : (rl0.Middleware q0 t0).2.clients.lookup key
      = some { count := 1, lastAccess := t0, resetTime := t0 + cfg.Window } := by
    rw [a2, hc0, hq0.1]; exact lookup_store _ _ _
  -- the N requests that follow, within the window
  obtain ⟨b1, b2, cl2, b3, b4⟩ := serve_in_window key (t0 + cfg.Window) qs
    (rl0.Middleware q0 t0).2 _ (N - 1) hl1 rfl
    (by rw [hcfg1, hL]; push_cast [hN]; ring) (by rw [hcfg1]; exact hqs)
  have hserve : rl0.serve ((q0, t0) :: qs)
      = ((rl0.Middleware q0 t0).1 :: ((rl0.Middleware q0 t0).2.serve qs).1,
         ((rl0.Middleware q0 t0).2.serve qs).2) := rfl
  rw [hserve]
  constructor
  · simp only [List.map_cons, a1, b1, hlen]
    have h1 : min N (N - 1) = N - 1 := by omega
    have h2 : N - (N - 1) = 1 := by omega
    rw [h1, h2]
    obtain ⟨n, rfl⟩ : ∃ n, N = n + 1 := ⟨N - 1, by omega⟩
    simp [List.replicate_succ]
  · -- the request after the reset time opens a new window
    simp only
    generalize ((rl0.Middleware q0 t0).2.serve qs).2 = rl2 at b2 b3
    rw [hcfg1] at b2
    have hex : p0.Path ∉ rl2.config.ExcludedRoutes := by rw [b2]; exact hp0.2
    have hk : rl2.config.KeyFunc p0 = key := by rw [b2]; exact hp0.1
    obtain ⟨c1, c2⟩ := Middleware_new_window rl2 p0 u0 hex
      (Or.inr ⟨cl2, by rw [hk]; exact b3, by rw [b4]; exact hu0⟩)
    have hcfg3 : (rl2.Middleware p0 u0).2.config = cfg := by rw [c2]; exact b2
    have hl3 : (rl2.Middleware p0 u0).2.clients.lookup key
        = some { count := 1, lastAccess := u0, resetTime := u0 + rl2.config.Window } := by
      rw [c2, hk]; exact lookup_store _ _ _
    have d := serve_all_pass key ps (rl2.Middleware p0 u0).2 _ hl3 (le_refl _)
      (by rw [hcfg3, hL]; show (1 : Int) + _ ≤ _; omega) (by rw [hcfg3]; exact hps)
    simp only [serve, List.map_cons, c1, d]
    rw [← hplen, List.replicate_succ]

end RateLimiter

/-- C8, amended: for every limit N ≥ 1, window W > 0 and key, NewRateLimiter
gives a limiter, and when N+1 requests with that key, to routes that are not
excluded, reach the Middleware of that fresh limiter, the first at the time t0
and the others no later than t0 + W, exactly the first N are passed to the next
handler and the (N+1)-th is answered with 429; and when after them a request
with that key arrives strictly after the reset time t0 + W, it and the N - 1
requests with that key that follow it are all passed on. -/
theorem Middleware_fixed_window (cfg : RateLimiterConfig) (N : Nat) (key : String)
    (q0 : Request) (t0 : Int) (qs : List (Request × Int))
    (p0 : Request) (u0 : Int) (ps : List (Request × Int))
    (hN : 1 ≤ N) (hL : cfg.Limit = N) (hW : 0 < cfg.Window)
    (hlen : qs.length = N)
    (hq0 : cfg.KeyFunc q0 = key ∧ q0.Path ∉ cfg.ExcludedRoutes)
    (hqs : ∀ q ∈ qs, cfg.KeyFunc q.1 = key ∧ q.1.Path ∉ cfg.ExcludedRoutes
      ∧ q.2 ≤ t0 + cfg.Window)
    (hplen : ps.length + 1 = N)
    (hu0 : t0 + cfg.Window < u0)
    (hp0 : cfg.KeyFunc p0 = key ∧ p0.Path ∉ cfg.ExcludedRoutes)
    (hps : ∀ q ∈ ps, cfg.KeyFunc q.1 = key ∧ q.1.Path ∉ cfg.ExcludedRoutes) :
    ∃ rl, RateLimiter.NewRateLimiter cfg = .ok rl
      ∧ (rl.serve ((q0, t0) :: qs)).1.map (fun r => (r.next, r.status))
        = List.replicate N (true, none) ++ [(false, some 429)]
      ∧ ((rl.serve ((q0, t0) :: qs)).2.serve ((p0, u0) :: ps)).1.map (fun r => r.next)
        = List.replicate N true :=
  ⟨{ clients := [], config := cfg }, (RateLimiter.NewRateLimiter_window cfg).1 hW,
    RateLimiter.serve_fixed_window cfg N key q0 t0 qs p0 u0 ps hN hL hlen hq0 hqs hplen hu0
      hp0 hps _ rfl⟩

theorem Middleware_fixed_window_witness :
    ∃ rl, RateLimiter.NewRateLimiter (Demo.limiterConfig 2 []) = .ok rl
      ∧ (rl.serve ((Demo.loginRequest, 0)
          :: [(Demo.loginRequest, 5), (Demo.loginRequest, 60000000000)])).1.map
            (fun r => (r.next, r.status))
        = List.replicate 2 (true, none) ++ [(false, some 429)]
      ∧ ((rl.serve ((Demo.loginRequest, 0)
          :: [(Demo.loginRequest, 5), (Demo.loginRequest, 60000000000)])).2.serve
          ((Demo.loginRequest, 60000000001) :: [(Demo.loginRequest, 60000000002)])).1.map
            (fun r => r.next)
        = List.replicate 2 true :=
  Middleware_fixed_window (Demo.limiterConfig 2 []) 2 "203.0.113.7"
    Demo.loginRequest 0 [(Demo.loginRequest, 5), (Demo.loginRequest, 60000000000)]
    Demo.loginRequest 60000000001 [(Demo.loginRequest, 60000000002)]
    (by decide) rfl (by decide) rfl (by decide) (by decide) rfl (by decide) (by decide)
    (by decide)

/-! ## Refresh rotation on the Redis cache -/

namespace Redis

theorem get_roundTrip (r : Redis) (k : String) : r.roundTrip.2.get k = r.get k := by
  unfold roundTrip
  cases r.faults <;> rfl

theorem get_del_self (r : Redis) (k : String) : (r.del k).get k = none := by
  unfold get find del
  rw [Option.map_eq_none']
  rw [List.find?_eq_none]
  intro e he
  have hne := (List.mem_filter.mp he).2
  simp only [bne_iff_ne, ne_eq] at hne
  simp [hne]

theorem get_set_of_ne (r : Redis) (k k2 v : String) (ttl : Int) (h : k2 ≠ k) :
    (r.set k2 v ttl).get k = (r.del k2).get k := by
  unfold get find set
  simp only [List.find?_cons]
  have : ((k2 == k) = false) := by simpa using h
  simp only [this, Bool.false_and]
  rfl

theorem get_del_eq_none (r : Redis) (k k2 : String) (h : r.get k = none) :
    (r.del k2).get k = none := by
  unfold get find at h ⊢
  rw [Option.map_eq_none'] at h ⊢
  rw [List.find?_eq_none] at h ⊢
  intro e he
  exact h e (List.mem_filter.mp he).1

end Redis

theorem session_key_injective (a b : String) (h : "session:" ++ a = "session:" ++ b) :
    a = b := by
  have h2 := congrArg String.data h
  simp only [String.data_append] at h2
  exact String.ext (List.append_cancel_left h2)

namespace RedisService

theorem InvalidateSession_ok (sessionID : String) (r : Redis)
    (h : (InvalidateSession sessionID r).1 = none) :
    (InvalidateSession sessionID r).2 = r.roundTrip.2.del ("session:" ++ sessionID) := by
  unfold InvalidateSession at h ⊢
  cases hf : r.roundTrip.1 with
  | none => simp only [hf]
  | some e => simp [hf] at h

theorem StoreSession_ok (sessionID userID : String) (expiration : Int) (r : Redis)
    (h : (StoreSession sessionID userID expiration r).1 = none) :
    (StoreSession sessionID userID expiration r).2
      = r.roundTrip.2.set ("session:" ++ sessionID) userID expiration := by
  unfold StoreSession at h ⊢
  cases hf : r.roundTrip.1 with
  | none => simp only [hf]
  | some e => simp [hf] at h

/-- After a successful InvalidateSession of a token and a successful StoreSession
of another token, the first token has no session record. -/
theorem get_after_rotation (old new userID : String) (expiration : Int) (r : Redis)
    (hd : (InvalidateSession old r).1 = none)
    (ht : (StoreSession new userID expiration (InvalidateSession old r).2).1 = none)
    (hne : new ≠ old) :
    (StoreSession new userID expiration (InvalidateSession old r).2).2.get
      ("session:" ++ old) = none := by
  rw [StoreSession_ok _ _ _ _ ht, InvalidateSession_ok _ _ hd]
  rw [Redis.get_set_of_ne _ _ _ _ _ (fun h => hne (session_key_injective _ _ h))]
  apply Redis.get_del_eq_none
  rw [Redis.get_roundTrip]
  exact Redis.get_del_self _ _

end RedisService

/-- Rotation on the Redis cache: after a successful RefreshToken call that
returned a refresh token different from the presented one, the cache holds no
session record of the presented token. -/
theorem RefreshToken_deletes_presented_session (P : Platform) (s : PasetoService Redis)
    (hs : s.cacheSvc = RedisService.cacheService) (req : RefreshTokenRequest)
    (w : Sys Redis) (resp : RefreshTokenResponse)
    (h : (RefreshToken P s req w).1 = .ok resp)
    (hne : resp.RefreshToken ≠ req.RefreshToken) :
    (RefreshToken P s req w).2.st.get ("session:" ++ req.RefreshToken) = none := by
  unfold RefreshToken at h ⊢
  simp only [] at h ⊢
  split at h
  · cases h
  · split at h
    · cases h
    · rename_i htyp
      split at h
      · cases h
      · rename_i hmiss
        split at h
        · cases h
        · rename_i accessToken ha
          split at h
          · cases h
          · rename_i refreshToken hf
            split at h
            · cases h
            · rename_i hd
              split at h
              · cases h
              · rename_i ht
                simp only [htyp, hmiss, ha, hf, hd, ht, if_false]
                injection h with h
                subst h
                simp only [hs, RedisService.cacheService, Sys.call] at hd ht ⊢
                simp only [Bool.false_eq_true, if_false]
                exact RedisService.get_after_rotation _ _ _ _ _ hd ht hne

/-- A RefreshToken call on the Redis cache with a token that has no session
record fails. -/
theorem RefreshToken_fails_without_session (P : Platform) (s : PasetoService Redis)
    (hs : s.cacheSvc = RedisService.cacheService) (req : RefreshTokenRequest)
    (w : Sys Redis) (h : w.st.get ("session:" ++ req.RefreshToken) = none) :
    ∃ e, (RefreshToken P s req w).1 = .error e := by
  have hst : (validateToken P s req.RefreshToken w).2.st = w.st := by
    unfold validateToken
    simp only [Sys.log, timeNow]
    split
    · rfl
    · split <;> rfl
  have hget : (RedisService.GetSession req.RefreshToken w.st).1 = .ok ""
      ∨ ∃ e, (RedisService.GetSession req.RefreshToken w.st).1 = .error e := by
    unfold RedisService.GetSession
    cases hf : w.st.roundTrip.1 with
    | some e => exact Or.inr ⟨.text ("failed to get session: " ++ e), by simp only [hf]⟩
    | none =>
      left
      simp only [hf]
      rw [Redis.get_roundTrip, h]
  unfold RefreshToken
  simp only []
  split
  · exact ⟨_, rfl⟩
  · split
    · exact ⟨_, rfl⟩
    · simp only [hs, RedisService.cacheService, Sys.call, hst]
      rcases hget with hg | ⟨e, hg⟩
      · simp only [hg]
        exact ⟨_, rfl⟩
      · simp only [hg]
        exact ⟨_, rfl⟩

/-! ## The security service -/

namespace Security

theorem countFailed_st {σ : Type} (P : Platform) (recent : List LoginAttempt) :
    ∀ (n : Int) (w : Sys σ), (countFailed P recent n w).2.st = w.st
      ∧ (countFailed P recent n w).2.trace = w.trace := by
  induction recent with
  | nil => intro n w; exact ⟨rfl, rfl⟩
  | cons a rest ih =>
    intro n w
    unfold countFailed
    split
    · exact ih n w
    · simp only [timeNow]
      split
      · exact ih _ _
      · exact ih _ _

theorem getLocationString_trace {σ : Type} (L : Libs) (s : Service σ) (ip : String)
    (w : Sys σ) :
    ((getLocationString L s ip w).2.trace = w.trace
      ∨ (getLocationString L s ip w).2.trace = w.trace ++ [Call.GetLocation ip])
    ∧ (getLocationString L s ip w).2.tick = w.tick := by
  unfold getLocationString
  split
  · exact ⟨Or.inl rfl, rfl⟩
  · simp only [Sys.call]
    split
    · exact ⟨Or.inr rfl, rfl⟩
    · split_ifs <;> exact ⟨Or.inr rfl, rfl⟩

theorem locate_trace {σ : Type} (L : Libs) (s : Service σ) (ip : String) (w : Sys σ) :
    ∃ pre, (locate L s ip w).2.trace = w.trace ++ pre
      ∧ (locate L s ip w).2.tick = w.tick
      ∧ ∀ c ∈ pre, c = Call.GetLocation ip
          ∨ c = Call.Log "warn" "Failed to get location for IP" := by
  obtain ⟨ht, hk⟩ := getLocationString_trace L s ip w
  unfold locate
  simp only []
  cases (getLocationString L s ip w).1 with
  | error e =>
    simp only [Sys.log]
    rcases ht with ht | ht
    · exact ⟨[Call.Log "warn" "Failed to get location for IP"], by rw [ht], hk,
        by simp⟩
    · refine ⟨[Call.GetLocation ip, Call.Log "warn" "Failed to get location for IP"],
        by rw [ht]; simp, hk, ?_⟩
      intro c hc
      simp at hc
      exact hc
  | ok location =>
    simp only []
    rcases ht with ht | ht
    · exact ⟨[], by rw [ht]; simp, hk, by simp⟩
    · exact ⟨[Call.GetLocation ip], by rw [ht], hk, by simp⟩

end Security

namespace Security

theorem RecordLoginAttempt_eq {σ : Type} (P : Platform) (L : Libs) (s : Service σ)
    (userID email ip ua : String) (successful : Bool) (w : Sys σ) :
    RecordLoginAttempt P L s userID email ip ua successful w
      = match (storeAttempt P L s userID ip ua successful w).1.1 with
        | some err =>
          (some (GoError.wrap "failed to record login attempt" err),
            (storeAttempt P L s userID ip ua successful w).2)
        | none =>
          if successful then
            handleSuccessfulLogin P L s userID email
              (storeAttempt P L s userID ip ua successful w).1.2
              (storeAttempt P L s userID ip ua successful w).2
          else
            handleFailedLogin P s userID email
              (storeAttempt P L s userID ip ua successful w).1.2
              (storeAttempt P L s userID ip ua successful w).2 := rfl

theorem storeAttempt_trace {σ : Type} (P : Platform) (L : Libs) (s : Service σ)
    (userID ip ua : String) (successful : Bool) (w : Sys σ) :
    ∃ pre, (storeAttempt P L s userID ip ua successful w).2.trace
        = w.trace ++ pre
            ++ [Call.RecordLoginAttempt (newAttempt P L s userID ip ua successful w).1]
      ∧ ∀ c ∈ pre, c = Call.GetLocation ip
          ∨ c = Call.Log "warn" "Failed to get location for IP" := by
  obtain ⟨pre, h1, _, h3⟩ := locate_trace L s ip (timeNow P w).2
  refine ⟨pre, ?_, h3⟩
  unfold storeAttempt
  simp only [Sys.call]
  unfold newAttempt
  simp only [h1]
  rfl

end Security

/-- C17: for a failed login attempt with an empty user id, RecordLoginAttempt
hands the attempt row to the repository and, when it has been stored, returns
nil in the state the store call left: the attempt history is not read, no
account is locked and no security event is recorded.  For every attempt, when
the store call fails RecordLoginAttempt returns the wrapped error, again in the
state the store call left.  The calls made up to and including the store call
are the location lookup, its warning in the log, and the store call itself. -/
theorem RecordLoginAttempt_store_only {σ : Type} (P : Platform) (L : Libs)
    (s : Security.Service σ) (userID email ip ua : String) (successful : Bool)
    (w : Sys σ) :
    (userID = "" → successful = false
      → (Security.storeAttempt P L s userID ip ua successful w).1.1 = none
      → Security.RecordLoginAttempt P L s userID email ip ua successful w
          = (none, (Security.storeAttempt P L s userID ip ua successful w).2))
    ∧ (∀ e, (Security.storeAttempt P L s userID ip ua successful w).1.1 = some e
      → Security.RecordLoginAttempt P L s userID email ip ua successful w
          = (some (GoError.wrap "failed to record login attempt" e),
              (Security.storeAttempt P L s userID ip ua successful w).2))
    ∧ ∃ pre, (Security.storeAttempt P L s userID ip ua successful w).2.trace
        = w.trace ++ pre
            ++ [Call.RecordLoginAttempt
                  (Security.newAttempt P L s userID ip ua successful w).1]
      ∧ ∀ c ∈ pre, c = Call.GetLocation ip
          ∨ c = Call.Log "warn" "Failed to get location for IP" := by
  refine ⟨?_, ?_, Security.storeAttempt_trace P L s userID ip ua successful w⟩
  · intro hu hs hok
    rw [Security.RecordLoginAttempt_eq, hok]
    subst hu hs
    simp [Security.handleFailedLogin]
  · intro e he
    rw [Security.RecordLoginAttempt_eq, he]

namespace Security

/-- The lock branch of handleFailedLogin, with the count `n` and the state
`wc` in which the counting loop ended. -/
theorem handleFailedLogin_lock_aux {σ : Type} (P : Platform) (s : Service σ)
    (userID email : String) (attempt : LoginAttempt) (w : Sys σ)
    (recent : List LoginAttempt) (n : Int) (wc : Sys σ)
    (huser : userID ≠ "")
    (hget : (s.repo.GetRecentLoginAttempts userID 10 w.st).1 = .ok recent)
    (hc : countFailed P recent 0
        (w.call (Call.GetRecentLoginAttempts userID 10)
          (s.repo.GetRecentLoginAttempts userID 10)).2 = (n, wc))
    (hthr : s.config.MaxLoginAttempts ≤ n)
    (unlock : Int) (reason : String)
    (hunlock : unlock = P.Now wc.tick + (if s.config.AccountLockDuration = 0 then 30 * minute
      else s.config.AccountLockDuration))
    (hreason : reason = "Too many failed login attempts (" ++ toString n ++ ")") :
    (∀ e, (s.repo.LockAccount userID unlock reason wc.st).1 = some e
      → handleFailedLogin P s userID email attempt w
          = (some (GoError.wrap "failed to lock account" e),
              { st := (s.repo.LockAccount userID unlock reason wc.st).2,
                tick := wc.tick + 1,
                trace := wc.trace ++ [Call.LockAccount userID unlock reason] }))
    ∧ ((s.repo.LockAccount userID unlock reason wc.st).1 = none
      → (handleFailedLogin P s userID email attempt w).1 = none
        ∧ ∃ rest, (handleFailedLogin P s userID email attempt w).2.trace
            = wc.trace ++ [Call.LockAccount userID unlock reason,
                Call.RecordSecurityEvent
                  { UserID := userID, EventType := "account_locked",
                    IPAddress := attempt.IPAddress, UserAgent := attempt.UserAgent,
                    Location := attempt.Location, Description := reason,
                    CreatedAt := P.Now (wc.tick + 1) }] ++ rest) := by
  have hu : (userID == "") = false := by simpa using huser
  have hd : (if (s.config.AccountLockDuration == 0) = true then 30 * minute
      else s.config.AccountLockDuration)
      = (if s.config.AccountLockDuration = 0 then 30 * minute
      else s.config.AccountLockDuration) := by
    by_cases h0 : s.config.AccountLockDuration = 0 <;> simp [h0]
  subst hunlock hreason
  simp only [Sys.call] at hc
  unfold handleFailedLogin
  simp only [hu, Bool.false_eq_true, if_false, Sys.call, hget, hc, hthr, if_true, timeNow, hd]
  constructor
  · intro e he
    simp only [he]
  · intro hk
    simp only [hk, true_and]
    simp only [sendAccountLockedEmail, logIfError, Sys.log]
    cases (s.repo.RecordSecurityEvent _ _).1.1 with
    | none => exact ⟨[Call.Log "info" "Account locked"], by simp⟩
    | some e =>
      exact ⟨[Call.Log "error" "Failed to record security event",
        Call.Log "info" "Account locked"], by simp⟩

end Security

/-- The lock branch of handleFailedLogin, from the state in which it was
called: the calls made and the value returned. -/
theorem handleFailedLogin_lock_calls {σ : Type} (P : Platform) (s : Security.Service σ)
    (userID email : String) (attempt : LoginAttempt) (w : Sys σ)
    (recent : List LoginAttempt)
    (huser : userID ≠ "")
    (hget : (s.repo.GetRecentLoginAttempts userID 10 w.st).1 = .ok recent)
    (hthr : s.config.MaxLoginAttempts
      ≤ (Security.countFailed P recent 0
          (w.call (Call.GetRecentLoginAttempts userID 10)
            (s.repo.GetRecentLoginAttempts userID 10)).2).1) :
    let c := Security.countFailed P recent 0
      (w.call (Call.GetRecentLoginAttempts userID 10)
        (s.repo.GetRecentLoginAttempts userID 10)).2
    let n := c.1
    let t := P.Now c.2.tick
    let unlock := t + (if s.config.AccountLockDuration = 0 then 30 * minute
      else s.config.AccountLockDuration)
    let reason := "Too many failed login attempts (" ++ toString n ++ ")"
    let event : SecurityEvent :=
      { UserID := userID, EventType := "account_locked", IPAddress := attempt.IPAddress,
        UserAgent := attempt.UserAgent, Location := attempt.Location,
        Description := reason, CreatedAt := P.Now (c.2.tick + 1) }
    ((s.repo.LockAccount userID unlock reason c.2.st).1 = none
      → (Security.handleFailedLogin P s userID email attempt w).1 = none
        ∧ ∃ rest, (Security.handleFailedLogin P s userID email attempt w).2.trace
            = w.trace ++ [Call.GetRecentLoginAttempts userID 10,
                Call.LockAccount userID unlock reason, Call.RecordSecurityEvent event]
              ++ rest)
    ∧ (∀ e, (s.repo.LockAccount userID unlock reason c.2.st).1 = some e
      → (Security.handleFailedLogin P s userID email attempt w).1
          = some (GoError.wrap "failed to lock account" e)
        ∧ (Security.handleFailedLogin P s userID email attempt w).2.trace
          = w.trace ++ [Call.GetRecentLoginAttempts userID 10,
              Call.LockAccount userID unlock reason]) := by
  intro c n t unlock reason event
  obtain ⟨_, htr⟩ := Security.countFailed_st P recent 0
    (w.call (Call.GetRecentLoginAttempts userID 10)
      (s.repo.GetRecentLoginAttempts userID 10)).2
  have htr2 : c.2.trace = w.trace ++ [Call.GetRecentLoginAttempts userID 10] := htr
  obtain ⟨a1, a2⟩ := Security.handleFailedLogin_lock_aux P s userID email attempt w recent
    c.1 c.2 huser hget rfl hthr unlock reason rfl rfl
  constructor
  · intro hk
    obtain ⟨b1, rest, b2⟩ := a2 hk
    refine ⟨b1, rest, ?_⟩
    rw [b2, htr2]
    simp
  · intro e he
    rw [a1 e he]
    refine ⟨rfl, ?_⟩
    simp only [htr2]
    simp

/-- C16: when handleFailedLogin locks an account (the failed-attempt count n has
reached MaxLoginAttempts), with t the reading of time.Now taken for the lock,
the LockAccount call carries the unlock time t + AccountLockDuration, or
t + 30 minutes when AccountLockDuration is zero, and the reason text
Too many failed login attempts (n); when the lock is stored, the next call
records the account_locked security event with that same text as description;
when it is not, handleFailedLogin returns the wrapped error. -/
theorem handleFailedLogin_lock {σ : Type} (P : Platform) (s : Security.Service σ)
    (userID email : String) (attempt : LoginAttempt) (w : Sys σ)
    (recent : List LoginAttempt)
    (huser : userID ≠ "")
    (hget : (s.repo.GetRecentLoginAttempts userID 10 w.st).1 = .ok recent)
    (hthr : s.config.MaxLoginAttempts
      ≤ (Security.countFailed P recent 0
          (w.call (Call.GetRecentLoginAttempts userID 10)
            (s.repo.GetRecentLoginAttempts userID 10)).2).1) :
    let c := Security.countFailed P recent 0
      (w.call (Call.GetRecentLoginAttempts userID 10)
        (s.repo.GetRecentLoginAttempts userID 10)).2
    let n := c.1
    let t := P.Now c.2.tick
    let unlock := t + (if s.config.AccountLockDuration = 0 then 30 * minute
      else s.config.AccountLockDuration)
    let reason := "Too many failed login attempts (" ++ toString n ++ ")"
    let event : SecurityEvent :=
      { UserID := userID, EventType := "account_locked", IPAddress := attempt.IPAddress,
        UserAgent := attempt.UserAgent, Location := attempt.Location,
        Description := reason, CreatedAt := P.Now (c.2.tick + 1) }
    ((s.repo.LockAccount userID unlock reason c.2.st).1 = none
      → (Security.handleFailedLogin P s userID email attempt w).1 = none
        ∧ ∃ rest, (Security.handleFailedLogin P s userID email attempt w).2.trace
            = w.trace ++ [Call.GetRecentLoginAttempts userID 10,
                Call.LockAccount userID unlock reason, Call.RecordSecurityEvent event]
              ++ rest)
    ∧ (∀ e, (s.repo.LockAccount userID unlock reason c.2.st).1 = some e
      → (Security.handleFailedLogin P s userID email attempt w).1
          = some (GoError.wrap "failed to lock account" e)
        ∧ (Security.handleFailedLogin P s userID email attempt w).2.trace
          = w.trace ++ [Call.GetRecentLoginAttempts userID 10,
              Call.LockAccount userID unlock reason]) :=
  handleFailedLogin_lock_calls P s userID email attempt w recent huser hget hthr

namespace Security

/-- The counting loop counts at least the failed attempts of a sublist that are
within the hour at the readings of the clock that the loop takes, one for each
failed row. -/
theorem countFailed_ge {σ : Type} (P : Platform) (five recent : List LoginAttempt)
    (hsub : five.Sublist recent) :
    ∀ (n : Int) (w : Sys σ),
      (∀ a ∈ five, a.Successful = false
        ∧ ∀ k, w.tick ≤ k → k < w.tick + (recent.filter (fun r => !r.Successful)).length
          → P.Now k - a.AttemptedAt < hour)
      → n + five.length ≤ (countFailed P recent n w).1 := by
  induction hsub with
  | slnil => intro n w _; simp [countFailed]
  | @cons five rest a _ ih =>
    intro n w hfive
    unfold countFailed
    cases hs : a.Successful with
    | true =>
      simp only [if_true]
      exact ih n w (fun b hb => ⟨(hfive b hb).1, fun k h1 h2 =>
        (hfive b hb).2 k h1 (by simpa [List.filter_cons, hs] using h2)⟩)
    | false =>
      simp only [Bool.false_eq_true, if_false, timeNow]
      have hrest : ∀ b ∈ five, b.Successful = false
          ∧ ∀ k, w.tick + 1 ≤ k
            → k < w.tick + 1 + (rest.filter (fun r => !r.Successful)).length
            → P.Now k - b.AttemptedAt < hour :=
        fun b hb => ⟨(hfive b hb).1, fun k h1 h2 =>
          (hfive b hb).2 k (by omega)
            (by simp only [List.filter_cons, hs, Bool.not_false, if_true, List.length_cons]
                omega)⟩
      split
      · have := ih (n + 1) { st := w.st, tick := w.tick + 1, trace := w.trace } hrest
        omega
      · exact ih n { st := w.st, tick := w.tick + 1, trace := w.trace } hrest
  | @cons₂ five rest a _ ih =>
    intro n w hfive
    obtain ⟨hs, ht⟩ := hfive a (List.mem_cons_self _ _)
    have hnow : P.Now w.tick - a.AttemptedAt < hour :=
      ht w.tick (le_refl _)
        (by simp only [List.filter_cons, hs, Bool.not_false, if_true, List.length_cons]
            omega)
    have hrest : ∀ b ∈ five, b.Successful = false
        ∧ ∀ k, w.tick + 1 ≤ k
          → k < w.tick + 1 + (rest.filter (fun r => !r.Successful)).length
          → P.Now k - b.AttemptedAt < hour :=
      fun b hb => ⟨(hfive b (List.mem_cons_of_mem _ hb)).1, fun k h1 h2 =>
        (hfive b (List.mem_cons_of_mem _ hb)).2 k (by omega)
          (by simp only [List.filter_cons, hs, Bool.not_false, if_true, List.length_cons]
              omega)⟩
    unfold countFailed
    simp only [hs, Bool.false_eq_true, if_false, timeNow, hnow, if_true]
    have := ih (n + 1) { st := w.st, tick := w.tick + 1, trace := w.trace } hrest
    simp only [List.length_cons, Nat.cast_add, Nat.cast_one]
    omega

end Security

/-- C12, amended: with MaxLoginAttempts = 5, for a known user, when the failed
attempt has been stored and the rows returned by GetRecentLoginAttempts(userID,
10), the ten most recent attempts of the user, contain 5 failed attempts that
are less than an hour old at the readings of the clock that the count takes
(one for each failed row, from the reading that follows the store),
RecordLoginAttempt calls LockAccount for that user, and, when the lock has been
stored, records an account_locked security event for that user. -/
theorem RecordLoginAttempt_locks {σ : Type} (P : Platform) (L : Libs)
    (s : Security.Service σ) (userID email ip ua : String) (w : Sys σ)
    (recent five : List LoginAttempt)
    (hmax : s.config.MaxLoginAttempts = 5)
    (huser : userID ≠ "")
    (hstore : (Security.storeAttempt P L s userID ip ua false w).1.1 = none)
    (hget : (s.repo.GetRecentLoginAttempts userID 10
        (Security.storeAttempt P L s userID ip ua false w).2.st).1 = .ok recent)
    (hsub : five.Sublist recent) (hlen : five.length = 5)
    (hfive : ∀ a ∈ five, a.Successful = false
      ∧ ∀ k, (Security.storeAttempt P L s userID ip ua false w).2.tick ≤ k
        → k < (Security.storeAttempt P L s userID ip ua false w).2.tick
              + (recent.filter (fun r => !r.Successful)).length
        → P.Now k - a.AttemptedAt < hour) :
    ∃ unlock reason,
      Call.LockAccount userID unlock reason
        ∈ (Security.RecordLoginAttempt P L s userID email ip ua false w).2.trace
      ∧ ((s.repo.LockAccount userID unlock reason
            (s.repo.GetRecentLoginAttempts userID 10
              (Security.storeAttempt P L s userID ip ua false w).2.st).2).1 = none
        → ∃ event, event.EventType = "account_locked" ∧ event.UserID = userID
            ∧ Call.RecordSecurityEvent event
              ∈ (Security.RecordLoginAttempt P L s userID email ip ua false w).2.trace) := by
  rw [Security.RecordLoginAttempt_eq, hstore]
  simp only [Bool.false_eq_true, if_false]
  have hthr : s.config.MaxLoginAttempts
      ≤ (Security.countFailed P recent 0
          ((Security.storeAttempt P L s userID ip ua false w).2.call
            (Call.GetRecentLoginAttempts userID 10)
            (s.repo.GetRecentLoginAttempts userID 10)).2).1 := by
    have := Security.countFailed_ge P five recent hsub 0
      ((Security.storeAttempt P L s userID ip ua false w).2.call
        (Call.GetRecentLoginAttempts userID 10)
        (s.repo.GetRecentLoginAttempts userID 10)).2 hfive
    rw [hmax]
    rw [hlen] at this
    simpa using this
  have hst := (Security.countFailed_st P recent 0
    ((Security.storeAttempt P L s userID ip ua false w).2.call
      (Call.GetRecentLoginAttempts userID 10)
      (s.repo.GetRecentLoginAttempts userID 10)).2).1
  obtain ⟨h1, h2⟩ := handleFailedLogin_lock_calls P s userID email
    (Security.storeAttempt P L s userID ip ua false w).1.2
    (Security.storeAttempt P L s userID ip ua false w).2 recent huser hget hthr
  have hst2 : (Security.countFailed P recent 0
      ((Security.storeAttempt P L s userID ip ua false w).2.call
        (Call.GetRecentLoginAttempts userID 10)
        (s.repo.GetRecentLoginAttempts userID 10)).2).2.st
      = (s.repo.GetRecentLoginAttempts userID 10
          (Security.storeAttempt P L s userID ip ua false w).2.st).2 := hst
  simp only [hst2] at h1 h2
  generalize (P.Now (Security.countFailed P recent 0
      ((Security.storeAttempt P L s userID ip ua false w).2.call
        (Call.GetRecentLoginAttempts userID 10)
        (s.repo.GetRecentLoginAttempts userID 10)).2).2.tick
      + if s.config.AccountLockDuration = 0 then 30 * minute
        else s.config.AccountLockDuration) = unlock at h1 h2
  generalize ("Too many failed login attempts (" ++ toString (Security.countFailed P recent 0
      ((Security.storeAttempt P L s userID ip ua false w).2.call
        (Call.GetRecentLoginAttempts userID 10)
        (s.repo.GetRecentLoginAttempts userID 10)).2).1 ++ ")") = reason at h1 h2
  refine ⟨unlock, reason, ?_, ?_⟩
  · cases hk : (s.repo.LockAccount userID unlock reason
        (s.repo.GetRecentLoginAttempts userID 10
          (Security.storeAttempt P L s userID ip ua false w).2.st).2).1 with
    | none =>
      obtain ⟨_, rest, hr⟩ := h1 hk
      rw [hr]
      simp
    | some e =>
      rw [(h2 e hk).2]
      simp
  · intro hk
    obtain ⟨_, rest, hr⟩ := h1 hk
    have hmem : ∀ (x y z : Call) (A rest : List Call), z ∈ A ++ [x, y, z] ++ rest := by
      intros; simp
    rw [hr]
    refine ⟨_, ?a, ?b, hmem _ _ _ _ _⟩
    case a => rfl
    case b => rfl

namespace Security

theorem scanLogins_eq (a : LoginAttempt) (recent : List LoginAttempt) :
    ∀ flags : Bool × Bool,
      scanLogins a recent flags
        = (flags.1 && !recent.any (fun l =>
              !(l.ID == a.ID) && l.Successful && l.Location == a.Location),
           flags.2 && !recent.any (fun l =>
              !(l.ID == a.ID) && l.Successful && l.UserAgent == a.UserAgent)) := by
  induction recent with
  | nil => intro flags; simp [scanLogins]
  | cons l rest ih =>
    intro flags
    unfold scanLogins
    by_cases hid : (l.ID == a.ID) = true
    · simp only [hid, if_true, ih, List.any_cons, Bool.not_true, Bool.false_and,
        Bool.false_or]
    · by_cases hs : l.Successful = true
      · simp only [hid, hs, Bool.not_true, Bool.false_eq_true, if_false, ih, List.any_cons,
          Bool.not_false, Bool.true_and]
        by_cases hl : (l.Location == a.Location) = true <;>
          by_cases hu : (l.UserAgent == a.UserAgent) = true <;>
          simp [hl, hu]
      · simp only [Bool.not_eq_true] at hs hid
        simp only [hid, hs, Bool.false_eq_true, if_false, Bool.not_false, if_true, ih,
          List.any_cons, Bool.and_false, Bool.false_and, Bool.false_or]

/-- The branch of handleSuccessfulLogin that notifies. -/
theorem handleSuccessfulLogin_new {σ : Type} (P : Platform) (L : Libs) (s : Service σ)
    (userID email : String) (a : LoginAttempt) (w : Sys σ) (recent : List LoginAttempt)
    (hget : (s.repo.GetRecentLoginAttempts userID 5 w.st).1 = .ok recent)
    (hnew : (scanLogins a recent (true, true)).1 = true
      ∨ (scanLogins a recent (true, true)).2 = true) :
    (handleSuccessfulLogin P L s userID email a w).1 = none
    ∧ ∃ logs1 logs2,
        (handleSuccessfulLogin P L s userID email a w).2.trace
          = w.trace ++ [Call.GetRecentLoginAttempts userID 5,
              Call.SendLoginNotificationEmail email (getDeviceInfo L a.UserAgent) a.Location]
            ++ logs1
            ++ [Call.RecordSecurityEvent
                  { UserID := userID,
                    EventType := if (scanLogins a recent (true, true)).1 = true
                      then "new_location_login" else "new_device_login",
                    IPAddress := a.IPAddress, UserAgent := a.UserAgent,
                    Location := a.Location, Description := "Login from " ++ a.Location,
                    CreatedAt := P.Now w.tick }]
            ++ logs2
        ∧ ∀ c ∈ logs1 ++ logs2, ∃ m, c = Call.Log "error" m := by
  have hor : ((scanLogins a recent (true, true)).1
      || (scanLogins a recent (true, true)).2) = true := by
    rcases hnew with h | h <;> simp [h]
  unfold handleSuccessfulLogin
  simp only [Sys.call, hget, hor, if_true, sendLoginNotification, timeNow, true_and]
  cases h1 : (s.emailSvc.SendLoginNotificationEmail email (getDeviceInfo L a.UserAgent)
      a.Location (s.repo.GetRecentLoginAttempts userID 5 w.st).2).1 with
  | none =>
    simp only [logIfError, Sys.log]
    split
    · exact ⟨[], [Call.Log "error" "Failed to record security event"],
        by simp, by simp⟩
    · exact ⟨[], [], by simp, by simp⟩
  | some e =>
    simp only [logIfError, Sys.log]
    split
    · exact ⟨[Call.Log "error" "Failed to send login notification"],
        [Call.Log "error" "Failed to record security event"], by simp, by simp⟩
    · exact ⟨[Call.Log "error" "Failed to send login notification"], [],
        by simp, by simp⟩

/-- The branch of handleSuccessfulLogin that does nothing. -/
theorem handleSuccessfulLogin_known {σ : Type} (P : Platform) (L : Libs) (s : Service σ)
    (userID email : String) (a : LoginAttempt) (w : Sys σ) (recent : List LoginAttempt)
    (hget : (s.repo.GetRecentLoginAttempts userID 5 w.st).1 = .ok recent)
    (hold : scanLogins a recent (true, true) = (false, false)) :
    handleSuccessfulLogin P L s userID email a w
      = (none, (w.call (Call.GetRecentLoginAttempts userID 5)
          (s.repo.GetRecentLoginAttempts userID 5)).2) := by
  unfold handleSuccessfulLogin
  simp only [Sys.call, hget, hold, Bool.or_self, Bool.false_eq_true, if_false]

end Security

/-- C18, amended: for a successful login that has been stored, whose user agent
differs from the user agent of every other successful attempt among the rows
returned by GetRecentLoginAttempts(userID, 5), RecordLoginAttempt returns nil,
makes exactly one login-notification call and records exactly one security
event: of type new_device_login when one of those successful attempts has the
location of this login, and of type new_location_login otherwise.  The only
other calls after the store are the history read and error entries of the
log. -/
theorem RecordLoginAttempt_new_device {σ : Type} (P : Platform) (L : Libs)
    (s : Security.Service σ) (userID email ip ua : String) (w : Sys σ)
    (recent : List LoginAttempt)
    (hstore : (Security.storeAttempt P L s userID ip ua true w).1.1 = none)
    (hget : (s.repo.GetRecentLoginAttempts userID 5
        (Security.storeAttempt P L s userID ip ua true w).2.st).1 = .ok recent)
    (hua : ∀ l ∈ recent, l.Successful = true
      → l.ID ≠ (Security.storeAttempt P L s userID ip ua true w).1.2.ID
      → l.UserAgent ≠ (Security.storeAttempt P L s userID ip ua true w).1.2.UserAgent) :
    (Security.RecordLoginAttempt P L s userID email ip ua true w).1 = none
    ∧ ∃ logs1 logs2,
        (Security.RecordLoginAttempt P L s userID email ip ua true w).2.trace
          = (Security.storeAttempt P L s userID ip ua true w).2.trace
            ++ [Call.GetRecentLoginAttempts userID 5,
              Call.SendLoginNotificationEmail email
                (Security.getDeviceInfo L
                  (Security.storeAttempt P L s userID ip ua true w).1.2.UserAgent)
                (Security.storeAttempt P L s userID ip ua true w).1.2.Location]
            ++ logs1
            ++ [Call.RecordSecurityEvent
                  { UserID := userID,
                    EventType :=
                      if recent.any (fun l =>
                          !(l.ID == (Security.storeAttempt P L s userID ip ua true w).1.2.ID)
                            && l.Successful
                            && l.Location
                              == (Security.storeAttempt P L s userID ip ua true w).1.2.Location)
                      then "new_device_login" else "new_location_login",
                    IPAddress := (Security.storeAttempt P L s userID ip ua true w).1.2.IPAddress,
                    UserAgent := (Security.storeAttempt P L s userID ip ua true w).1.2.UserAgent,
                    Location := (Security.storeAttempt P L s userID ip ua true w).1.2.Location,
                    Description := "Login from "
                      ++ (Security.storeAttempt P L s userID ip ua true w).1.2.Location,
                    CreatedAt := P.Now (Security.storeAttempt P L s userID ip ua true w).2.tick }]
            ++ logs2
        ∧ ∀ c ∈ logs1 ++ logs2, ∃ m, c = Call.Log "error" m := by
  rw [Security.RecordLoginAttempt_eq, hstore]
  simp only [if_true]
  generalize (Security.storeAttempt P L s userID ip ua true w).1.2 = a at hua ⊢
  generalize (Security.storeAttempt P L s userID ip ua true w).2 = ws at hget ⊢
  have hdev : (Security.scanLogins a recent (true, true)).2 = true := by
    rw [Security.scanLogins_eq]
    simp only [Bool.true_and, Bool.not_eq_true', List.any_eq_false]
    intro l hl
    by_cases hid : l.ID = a.ID
    · simp [hid]
    · by_cases hs : l.Successful = true
      · have := hua l hl hs hid
        simp [hid, hs, this]
      · simp [hs]
  obtain ⟨h1, logs1, logs2, h2, h3⟩ :=
    Security.handleSuccessfulLogin_new P L s userID email a ws recent hget (Or.inr hdev)
  refine ⟨h1, logs1, logs2, ?_, h3⟩
  rw [h2]
  have hty : (if (Security.scanLogins a recent (true, true)).1 = true
        then "new_location_login" else "new_device_login")
      = (if recent.any (fun l => !(l.ID == a.ID) && l.Successful && l.Location == a.Location)
        then "new_device_login" else "new_location_login") := by
    rw [Security.scanLogins_eq]
    cases recent.any (fun l => !(l.ID == a.ID) && l.Successful && l.Location == a.Location)
      <;> simp
  rw [hty]

/-- C19, amended: for a successful login that has been stored, when the rows
returned by GetRecentLoginAttempts(userID, 5), the five most recent attempts of
the user, hold another successful attempt with the same user agent and the same
location, RecordLoginAttempt returns nil and its only call after the store is
that history read: no security event is recorded and no login notification is
sent. -/
theorem RecordLoginAttempt_known_device {σ : Type} (P : Platform) (L : Libs)
    (s : Security.Service σ) (userID email ip ua : String) (w : Sys σ)
    (recent : List LoginAttempt)
    (hstore : (Security.storeAttempt P L s userID ip ua true w).1.1 = none)
    (hget : (s.repo.GetRecentLoginAttempts userID 5
        (Security.storeAttempt P L s userID ip ua true w).2.st).1 = .ok recent)
    (hprev : ∃ l ∈ recent, l.Successful = true
      ∧ l.ID ≠ (Security.storeAttempt P L s userID ip ua true w).1.2.ID
      ∧ l.UserAgent = (Security.storeAttempt P L s userID ip ua true w).1.2.UserAgent
      ∧ l.Location = (Security.storeAttempt P L s userID ip ua true w).1.2.Location) :
    (Security.RecordLoginAttempt P L s userID email ip ua true w).1 = none
    ∧ (Security.RecordLoginAttempt P L s userID email ip ua true w).2.trace
      = (Security.storeAttempt P L s userID ip ua true w).2.trace
        ++ [Call.GetRecentLoginAttempts userID 5] := by
  rw [Security.RecordLoginAttempt_eq, hstore]
  simp only [if_true]
  generalize (Security.storeAttempt P L s userID ip ua true w).1.2 = a at hprev ⊢
  generalize (Security.storeAttempt P L s userID ip ua true w).2 = ws at hget ⊢
  obtain ⟨l, hl, hs, hid, hu, hloc⟩ := hprev
  have hold : Security.scanLogins a recent (true, true) = (false, false) := by
    rw [Security.scanLogins_eq]
    have h1 : recent.any (fun l => !(l.ID == a.ID) && l.Successful && l.Location == a.Location)
        = true := by
      rw [List.any_eq_true]
      exact ⟨l, hl, by simp [hid, hs, hloc]⟩
    have h2 : recent.any (fun l => !(l.ID == a.ID) && l.Successful
        && l.UserAgent == a.UserAgent) = true := by
      rw [List.any_eq_true]
      exact ⟨l, hl, by simp [hid, hs, hu]⟩
    simp [h1, h2]
  rw [Security.handleSuccessfulLogin_known P L s userID email a ws recent hget hold]
  exact ⟨rfl, rfl⟩

namespace Security

theorem collectLocations_st {σ : Type} (P : Platform) (events : List SecurityEvent) :
    ∀ (acc : List String) (w : Sys σ),
      (collectLocations P events acc w).2
        = { st := w.st, tick := w.tick + events.length, trace := w.trace } := by
  induction events with
  | nil => intro acc w; rfl
  | cons e rest ih =>
    intro acc w
    unfold collectLocations
    simp only [timeNow]
    split
    · rw [ih]
      simp only [List.length_cons]
      congr 1
      omega
    · rw [ih]
      simp only [List.length_cons]
      congr 1
      omega

/-- The keys of the map `locations` after the loop: no key twice, and a location
is a key exactly when it was one before or it is the location of an event that
was within 24 hours at the clock reading taken for it. -/
theorem collectLocations_spec {σ : Type} (P : Platform) (events : List SecurityEvent) :
    ∀ (acc : List String) (w : Sys σ), acc.Nodup →
      (collectLocations P events acc w).1.Nodup
      ∧ ∀ x, x ∈ (collectLocations P events acc w).1
          ↔ x ∈ acc ∨ ∃ i e, events[i]? = some e ∧ e.Location = x
              ∧ P.Now (w.tick + i) - e.CreatedAt < 24 * hour := by
  induction events with
  | nil =>
    intro acc w hnd
    refine ⟨hnd, fun x => ?_⟩
    simp [collectLocations]
  | cons ev rest ih =>
    intro acc w hnd
    unfold collectLocations
    simp only [timeNow]
    have shift : ∀ (x : String),
        (∃ i e, (ev :: rest)[i]? = some e ∧ e.Location = x
          ∧ P.Now (w.tick + i) - e.CreatedAt < 24 * hour)
        ↔ ((ev.Location = x ∧ P.Now w.tick - ev.CreatedAt < 24 * hour)
          ∨ ∃ i e, rest[i]? = some e ∧ e.Location = x
            ∧ P.Now (w.tick + 1 + i) - e.CreatedAt < 24 * hour) := by
      intro x
      constructor
      · rintro ⟨i, e, h1, h2, h3⟩
        cases i with
        | zero =>
          simp only [List.getElem?_cons_zero, Option.some.injEq] at h1
          subst h1
          exact Or.inl ⟨h2, by simpa using h3⟩
        | succ j =>
          simp only [List.getElem?_cons_succ] at h1
          exact Or.inr ⟨j, e, h1, h2, by
            have : w.tick + 1 + j = w.tick + (j + 1) := by omega
            rw [this]; exact h3⟩
      · rintro (⟨h2, h3⟩ | ⟨j, e, h1, h2, h3⟩)
        · exact ⟨0, ev, by simp, h2, by simpa using h3⟩
        · exact ⟨j + 1, e, by simpa using h1, h2, by
            have : w.tick + (j + 1) = w.tick + 1 + j := by omega
            rw [this]; exact h3⟩
    split
    · rename_i hin
      by_cases hmem : ev.Location ∈ acc
      · have hc : acc.contains ev.Location = true := by simpa using hmem
        simp only [hc, if_true]
        obtain ⟨i1, i2⟩ := ih acc { st := w.st, tick := w.tick + 1, trace := w.trace } hnd
        refine ⟨i1, fun x => ?_⟩
        rw [i2 x, shift x]
        constructor
        · rintro (h | h)
          · exact Or.inl h
          · exact Or.inr (Or.inr h)
        · rintro (h | ⟨h, _⟩ | h)
          · exact Or.inl h
          · exact Or.inl (h ▸ hmem)
          · exact Or.inr h
      · have hc : acc.contains ev.Location = false := by simpa using hmem
        simp only [hc, Bool.false_eq_true, if_false]
        have hnd2 : (acc ++ [ev.Location]).Nodup := by
          rw [List.nodup_append]
          refine ⟨hnd, by simp, ?_⟩
          intro a ha hb
          simp only [List.mem_singleton] at hb
          subst hb
          exact hmem ha
        obtain ⟨i1, i2⟩ := ih (acc ++ [ev.Location])
          { st := w.st, tick := w.tick + 1, trace := w.trace } hnd2
        refine ⟨i1, fun x => ?_⟩
        rw [i2 x, shift x]
        simp only [List.mem_append, List.mem_singleton]
        constructor
        · rintro ((h | h) | h)
          · exact Or.inl h
          · exact Or.inr (Or.inl ⟨h.symm, hin⟩)
          · exact Or.inr (Or.inr h)
        · rintro (h | ⟨h, _⟩ | h)
          · exact Or.inl (Or.inl h)
          · exact Or.inl (Or.inr h.symm)
          · exact Or.inr h
    · rename_i hout
      obtain ⟨i1, i2⟩ := ih acc { st := w.st, tick := w.tick + 1, trace := w.trace } hnd
      refine ⟨i1, fun x => ?_⟩
      rw [i2 x, shift x]
      constructor
      · rintro (h | h)
        · exact Or.inl h
        · exact Or.inr (Or.inr h)
      · rintro (h | ⟨_, h⟩ | h)
        · exact Or.inl h
        · exact absurd h hout
        · exact Or.inr h

end Security

namespace Security

/-- DetectSuspiciousActivity after the events have been fetched, with the
location `location`, the state `wg` after the fetch and the keys `locs` of the
map of locations. -/
theorem DetectSuspiciousActivity_aux {σ : Type} (P : Platform) (L : Libs) (s : Service σ)
    (userID email ip ua activityType : String) (w : Sys σ) (events : List SecurityEvent)
    (location : String) (wl : Sys σ) (locs : List String)
    (hl : locate L s ip w = (location, wl))
    (hget : (s.repo.GetUserSecurityEvents userID 10 wl.st).1 = .ok events)
    (hlocs : (collectLocations P events []
        { st := (s.repo.GetUserSecurityEvents userID 10 wl.st).2, tick := wl.tick,
          trace := wl.trace ++ [Call.GetUserSecurityEvents userID 10] }).1 = locs)
    (activity : SecurityEvent)
    (hact : activity =
      { UserID := userID, EventType := activityType, IPAddress := ip, UserAgent := ua,
        Location := location, Description := activityType ++ " from " ++ location,
        CreatedAt := P.Now (wl.tick + events.length) }) :
    (∀ e, (s.repo.RecordSecurityEvent activity
          (s.repo.GetUserSecurityEvents userID 10 wl.st).2).1.1 = some e
      → (DetectSuspiciousActivity P L s userID email ip ua activityType w).1
          = some (GoError.wrap "failed to record security event" e)
        ∧ (DetectSuspiciousActivity P L s userID email ip ua activityType w).2.trace
          = wl.trace ++ [Call.GetUserSecurityEvents userID 10,
              Call.RecordSecurityEvent activity])
    ∧ ((s.repo.RecordSecurityEvent activity
          (s.repo.GetUserSecurityEvents userID 10 wl.st).2).1.1 = none
      → (DetectSuspiciousActivity P L s userID email ip ua activityType w).1 = none
        ∧ ((3 ≤ locs.length ∧ location ∉ locs)
          → ∃ logs, (DetectSuspiciousActivity P L s userID email ip ua activityType w).2.trace
              = wl.trace ++ [Call.GetUserSecurityEvents userID 10,
                  Call.RecordSecurityEvent activity,
                  Call.RecordSecurityEvent
                    (asSuspicious (s.repo.RecordSecurityEvent activity
                      (s.repo.GetUserSecurityEvents userID 10 wl.st).2).1.2)]
                ++ logs ++ [Call.Log "info" "Suspicious activity detected"]
            ∧ ∀ c ∈ logs, ∃ m, c = Call.Log "error" m)
        ∧ (¬ (3 ≤ locs.length ∧ location ∉ locs)
          → (DetectSuspiciousActivity P L s userID email ip ua activityType w).2.trace
              = wl.trace ++ [Call.GetUserSecurityEvents userID 10,
                  Call.RecordSecurityEvent activity])) := by
  subst hact
  have hst := collectLocations_st P events []
    { st := (s.repo.GetUserSecurityEvents userID 10 wl.st).2, tick := wl.tick,
      trace := wl.trace ++ [Call.GetUserSecurityEvents userID 10] }
  unfold DetectSuspiciousActivity
  simp only [hl, Sys.call, hget, hst, hlocs, timeNow]
  constructor
  · intro e he
    simp only [he]
    exact ⟨trivial, by simp⟩
  · intro hk
    simp only [hk]
    by_cases hsus : 3 ≤ locs.length ∧ location ∉ locs
    · have hb : (decide (3 ≤ locs.length) && !locs.contains location) = true := by
        simp [hsus.1, hsus.2]
      simp only [hb, if_true, true_and]
      refine ⟨?_, fun h => absurd hsus h⟩
      intro _
      simp only [sendSuspiciousActivityEmail, logIfError, Sys.log, asSuspicious]
      split
      · exact ⟨[Call.Log "error" "Failed to record suspicious activity event"],
          by simp, by simp⟩
      · exact ⟨[], by simp, by simp⟩
    · have hb : (decide (3 ≤ locs.length) && !locs.contains location) = false := by
        by_cases h3 : 3 ≤ locs.length
        · have : location ∈ locs := by
            by_contra hn
            exact hsus ⟨h3, hn⟩
          simp [this]
        · simp [h3]
      simp only [hb, Bool.false_eq_true, if_false, true_and]
      refine ⟨fun h => absurd h hsus, fun _ => by simp⟩

end Security

/-- DetectSuspiciousActivity when the security events of the user have been
fetched: it hands the activity event to the repository; when that event has
been stored, it flags the activity (it records the event again as
suspicious_activity and writes the notification) exactly when the locations of
the fetched events that are within 24 hours number at least 3 and the current
location is not one of them, and otherwise makes no further call; and it makes
no LockAccount call.  The locations are the keys of the map of the loop: each
once, and a location is a key exactly when it is the location of a fetched
event that is within 24 hours at the clock reading taken for it. -/
theorem DetectSuspiciousActivity_fetched {σ : Type} (P : Platform) (L : Libs)
    (s : Security.Service σ) (userID email ip ua activityType : String) (w : Sys σ)
    (events : List SecurityEvent)
    (hget : (s.repo.GetUserSecurityEvents userID 10 (Security.locate L s ip w).2.st).1
      = .ok events) :
    let location := (Security.locate L s ip w).1
    let wl := (Security.locate L s ip w).2
    let fetched := (s.repo.GetUserSecurityEvents userID 10 wl.st).2
    let locations := (Security.collectLocations P events []
      { st := fetched, tick := wl.tick,
        trace := wl.trace ++ [Call.GetUserSecurityEvents userID 10] }).1
    let activity : SecurityEvent :=
      { UserID := userID, EventType := activityType, IPAddress := ip, UserAgent := ua,
        Location := location, Description := activityType ++ " from " ++ location,
        CreatedAt := P.Now (wl.tick + events.length) }
    let stored := (s.repo.RecordSecurityEvent activity fetched).1
    let out := Security.DetectSuspiciousActivity P L s userID email ip ua activityType w
    (locations.Nodup
      ∧ ∀ x, x ∈ locations ↔ ∃ i e, events[i]? = some e ∧ e.Location = x
          ∧ P.Now (wl.tick + i) - e.CreatedAt < 24 * hour)
    ∧ Call.RecordSecurityEvent activity ∈ out.2.trace
    ∧ (stored.1 = none
      → out.1 = none
        ∧ ((3 ≤ locations.length ∧ location ∉ locations)
          → ∃ logs, out.2.trace
              = wl.trace ++ [Call.GetUserSecurityEvents userID 10,
                  Call.RecordSecurityEvent activity,
                  Call.RecordSecurityEvent (Security.asSuspicious stored.2)]
                ++ logs ++ [Call.Log "info" "Suspicious activity detected"]
            ∧ ∀ c ∈ logs, ∃ m, c = Call.Log "error" m)
        ∧ (¬ (3 ≤ locations.length ∧ location ∉ locations)
          → out.2.trace
              = wl.trace ++ [Call.GetUserSecurityEvents userID 10,
                  Call.RecordSecurityEvent activity]))
    ∧ (∀ u t r, Call.LockAccount u t r ∈ out.2.trace → Call.LockAccount u t r ∈ w.trace) := by
  intro location wl fetched locations activity stored out
  obtain ⟨a1, a2⟩ := Security.DetectSuspiciousActivity_aux P L s userID email ip ua
    activityType w events location wl locations rfl hget rfl activity rfl
  obtain ⟨pre, hpre, _, hgeo⟩ := Security.locate_trace L s ip w
  have hspec := Security.collectLocations_spec P events []
    { st := fetched, tick := wl.tick,
      trace := wl.trace ++ [Call.GetUserSecurityEvents userID 10] } List.nodup_nil
  have hnolock : ∀ u t r, Call.LockAccount u t r ∈ wl.trace
      → Call.LockAccount u t r ∈ w.trace := by
    intro u t r h
    have h' : Call.LockAccount u t r ∈ w.trace ++ pre := hpre ▸ h
    rcases List.mem_append.mp h' with h1 | h1
    · exact h1
    · rcases hgeo _ h1 with h2 | h2 <;> cases h2
  refine ⟨⟨hspec.1, fun x => ?_⟩, ?_, ?_, ?_⟩
  · rw [hspec.2 x]
    simp
  · cases hk : stored.1 with
    | some e =>
      have h := (a1 e hk).2
      show _ ∈ (Security.DetectSuspiciousActivity P L s userID email ip ua activityType w).2.trace
      rw [h]
      simp
    | none =>
      obtain ⟨_, b2, b3⟩ := a2 hk
      show _ ∈ (Security.DetectSuspiciousActivity P L s userID email ip ua activityType w).2.trace
      by_cases hs : 3 ≤ locations.length ∧ location ∉ locations
      · obtain ⟨logs, hl, _⟩ := b2 hs
        rw [hl]
        simp
      · rw [b3 hs]
        simp
  · intro hk
    exact a2 hk
  · intro u t r hmem
    apply hnolock
    change Call.LockAccount u t r
      ∈ (Security.DetectSuspiciousActivity P L s userID email ip ua activityType w).2.trace
      at hmem
    cases hk : stored.1 with
    | some e =>
      rw [(a1 e hk).2] at hmem
      simpa using hmem
    | none =>
      obtain ⟨_, b2, b3⟩ := a2 hk
      by_cases hs : 3 ≤ locations.length ∧ location ∉ locations
      · obtain ⟨logs, hl, hlog⟩ := b2 hs
        rw [hl] at hmem
        simp only [List.mem_append, List.mem_cons, List.mem_singleton, List.not_mem_nil,
          or_false] at hmem
        rcases hmem with ((h | h | h | h) | h) | h
        · exact h
        · cases h
        · cases h
        · cases h
        · obtain ⟨m, hm⟩ := hlog _ h
          cases hm
        · cases h
      · rw [b3 hs] at hmem
        simpa using hmem

/-- C12, counterexample: with MaxLoginAttempts = 5, a user has four failed
attempts and then nine successful ones, all within the last minute.  The failed
attempt recorded now is the fifth failed attempt within the hour, and yet
RecordLoginAttempt returns nil after reading the history: it makes no
LockAccount call, records no event and the table of locks stays empty, because
only the ten most recent rows are counted. -/
theorem RecordLoginAttempt_counts_ten_rows :
    Demo.securityService.config.MaxLoginAttempts = 5
    ∧ ((Demo.failedLogin Demo.clock
          { st := Demo.database (Demo.fourFailures ++ Demo.nineSuccesses) }).2.st.login_attempts.filter
        (fun a => a.UserID == "user123" && !a.Successful
          && decide (Demo.clock 2 - a.AttemptedAt < hour))).length = 5
    ∧ (Demo.failedLogin Demo.clock
          { st := Demo.database (Demo.fourFailures ++ Demo.nineSuccesses) }).1 = none
    ∧ (Demo.failedLogin Demo.clock
          { st := Demo.database (Demo.fourFailures ++ Demo.nineSuccesses) }).2.trace
        = [Call.GetLocation "203.0.113.7",
           Call.RecordLoginAttempt
             { UserID := "user123", IPAddress := "203.0.113.7", UserAgent := Demo.firefox,
               Location := Demo.unknownCity, Successful := false,
               AttemptedAt := 1700000000000000000 },
           Call.GetRecentLoginAttempts "user123" 10]
    ∧ (Demo.failedLogin Demo.clock
          { st := Demo.database (Demo.fourFailures ++ Demo.nineSuccesses) }).2.st.account_locks
        = [] := by
  decide

theorem RecordLoginAttempt_locks_witness :
    ∃ unlock reason,
      Call.LockAccount "user123" unlock reason
        ∈ (Security.RecordLoginAttempt (Demo.platform Demo.clock) Demo.libs
            Demo.securityService "user123" "test@example.com" "203.0.113.7" Demo.firefox false
            (Demo.securityWorld Demo.fourFailures)).2.trace
      ∧ ((Demo.securityService.repo.LockAccount "user123" unlock reason
            (Demo.securityService.repo.GetRecentLoginAttempts "user123" 10
              (Security.storeAttempt (Demo.platform Demo.clock) Demo.libs
                Demo.securityService "user123" "203.0.113.7" Demo.firefox false
                (Demo.securityWorld Demo.fourFailures)).2.st).2).1 = none
        → ∃ event, event.EventType = "account_locked" ∧ event.UserID = "user123"
            ∧ Call.RecordSecurityEvent event
              ∈ (Security.RecordLoginAttempt (Demo.platform Demo.clock) Demo.libs
                  Demo.securityService "user123" "test@example.com" "203.0.113.7"
                  Demo.firefox false (Demo.securityWorld Demo.fourFailures)).2.trace) :=
  RecordLoginAttempt_locks (Demo.platform Demo.clock) Demo.libs Demo.securityService
    "user123" "test@example.com" "203.0.113.7" Demo.firefox
    (Demo.securityWorld Demo.fourFailures)
    (Demo.storedAttempt false 1700000000000000000 :: Demo.fourFailures.reverse)
    (Demo.storedAttempt false 1700000000000000000 :: Demo.fourFailures.reverse)
    rfl (by decide) (by decide) (by decide) (List.Sublist.refl _) rfl
    (by
      have htick : (Security.storeAttempt (Demo.platform Demo.clock) Demo.libs
          Demo.securityService "user123" "203.0.113.7" Demo.firefox false
          (Demo.securityWorld Demo.fourFailures)).2.tick = 1 := by decide
      have hrows : ((Demo.storedAttempt false 1700000000000000000
          :: Demo.fourFailures.reverse).filter (fun r => !r.Successful)).length = 5 := by
        decide
      intro a ha
      simp only [Demo.fourFailures, List.reverse_cons, List.reverse_nil, List.nil_append,
        List.cons_append, List.mem_cons, List.mem_singleton, List.not_mem_nil, or_false] at ha
      rw [htick, hrows]
      rcases ha with rfl | rfl | rfl | rfl | rfl <;>
        refine ⟨by decide, fun k _ hk => ?_⟩ <;>
        simp only [Demo.platform, Demo.clock, Demo.storedAttempt, Demo.pastAttempt, hour] <;>
        omega)

theorem handleFailedLogin_lock_witness :
    let c := Security.countFailed (Demo.platform Demo.clock)
      (Demo.storedAttempt false 1700000000000000000 :: Demo.fourFailures.reverse) 0
      ((Demo.securityWorld
          (Demo.fourFailures ++ [Demo.storedAttempt false 1700000000000000000])).call
        (Call.GetRecentLoginAttempts "user123" 10)
        (Demo.securityService.repo.GetRecentLoginAttempts "user123" 10)).2
    let n := c.1
    let t := (Demo.platform Demo.clock).Now c.2.tick
    let unlock := t + (if Demo.securityService.config.AccountLockDuration = 0 then 30 * minute
      else Demo.securityService.config.AccountLockDuration)
    let reason := "Too many failed login attempts (" ++ toString n ++ ")"
    let event : SecurityEvent :=
      { UserID := "user123", EventType := "account_locked",
        IPAddress := (Demo.storedAttempt false 1700000000000000000).IPAddress,
        UserAgent := (Demo.storedAttempt false 1700000000000000000).UserAgent,
        Location := (Demo.storedAttempt false 1700000000000000000).Location,
        Description := reason, CreatedAt := (Demo.platform Demo.clock).Now (c.2.tick + 1) }
    ((Demo.securityService.repo.LockAccount "user123" unlock reason c.2.st).1 = none
      → (Security.handleFailedLogin (Demo.platform Demo.clock) Demo.securityService "user123"
            "test@example.com" (Demo.storedAttempt false 1700000000000000000)
            (Demo.securityWorld
              (Demo.fourFailures ++ [Demo.storedAttempt false 1700000000000000000]))).1 = none
        ∧ ∃ rest, (Security.handleFailedLogin (Demo.platform Demo.clock) Demo.securityService
            "user123" "test@example.com" (Demo.storedAttempt false 1700000000000000000)
            (Demo.securityWorld
              (Demo.fourFailures ++ [Demo.storedAttempt false 1700000000000000000]))).2.trace
            = (Demo.securityWorld
                (Demo.fourFailures ++ [Demo.storedAttempt false 1700000000000000000])).trace
              ++ [Call.GetRecentLoginAttempts "user123" 10,
                Call.LockAccount "user123" unlock reason, Call.RecordSecurityEvent event]
              ++ rest)
    ∧ (∀ e, (Demo.securityService.repo.LockAccount "user123" unlock reason c.2.st).1 = some e
      → (Security.handleFailedLogin (Demo.platform Demo.clock) Demo.securityService "user123"
            "test@example.com" (Demo.storedAttempt false 1700000000000000000)
            (Demo.securityWorld
              (Demo.fourFailures ++ [Demo.storedAttempt false 1700000000000000000]))).1
          = some (GoError.wrap "failed to lock account" e)
        ∧ (Security.handleFailedLogin (Demo.platform Demo.clock) Demo.securityService
            "user123" "test@example.com" (Demo.storedAttempt false 1700000000000000000)
            (Demo.securityWorld
              (Demo.fourFailures ++ [Demo.storedAttempt false 1700000000000000000]))).2.trace
          = (Demo.securityWorld
              (Demo.fourFailures ++ [Demo.storedAttempt false 1700000000000000000])).trace
            ++ [Call.GetRecentLoginAttempts "user123" 10,
              Call.LockAccount "user123" unlock reason]) :=
  handleFailedLogin_lock (Demo.platform Demo.clock) Demo.securityService "user123"
    "test@example.com" (Demo.storedAttempt false 1700000000000000000)
    (Demo.securityWorld (Demo.fourFailures ++ [Demo.storedAttempt false 1700000000000000000]))
    (Demo.storedAttempt false 1700000000000000000 :: Demo.fourFailures.reverse)
    (by decide) (by decide) (by decide)

/-- C18, counterexample: the only earlier login of the user was made with
another browser at another place.  The successful login recorded now differs
in its user agent from every earlier successful attempt, and
RecordLoginAttempt records one security event, of type new_location_login:
no event of type new_device_login is recorded. -/
theorem RecordLoginAttempt_new_location_type :
    (∀ a ∈ [Demo.pastAttempt 0 true Demo.safari "Accra, Ghana"],
      a.UserAgent ≠ Demo.firefox ∧ a.Location ≠ Demo.unknownCity)
    ∧ (Demo.successfulLogin Demo.clock
        (Demo.securityWorld [Demo.pastAttempt 0 true Demo.safari "Accra, Ghana"])).1 = none
    ∧ (Demo.successfulLogin Demo.clock
        (Demo.securityWorld
          [Demo.pastAttempt 0 true Demo.safari "Accra, Ghana"])).2.st.security_events.map
          (fun e => (e.UserID, e.EventType))
        = [("user123", "new_location_login")] := by
  decide

/-- C19, counterexample: the previous successful login of the user had the user
agent and the location of the login recorded now, and four failed attempts lie
between the two.  RecordLoginAttempt sends a login notification and records a
security event of type new_location_login, because the previous successful
login is not among the five most recent rows. -/
theorem RecordLoginAttempt_forgets_previous_login :
    (Demo.pastAttempt 0 true Demo.firefox Demo.unknownCity).UserAgent
        = (Demo.storedAttempt true 1700000000000000000).UserAgent
    ∧ (Demo.pastAttempt 0 true Demo.firefox Demo.unknownCity).Location
        = (Demo.storedAttempt true 1700000000000000000).Location
    ∧ (Demo.successfulLogin Demo.clock
        (Demo.securityWorld Demo.successThenFailures)).2.st.login_attempts
        = Demo.successThenFailures ++ [Demo.storedAttempt true 1700000000000000000]
    ∧ (Demo.successfulLogin Demo.clock
        (Demo.securityWorld Demo.successThenFailures)).2.st.security_events.map
          (fun e => (e.UserID, e.EventType))
        = [("user123", "new_location_login")]
    ∧ Call.SendLoginNotificationEmail "test@example.com" "Linux PC (Linux, Firefox)"
          Demo.unknownCity
        ∈ (Demo.successfulLogin Demo.clock
            (Demo.securityWorld Demo.successThenFailures)).2.trace := by
  decide

theorem RecordLoginAttempt_new_device_witness :
    (Security.RecordLoginAttempt (Demo.platform Demo.clock) Demo.libs Demo.securityService "user123" "test@example.com" "203.0.113.7" Demo.firefox true (Demo.securityWorld [Demo.pastAttempt 0 true Demo.safari "Accra, Ghana"])).1 = none
    ∧ ∃ logs1 logs2,
        (Security.RecordLoginAttempt (Demo.platform Demo.clock) Demo.libs Demo.securityService "user123" "test@example.com" "203.0.113.7" Demo.firefox true (Demo.securityWorld [Demo.pastAttempt 0 true Demo.safari "Accra, Ghana"])).2.trace
          = (Security.storeAttempt (Demo.platform Demo.clock) Demo.libs Demo.securityService "user123" "203.0.113.7" Demo.firefox true (Demo.securityWorld [Demo.pastAttempt 0 true Demo.safari "Accra, Ghana"])).2.trace
            ++ [Call.GetRecentLoginAttempts "user123" 5,
              Call.SendLoginNotificationEmail "test@example.com"
                (Security.getDeviceInfo Demo.libs
                  (Security.storeAttempt (Demo.platform Demo.clock) Demo.libs Demo.securityService "user123" "203.0.113.7" Demo.firefox true (Demo.securityWorld [Demo.pastAttempt 0 true Demo.safari "Accra, Ghana"])).1.2.UserAgent)
                (Security.storeAttempt (Demo.platform Demo.clock) Demo.libs Demo.securityService "user123" "203.0.113.7" Demo.firefox true (Demo.securityWorld [Demo.pastAttempt 0 true Demo.safari "Accra, Ghana"])).1.2.Location]
            ++ logs1
            ++ [Call.RecordSecurityEvent
                  { UserID := "user123",
                    EventType :=
                      if [Demo.storedAttempt true 1700000000000000000, Demo.pastAttempt 0 true Demo.safari "Accra, Ghana"].any (fun l =>
                          !(l.ID == (Security.storeAttempt (Demo.platform Demo.clock) Demo.libs Demo.securityService "user123" "203.0.113.7" Demo.firefox true (Demo.securityWorld [Demo.pastAttempt 0 true Demo.safari "Accra, Ghana"])).1.2.ID)
                            && l.Successful
                            && l.Location
                              == (Security.storeAttempt (Demo.platform Demo.clock) Demo.libs Demo.securityService "user123" "203.0.113.7" Demo.firefox true (Demo.securityWorld [Demo.pastAttempt 0 true Demo.safari "Accra, Ghana"])).1.2.Location)
                      then "new_device_login" else "new_location_login",
                    IPAddress := (Security.storeAttempt (Demo.platform Demo.clock) Demo.libs Demo.securityService "user123" "203.0.113.7" Demo.firefox true (Demo.securityWorld [Demo.pastAttempt 0 true Demo.safari "Accra, Ghana"])).1.2.IPAddress,
                    UserAgent := (Security.storeAttempt (Demo.platform Demo.clock) Demo.libs Demo.securityService "user123" "203.0.113.7" Demo.firefox true (Demo.securityWorld [Demo.pastAttempt 0 true Demo.safari "Accra, Ghana"])).1.2.UserAgent,
                    Location := (Security.storeAttempt (Demo.platform Demo.clock) Demo.libs Demo.securityService "user123" "203.0.113.7" Demo.firefox true (Demo.securityWorld [Demo.pastAttempt 0 true Demo.safari "Accra, Ghana"])).1.2.Location,
                    Description := "Login from "
                      ++ (Security.storeAttempt (Demo.platform Demo.clock) Demo.libs Demo.securityService "user123" "203.0.113.7" Demo.firefox true (Demo.securityWorld [Demo.pastAttempt 0 true Demo.safari "Accra, Ghana"])).1.2.Location,
                    CreatedAt := (Demo.platform Demo.clock).Now (Security.storeAttempt (Demo.platform Demo.clock) Demo.libs Demo.securityService "user123" "203.0.113.7" Demo.firefox true (Demo.securityWorld [Demo.pastAttempt 0 true Demo.safari "Accra, Ghana"])).2.tick }]
            ++ logs2
        ∧ ∀ c ∈ logs1 ++ logs2, ∃ m, c = Call.Log "error" m :=
  RecordLoginAttempt_new_device (Demo.platform Demo.clock) Demo.libs Demo.securityService
    "user123" "test@example.com" "203.0.113.7" Demo.firefox
    (Demo.securityWorld [Demo.pastAttempt 0 true Demo.safari "Accra, Ghana"])
    [Demo.storedAttempt true 1700000000000000000,
      Demo.pastAttempt 0 true Demo.safari "Accra, Ghana"]
    (by decide) (by decide) (by decide)

theorem RecordLoginAttempt_known_device_witness :
    (Security.RecordLoginAttempt (Demo.platform Demo.clock) Demo.libs Demo.securityService "user123" "test@example.com" "203.0.113.7" Demo.firefox true (Demo.securityWorld [Demo.pastAttempt 0 true Demo.firefox Demo.unknownCity])).1 = none
    ∧ (Security.RecordLoginAttempt (Demo.platform Demo.clock) Demo.libs Demo.securityService "user123" "test@example.com" "203.0.113.7" Demo.firefox true (Demo.securityWorld [Demo.pastAttempt 0 true Demo.firefox Demo.unknownCity])).2.trace
      = (Security.storeAttempt (Demo.platform Demo.clock) Demo.libs Demo.securityService "user123" "203.0.113.7" Demo.firefox true (Demo.securityWorld [Demo.pastAttempt 0 true Demo.firefox Demo.unknownCity])).2.trace
        ++ [Call.GetRecentLoginAttempts "user123" 5] :=
  RecordLoginAttempt_known_device (Demo.platform Demo.clock) Demo.libs Demo.securityService
    "user123" "test@example.com" "203.0.113.7" Demo.firefox
    (Demo.securityWorld [Demo.pastAttempt 0 true Demo.firefox Demo.unknownCity])
    [Demo.storedAttempt true 1700000000000000000,
      Demo.pastAttempt 0 true Demo.firefox Demo.unknownCity]
    (by decide) (by decide) (by decide)


namespace SecurityRepository

theorem exec_account_locks (db : DB) : (exec db).2.account_locks = db.account_locks := by
  unfold exec; split <;> rfl

theorem exec_now (db : DB) : (exec db).2.now = db.now := by
  unfold exec; split <;> rfl

theorem exec_uniqueLockUser (db : DB) : (exec db).2.uniqueLockUser = db.uniqueLockUser := by
  unfold exec; split <;> rfl

/-- The rows IsAccountLocked selects. -/
theorem IsAccountLocked_eq (userID : String) (db : DB) (hexec : (exec db).1 = none) :
    (IsAccountLocked userID db).1
      = match db.account_locks.filter
            (fun l => l.UserID == userID && decide (db.now < l.UnlockAt)) with
        | [] => (false, zeroTime, "", none)
        | l :: _ => (true, l.UnlockAt, l.Reason, none) := by
  unfold IsAccountLocked
  simp only [hexec, exec_account_locks, exec_now]
  split <;> rfl

theorem UnlockAccount_account_locks (userID : String) (db : DB)
    (hexec : (exec db).1 = none) :
    (UnlockAccount userID db).1 = none
    ∧ (UnlockAccount userID db).2.account_locks
        = db.account_locks.filter (fun l => l.UserID != userID)
    ∧ (UnlockAccount userID db).2.faults = (exec db).2.faults := by
  unfold UnlockAccount
  simp only [hexec, exec_account_locks]
  exact ⟨trivial, trivial, trivial⟩

theorem exec_fst_of_faults (d1 d2 : DB) (h : d1.faults = d2.faults) :
    (exec d1).1 = (exec d2).1 := by
  unfold exec
  rw [h]
  cases d2.faults <;> rfl

end SecurityRepository

/-- IsAccountLocked when its query is executed: it reports the user locked
exactly when account_locks has a row of that user whose unlock-at is strictly
later than the current time of the server, and then it returns the unlock-at
and the reason of such a row and no error; when it reports the user unlocked,
it returns the zero time, the empty reason and no error, and this is what it
returns when no row of the user exists, when the unlock-at of every row of the
user has passed, and, at every later time, after UnlockAccount for that user. -/
theorem IsAccountLocked_executed (userID : String) (db : SecurityRepository.DB)
    (hexec : (SecurityRepository.exec db).1 = none) :
    ((SecurityRepository.IsAccountLocked userID db).1.1 = true
      ↔ ∃ l ∈ db.account_locks, l.UserID = userID ∧ db.now < l.UnlockAt)
    ∧ ((SecurityRepository.IsAccountLocked userID db).1.1 = true
      → ∃ l ∈ db.account_locks, l.UserID = userID ∧ db.now < l.UnlockAt
        ∧ (SecurityRepository.IsAccountLocked userID db).1
            = (true, l.UnlockAt, l.Reason, none))
    ∧ ((SecurityRepository.IsAccountLocked userID db).1.1 = false
      → (SecurityRepository.IsAccountLocked userID db).1 = (false, zeroTime, "", none))
    ∧ ((∀ l ∈ db.account_locks, l.UserID ≠ userID)
      → (SecurityRepository.IsAccountLocked userID db).1 = (false, zeroTime, "", none))
    ∧ ((∀ l ∈ db.account_locks, l.UserID = userID → l.UnlockAt ≤ db.now)
      → (SecurityRepository.IsAccountLocked userID db).1 = (false, zeroTime, "", none))
    ∧ (SecurityRepository.UnlockAccount userID db).1 = none
    ∧ ∀ later : Int,
        (SecurityRepository.exec (SecurityRepository.UnlockAccount userID db).2).1 = none
        → (SecurityRepository.IsAccountLocked userID
            { SecurityRepository.UnlockAccount userID db |>.2 with now := later }).1
          = (false, zeroTime, "", none) := by
  have heq := SecurityRepository.IsAccountLocked_eq userID db hexec
  have hnil : ∀ (rows : List AccountLock) (now : Int),
      (∀ l ∈ rows, ¬ (l.UserID = userID ∧ now < l.UnlockAt))
      → rows.filter (fun l => l.UserID == userID && decide (now < l.UnlockAt)) = [] := by
    intro rows now h
    rw [List.filter_eq_nil_iff]
    intro l hl
    simpa using h l hl
  have hfalse : ∀ (d : SecurityRepository.DB), (SecurityRepository.exec d).1 = none
      → (∀ l ∈ d.account_locks, ¬ (l.UserID = userID ∧ d.now < l.UnlockAt))
      → (SecurityRepository.IsAccountLocked userID d).1 = (false, zeroTime, "", none) := by
    intro d hd h
    rw [SecurityRepository.IsAccountLocked_eq userID d hd, hnil _ _ h]
  have htrue : (SecurityRepository.IsAccountLocked userID db).1.1 = true
      → ∃ l ∈ db.account_locks, l.UserID = userID ∧ db.now < l.UnlockAt
        ∧ (SecurityRepository.IsAccountLocked userID db).1
            = (true, l.UnlockAt, l.Reason, none) := by
    intro h
    rw [heq] at h ⊢
    cases hf : db.account_locks.filter
        (fun l => l.UserID == userID && decide (db.now < l.UnlockAt)) with
    | nil => rw [hf] at h; simp at h
    | cons l rest =>
      have hl : l ∈ db.account_locks.filter
          (fun l => l.UserID == userID && decide (db.now < l.UnlockAt)) := by
        rw [hf]; exact List.mem_cons_self _ _
      rw [List.mem_filter] at hl
      obtain ⟨hm, hp⟩ := hl
      simp only [Bool.and_eq_true, beq_iff_eq, decide_eq_true_eq] at hp
      exact ⟨l, hm, hp.1, hp.2, rfl⟩
  refine ⟨⟨?_, ?_⟩, htrue, ?_, ?_, ?_, ?_, ?_⟩
  · intro h
    obtain ⟨l, hm, hu, ht, _⟩ := htrue h
    exact ⟨l, hm, hu, ht⟩
  · rintro ⟨l, hm, hu, ht⟩
    rw [heq]
    cases hf : db.account_locks.filter
        (fun l => l.UserID == userID && decide (db.now < l.UnlockAt)) with
    | nil =>
      rw [List.filter_eq_nil_iff] at hf
      have := hf l hm
      simp [hu, ht] at this
    | cons l2 rest => rfl
  · intro h
    rw [heq] at h ⊢
    cases hf : db.account_locks.filter
        (fun l => l.UserID == userID && decide (db.now < l.UnlockAt)) with
    | nil => rfl
    | cons l rest => rw [hf] at h; simp at h
  · intro h
    exact hfalse db hexec (fun l hl hc => h l hl hc.1)
  · intro h
    exact hfalse db hexec (fun l hl hc => absurd (h l hl hc.1) (not_le.mpr hc.2))
  · exact (SecurityRepository.UnlockAccount_account_locks userID db hexec).1
  · intro later hlater
    apply hfalse
    · rw [← hlater]
      exact SecurityRepository.exec_fst_of_faults _ _ rfl
    · intro l hl hc
      have h2 : l ∈ (SecurityRepository.UnlockAccount userID db).2.account_locks := hl
      rw [(SecurityRepository.UnlockAccount_account_locks userID db hexec).2.1,
        List.mem_filter] at h2
      simp [hc.1] at h2

/-- C13, amended: when its query is executed, IsAccountLocked reports the user
locked exactly when account_locks has a row of that user whose unlock-at is
strictly later than the current time of the server, and then it returns the
unlock-at and the reason of such a row and no error; it reports the user
unlocked, with the zero time, the empty reason and no error, when no row of the
user exists, when the unlock-at of every row of the user has passed, and, at
every later time, after UnlockAccount for that user has been executed.  When
the query fails, IsAccountLocked returns false, the zero time, the empty reason
and the error failed to check if account is locked, whatever the rows; and
when the DELETE of UnlockAccount fails, UnlockAccount returns its error and the
rows stay. -/
theorem IsAccountLocked_paths (userID : String) (db : SecurityRepository.DB) :
    ((SecurityRepository.exec db).1 = none
      → (
        ((SecurityRepository.IsAccountLocked userID db).1.1 = true
          ↔ ∃ l ∈ db.account_locks, l.UserID = userID ∧ db.now < l.UnlockAt)
        ∧ ((SecurityRepository.IsAccountLocked userID db).1.1 = true
          → ∃ l ∈ db.account_locks, l.UserID = userID ∧ db.now < l.UnlockAt
            ∧ (SecurityRepository.IsAccountLocked userID db).1
                = (true, l.UnlockAt, l.Reason, none))
        ∧ ((SecurityRepository.IsAccountLocked userID db).1.1 = false
          → (SecurityRepository.IsAccountLocked userID db).1 = (false, zeroTime, "", none))
        ∧ ((∀ l ∈ db.account_locks, l.UserID ≠ userID)
          → (SecurityRepository.IsAccountLocked userID db).1 = (false, zeroTime, "", none))
        ∧ ((∀ l ∈ db.account_locks, l.UserID = userID → l.UnlockAt ≤ db.now)
          → (SecurityRepository.IsAccountLocked userID db).1 = (false, zeroTime, "", none))
        ∧ (SecurityRepository.UnlockAccount userID db).1 = none
        ∧ ∀ later : Int,
            (SecurityRepository.exec (SecurityRepository.UnlockAccount userID db).2).1 = none
            → (SecurityRepository.IsAccountLocked userID
                { SecurityRepository.UnlockAccount userID db |>.2 with now := later }).1
              = (false, zeroTime, "", none)))
    ∧ (∀ e, (SecurityRepository.exec db).1 = some e
      → (SecurityRepository.IsAccountLocked userID db).1
          = (false, zeroTime, "",
              some (.text ("failed to check if account is locked: " ++ e)))
        ∧ (SecurityRepository.UnlockAccount userID db).1
          = some (.text ("failed to unlock account: " ++ e))
        ∧ (SecurityRepository.UnlockAccount userID db).2.account_locks
          = db.account_locks) := by
  refine ⟨IsAccountLocked_executed userID db, ?_⟩
  intro e he
  unfold SecurityRepository.IsAccountLocked SecurityRepository.UnlockAccount
  simp only [he, SecurityRepository.exec_account_locks]
  exact ⟨trivial, trivial, trivial⟩

theorem IsAccountLocked_paths_witness :
    ((SecurityRepository.IsAccountLocked "user123" Demo.lockedDatabase).1.1 = true
      ↔ ∃ l ∈ Demo.lockedDatabase.account_locks,
          l.UserID = "user123" ∧ Demo.lockedDatabase.now < l.UnlockAt)
    ∧ ((SecurityRepository.IsAccountLocked "user123" Demo.lockedDatabase).1.1 = true
      → ∃ l ∈ Demo.lockedDatabase.account_locks,
          l.UserID = "user123" ∧ Demo.lockedDatabase.now < l.UnlockAt
        ∧ (SecurityRepository.IsAccountLocked "user123" Demo.lockedDatabase).1
            = (true, l.UnlockAt, l.Reason, none))
    ∧ ((SecurityRepository.IsAccountLocked "user123" Demo.lockedDatabase).1.1 = false
      → (SecurityRepository.IsAccountLocked "user123" Demo.lockedDatabase).1
          = (false, zeroTime, "", none))
    ∧ ((∀ l ∈ Demo.lockedDatabase.account_locks, l.UserID ≠ "user123")
      → (SecurityRepository.IsAccountLocked "user123" Demo.lockedDatabase).1
          = (false, zeroTime, "", none))
    ∧ ((∀ l ∈ Demo.lockedDatabase.account_locks,
          l.UserID = "user123" → l.UnlockAt ≤ Demo.lockedDatabase.now)
      → (SecurityRepository.IsAccountLocked "user123" Demo.lockedDatabase).1
          = (false, zeroTime, "", none))
    ∧ (SecurityRepository.UnlockAccount "user123" Demo.lockedDatabase).1 = none
    ∧ ∀ later : Int,
        (SecurityRepository.exec
          (SecurityRepository.UnlockAccount "user123" Demo.lockedDatabase).2).1 = none
        → (SecurityRepository.IsAccountLocked "user123"
            { SecurityRepository.UnlockAccount "user123" Demo.lockedDatabase |>.2
                with now := later }).1
          = (false, zeroTime, "", none) :=
  (IsAccountLocked_paths "user123" Demo.lockedDatabase).1 (by decide)

/-- C13, counterexample: the account of the user is locked, a row with an
unlock-at thirty minutes ahead exists, and the query of IsAccountLocked fails:
IsAccountLocked reports the user unlocked, and returns an error. -/
theorem IsAccountLocked_query_fails :
    (∃ l ∈ Demo.lockedDatabase.account_locks,
        l.UserID = "user123" ∧ Demo.lockedDatabase.now < l.UnlockAt)
    ∧ (SecurityRepository.IsAccountLocked "user123"
        { Demo.lockedDatabase with faults := [some "connection refused"] }).1
      = (false, zeroTime, "",
          some (.text "failed to check if account is locked: connection refused")) := by
  decide

namespace SecurityRepository

theorem relock_UserID (userID : String) (unlockAt : Int) (reason : String) (now : Int)
    (l : AccountLock) : (relock userID unlockAt reason now l).UserID = l.UserID := by
  unfold relock; split <;> rfl

/-- The three outcomes of LockAccount on the table of locks: nothing written
and an error returned, every row of the user rewritten, or one row appended. -/
theorem LockAccount_account_locks (L : Libs) (userID : String) (unlockAt : Int)
    (reason : String) (db : DB) :
    ((LockAccount L userID unlockAt reason db).1 ≠ none
      ∧ (LockAccount L userID unlockAt reason db).2.account_locks = db.account_locks)
    ∨ ((LockAccount L userID unlockAt reason db).1 = none
      ∧ db.account_locks.any (fun l => l.UserID == userID) = true
      ∧ (LockAccount L userID unlockAt reason db).2.account_locks
          = db.account_locks.map (relock userID unlockAt reason db.now))
    ∨ ((LockAccount L userID unlockAt reason db).1 = none
      ∧ db.account_locks.any (fun l => l.UserID == userID) = false
      ∧ ∃ id, (LockAccount L userID unlockAt reason db).2.account_locks
          = db.account_locks ++
            [{ ID := id, UserID := userID, LockedAt := db.now, UnlockAt := unlockAt,
               Reason := reason, CreatedBy := "system" }]) := by
  unfold LockAccount lockCheck
  cases h1 : (exec db).1 with
  | some e => left; simp [h1, exec_account_locks]
  | none =>
    simp only [h1]
    cases hf : (exec db).2.account_locks.any (fun l => l.UserID == userID) with
    | true =>
      have hf2 : db.account_locks.any (fun l => l.UserID == userID) = true := by
        rw [← exec_account_locks db]; exact hf
      unfold lockWrite
      simp only [if_true]
      cases h2 : (exec (exec db).2).1 with
      | some e => left; simp [h2, exec_account_locks]
      | none =>
        right; left
        simp only [h2, exec_account_locks, exec_now, hf2, true_and]
        rfl
    | false =>
      have hf2 : db.account_locks.any (fun l => l.UserID == userID) = false := by
        rw [← exec_account_locks db]; exact hf
      have hu1 : (newUUID L (exec db).2).2.account_locks = db.account_locks :=
        exec_account_locks db
      have hu2 : (newUUID L (exec db).2).2.now = db.now := exec_now db
      unfold lockWrite
      simp only [Bool.false_eq_true, if_false]
      cases h2 : (exec (newUUID L (exec db).2).2).1 with
      | some e => left; simp [h2, exec_account_locks, hu1]
      | none =>
        right; right
        have hany : (exec (newUUID L (exec db).2).2).2.account_locks.any
            (fun l => l.UserID == userID) = false := by
          rw [exec_account_locks, hu1]; exact hf2
        simp only [h2, hany, Bool.and_false, Bool.false_eq_true, if_false, hf2, true_and,
          exec_account_locks, exec_now, hu1, hu2]
        exact ⟨_, rfl⟩

theorem filter_relock (userID other : String) (unlockAt : Int) (reason : String) (now : Int)
    (rows : List AccountLock) :
    (rows.map (relock userID unlockAt reason now)).filter (fun l => l.UserID == other)
      = (rows.filter (fun l => l.UserID == other)).map (relock userID unlockAt reason now) := by
  induction rows with
  | nil => rfl
  | cons l rest ih =>
    simp only [List.map_cons, List.filter_cons, relock_UserID]
    split
    · simp [ih]
    · exact ih

theorem LockAccount_oneLockPerUser (L : Libs) (userID : String) (unlockAt : Int)
    (reason : String) (db : DB) (h : oneLockPerUser db) :
    oneLockPerUser (LockAccount L userID unlockAt reason db).2 := by
  intro other
  rcases LockAccount_account_locks L userID unlockAt reason db with
    ⟨_, he⟩ | ⟨_, _, he⟩ | ⟨_, hno, id, he⟩
  · rw [he]; exact h other
  · rw [he, filter_relock, List.length_map]; exact h other
  · rw [he, List.filter_append]
    by_cases ho : userID = other
    · subst ho
      have : db.account_locks.filter (fun l => l.UserID == userID) = [] := by
        rw [List.filter_eq_nil_iff]
        intro l hl
        rw [List.any_eq_false] at hno
        exact hno l hl
      simp [this, List.filter_cons]
    · have := h other
      simp [List.filter_cons, ho]
      exact this

theorem UnlockAccount_oneLockPerUser (userID : String) (db : DB) (h : oneLockPerUser db) :
    oneLockPerUser (UnlockAccount userID db).2 := by
  intro other
  have hsub : ((UnlockAccount userID db).2.account_locks).Sublist db.account_locks := by
    unfold UnlockAccount
    cases h1 : (exec db).1 with
    | some e => simp [h1, exec_account_locks]
    | none =>
      simp only [h1, exec_account_locks]
      exact List.filter_sublist _
  exact le_trans (List.Sublist.length_le (List.Sublist.filter _ hsub)) (h other)

theorem applyOps_oneLockPerUser (L : Libs) (ops : List LockOp) :
    ∀ db, oneLockPerUser db → oneLockPerUser (applyOps L ops db) := by
  induction ops with
  | nil => intro db h; exact h
  | cons op ops ih =>
    intro db h
    apply ih
    cases op with
    | lock u t r => exact LockAccount_oneLockPerUser L u t r db h
    | unlock u => exact UnlockAccount_oneLockPerUser u db h

theorem LockAccount_update (L : Libs) (userID : String) (unlockAt : Int) (reason : String)
    (db : DB) (hrow : ∃ l ∈ db.account_locks, l.UserID = userID)
    (hok : (LockAccount L userID unlockAt reason db).1 = none) :
    (LockAccount L userID unlockAt reason db).2.account_locks
      = db.account_locks.map (relock userID unlockAt reason db.now) := by
  rcases LockAccount_account_locks L userID unlockAt reason db with
    ⟨hne, _⟩ | ⟨_, _, he⟩ | ⟨_, hno, _⟩
  · exact absurd hok hne
  · exact he
  · obtain ⟨l, hl, hu⟩ := hrow
    rw [List.any_eq_false] at hno
    have := hno l hl
    simp [hu] at this

theorem LockAccount_row (L : Libs) (userID : String) (unlockAt : Int) (reason : String)
    (db : DB) (hok : (LockAccount L userID unlockAt reason db).1 = none) :
    ∃ l ∈ (LockAccount L userID unlockAt reason db).2.account_locks, l.UserID = userID := by
  rcases LockAccount_account_locks L userID unlockAt reason db with
    ⟨hne, _⟩ | ⟨_, hany, he⟩ | ⟨_, _, id, he⟩
  · exact absurd hok hne
  · rw [List.any_eq_true] at hany
    obtain ⟨l, hl, hu⟩ := hany
    refine ⟨relock userID unlockAt reason db.now l, ?_, ?_⟩
    · rw [he]; exact List.mem_map_of_mem _ hl
    · rw [relock_UserID]; simpa using hu
  · rw [he]
    exact ⟨_, List.mem_append_right _ (List.mem_singleton_self _), rfl⟩

end SecurityRepository

/-- What LockAccount has done when it returns nil: for a user who has a row it
has rewritten the rows of that user in place and inserted nothing; and after
two successive calls for a user that returned nil the table has exactly one
row of that user, with the unlock-at and the reason of the second call. -/
theorem LockAccount_returned_nil (L : Libs) :
    (∀ (ops : List SecurityRepository.LockOp) (db : SecurityRepository.DB),
      SecurityRepository.oneLockPerUser db
      → SecurityRepository.oneLockPerUser (SecurityRepository.applyOps L ops db))
    ∧ (∀ (userID : String) (unlockAt : Int) (reason : String) (db : SecurityRepository.DB),
      (∃ l ∈ db.account_locks, l.UserID = userID)
      → (SecurityRepository.LockAccount L userID unlockAt reason db).1 = none
      → (SecurityRepository.LockAccount L userID unlockAt reason db).2.account_locks
          = db.account_locks.map (SecurityRepository.relock userID unlockAt reason db.now)
        ∧ (SecurityRepository.LockAccount L userID unlockAt reason db).2.account_locks.length
          = db.account_locks.length)
    ∧ (∀ (userID : String) (t1 : Int) (r1 : String) (t2 : Int) (r2 : String)
        (db : SecurityRepository.DB),
      SecurityRepository.oneLockPerUser db
      → (SecurityRepository.LockAccount L userID t1 r1 db).1 = none
      → (SecurityRepository.LockAccount L userID t2 r2
          (SecurityRepository.LockAccount L userID t1 r1 db).2).1 = none
      → ∃ l, (SecurityRepository.LockAccount L userID t2 r2
            (SecurityRepository.LockAccount L userID t1 r1 db).2).2.account_locks.filter
            (fun l => l.UserID == userID) = [l]
          ∧ l.UnlockAt = t2 ∧ l.Reason = r2) := by
  refine ⟨SecurityRepository.applyOps_oneLockPerUser L, ?_, ?_⟩
  · intro userID unlockAt reason db hrow hok
    have he := SecurityRepository.LockAccount_update L userID unlockAt reason db hrow hok
    exact ⟨he, by rw [he, List.length_map]⟩
  · intro userID t1 r1 t2 r2 db h hok1 hok2
    have h1 := SecurityRepository.LockAccount_oneLockPerUser L userID t1 r1 db h
    obtain ⟨l0, hl0, hu0⟩ := SecurityRepository.LockAccount_row L userID t1 r1 db hok1
    have he := SecurityRepository.LockAccount_update L userID t2 r2 _ ⟨l0, hl0, hu0⟩ hok2
    rw [he, SecurityRepository.filter_relock]
    have hlen := h1 userID
    have hmem : l0 ∈ (SecurityRepository.LockAccount L userID t1 r1 db).2.account_locks.filter
        (fun l => l.UserID == userID) := by
      rw [List.mem_filter]; exact ⟨hl0, by simpa using hu0⟩
    cases hf : (SecurityRepository.LockAccount L userID t1 r1 db).2.account_locks.filter
        (fun l => l.UserID == userID) with
    | nil => rw [hf] at hmem; simp at hmem
    | cons a rest =>
      rw [hf] at hlen hmem
      have hrest : rest = [] := by
        cases rest with
        | nil => rfl
        | cons b rest2 => simp at hlen
      subst hrest
      have ha : a.UserID = userID := by
        have : l0 = a := by simpa using hmem
        rw [← this]; exact hu0
      refine ⟨_, rfl, ?_, ?_⟩ <;> simp [SecurityRepository.relock, ha]

namespace SecurityRepository

/-- LockAccount returns nil exactly when its two statements are executed. -/
theorem LockAccount_nil_iff (L : Libs) (userID : String) (unlockAt : Int)
    (reason : String) (db : DB) :
    (LockAccount L userID unlockAt reason db).1 = none
      ↔ (exec db).1 = none ∧ (exec (exec db).2).1 = none := by
  unfold LockAccount lockCheck
  cases h1 : (exec db).1 with
  | some e => simp [h1]
  | none =>
    simp only [h1, true_and]
    cases hf : (exec db).2.account_locks.any (fun l => l.UserID == userID) with
    | true =>
      unfold lockWrite
      simp only [if_true]
      cases h2 : (exec (exec db).2).1 with
      | some e => simp [h2]
      | none => simp [h2]
    | false =>
      have hs : (exec (newUUID L (exec db).2).2).1 = (exec (exec db).2).1 :=
        exec_fst_of_faults _ _ rfl
      have hu1 : (newUUID L (exec db).2).2.account_locks = (exec db).2.account_locks := rfl
      unfold lockWrite
      simp only [Bool.false_eq_true, if_false]
      rw [← hs]
      cases h2 : (exec (newUUID L (exec db).2).2).1 with
      | some e => simp [h2]
      | none =>
        have hany : (exec (newUUID L (exec db).2).2).2.account_locks.any
            (fun l => l.UserID == userID) = false := by
          rw [exec_account_locks, hu1]; exact hf
        simp [h2, hany]

/-- The rows LockAccount inserts: none for a user who has a row, one for a user
who has none, when its statements are executed. -/
theorem LockAccount_insert (L : Libs) (userID : String) (unlockAt : Int) (reason : String)
    (db : DB) (hnone : ∀ l ∈ db.account_locks, l.UserID ≠ userID)
    (hok : (LockAccount L userID unlockAt reason db).1 = none) :
    ∃ id, (LockAccount L userID unlockAt reason db).2.account_locks
      = db.account_locks ++
        [{ ID := id, UserID := userID, LockedAt := db.now, UnlockAt := unlockAt,
           Reason := reason, CreatedBy := "system" }] := by
  rcases LockAccount_account_locks L userID unlockAt reason db with
    ⟨hne, _⟩ | ⟨_, hany, _⟩ | ⟨_, _, he⟩
  · exact absurd hok hne
  · rw [List.any_eq_true] at hany
    obtain ⟨l, hl, hu⟩ := hany
    exact absurd (by simpa using hu) (hnone l hl)
  · exact he

end SecurityRepository

/-- C14, amended: starting from a table with at most one row per user, every
sequence of LockAccount and UnlockAccount calls leaves at most one row per
user, whatever the statements return.  LockAccount returns nil exactly when its
two statements are executed; then, for a user who has a row, it has rewritten
the rows of that user in place (new unlock-at and reason, locked-at set to the
time of the server) and inserted nothing, and for a user who has none it has
inserted one row; so two successive LockAccount calls for a user whose
statements are executed leave exactly one row of that user, with the unlock-at
and the reason of the second.  When a statement fails, LockAccount returns an
error and the rows are as they were. -/
theorem LockAccount_upsert (L : Libs) :
    (∀ (ops : List SecurityRepository.LockOp) (db : SecurityRepository.DB),
      SecurityRepository.oneLockPerUser db
      → SecurityRepository.oneLockPerUser (SecurityRepository.applyOps L ops db))
    ∧ (∀ (userID : String) (unlockAt : Int) (reason : String) (db : SecurityRepository.DB),
      ((SecurityRepository.LockAccount L userID unlockAt reason db).1 = none
        ↔ (SecurityRepository.exec db).1 = none
          ∧ (SecurityRepository.exec (SecurityRepository.exec db).2).1 = none)
      ∧ ((SecurityRepository.LockAccount L userID unlockAt reason db).1 ≠ none
        → (SecurityRepository.LockAccount L userID unlockAt reason db).2.account_locks
            = db.account_locks)
      ∧ ((SecurityRepository.exec db).1 = none
        → (SecurityRepository.exec (SecurityRepository.exec db).2).1 = none
        → ((∃ l ∈ db.account_locks, l.UserID = userID)
            → (SecurityRepository.LockAccount L userID unlockAt reason db).2.account_locks
                = db.account_locks.map
                    (SecurityRepository.relock userID unlockAt reason db.now)
              ∧ (SecurityRepository.LockAccount L userID unlockAt reason
                    db).2.account_locks.length
                = db.account_locks.length)
          ∧ ((∀ l ∈ db.account_locks, l.UserID ≠ userID)
            → ∃ id, (SecurityRepository.LockAccount L userID unlockAt reason
                  db).2.account_locks
                = db.account_locks ++
                  [{ ID := id, UserID := userID, LockedAt := db.now, UnlockAt := unlockAt,
                     Reason := reason, CreatedBy := "system" }])))
    ∧ (∀ (userID : String) (t1 : Int) (r1 : String) (t2 : Int) (r2 : String)
        (db : SecurityRepository.DB),
      SecurityRepository.oneLockPerUser db
      → (SecurityRepository.exec db).1 = none
      → (SecurityRepository.exec (SecurityRepository.exec db).2).1 = none
      → (SecurityRepository.exec (SecurityRepository.LockAccount L userID t1 r1 db).2).1 = none
      → (SecurityRepository.exec (SecurityRepository.exec
            (SecurityRepository.LockAccount L userID t1 r1 db).2).2).1 = none
      → (SecurityRepository.LockAccount L userID t1 r1 db).1 = none
        ∧ (SecurityRepository.LockAccount L userID t2 r2
            (SecurityRepository.LockAccount L userID t1 r1 db).2).1 = none
        ∧ ∃ l, (SecurityRepository.LockAccount L userID t2 r2
              (SecurityRepository.LockAccount L userID t1 r1 db).2).2.account_locks.filter
              (fun l => l.UserID == userID) = [l]
            ∧ l.UnlockAt = t2 ∧ l.Reason = r2) := by
  refine ⟨SecurityRepository.applyOps_oneLockPerUser L, ?_, ?_⟩
  · intro userID unlockAt reason db
    refine ⟨SecurityRepository.LockAccount_nil_iff L userID unlockAt reason db, ?_, ?_⟩
    · intro hne
      rcases SecurityRepository.LockAccount_account_locks L userID unlockAt reason db with
        ⟨_, he⟩ | ⟨hok, _, _⟩ | ⟨hok, _, _⟩
      · exact he
      · exact absurd hok hne
      · exact absurd hok hne
    · intro h1 h2
      have hok := (SecurityRepository.LockAccount_nil_iff L userID unlockAt reason db).2 ⟨h1, h2⟩
      exact ⟨fun hrow => (LockAccount_returned_nil L).2.1 userID unlockAt reason db hrow hok,
        fun hnone => SecurityRepository.LockAccount_insert L userID unlockAt reason db hnone hok⟩
  · intro userID t1 r1 t2 r2 db hone h1 h2 h3 h4
    have hok1 := (SecurityRepository.LockAccount_nil_iff L userID t1 r1 db).2 ⟨h1, h2⟩
    have hok2 := (SecurityRepository.LockAccount_nil_iff L userID t2 r2 _).2 ⟨h3, h4⟩
    exact ⟨hok1, hok2, (LockAccount_returned_nil L).2.2 userID t1 r1 t2 r2 db hone hok1 hok2⟩

theorem LockAccount_upsert_witness :
    (SecurityRepository.LockAccount Demo.libs "user123" 1700001800000000000 "first"
        { now := 1700000000000000000 }).1 = none
    ∧ (SecurityRepository.LockAccount Demo.libs "user123" 1700003600000000000 "second"
        (SecurityRepository.LockAccount Demo.libs "user123" 1700001800000000000 "first"
          { now := 1700000000000000000 }).2).1 = none
    ∧ ∃ l, (SecurityRepository.LockAccount Demo.libs "user123" 1700003600000000000 "second"
          (SecurityRepository.LockAccount Demo.libs "user123" 1700001800000000000 "first"
            { now := 1700000000000000000 }).2).2.account_locks.filter
          (fun l => l.UserID == "user123") = [l]
        ∧ l.UnlockAt = 1700003600000000000 ∧ l.Reason = "second" :=
  (LockAccount_upsert Demo.libs).2.2 "user123" 1700001800000000000 "first"
    1700003600000000000 "second" { now := 1700000000000000000 } (fun _ => Nat.zero_le _)
    (by decide) (by decide) (by decide) (by decide)

/-- C14, counterexample: two successive LockAccount calls for one user, on an
empty table.  The first inserts a row; the second finds it, and its UPDATE
fails: it returns the error, and the one row of the user still carries the
unlock-at and the reason of the first call. -/
theorem LockAccount_update_fails :
    (SecurityRepository.LockAccount Demo.libs "user123" 1700001800000000000 "first"
        { now := 1700000000000000000,
          faults := [none, none, none, some "connection reset"] }).1 = none
    ∧ SecurityRepository.LockAccount Demo.libs "user123" 1700003600000000000 "second"
        (SecurityRepository.LockAccount Demo.libs "user123" 1700001800000000000 "first"
          { now := 1700000000000000000,
            faults := [none, none, none, some "connection reset"] }).2
      = (some (.text "failed to update account lock: connection reset"),
          { now := 1700000000000000000, uuids := 1,
            account_locks :=
              [{ ID := "00000000-0000-4000-8000-000000000000", UserID := "user123",
                 LockedAt := 1700000000000000000, UnlockAt := 1700001800000000000,
                 Reason := "first", CreatedBy := "system" }] }) := by
  decide

namespace SecurityRepository

/-- Run alone, the two statements of a call are LockAccount. -/
theorem interleave_alone (L : Libs) (userID : String) (unlockAt : Int) (reason : String)
    (other : LockCall) (db : DB) :
    interleave L [false, false] (.start userID unlockAt reason, other, db)
      = (.done (LockAccount L userID unlockAt reason db).1, other,
          (LockAccount L userID unlockAt reason db).2) := by
  simp only [interleave, LockCall.step, LockAccount]
  cases (lockCheck userID db).1 <;> rfl

end SecurityRepository

/-- C15: two calls of LockAccount for one user run on an empty table of locks,
and both make their existence check before either writes.  When the table has
no uniqueness constraint on user_id, both calls return nil and the table ends
with two rows for the user.  When it has one, the write of the second call is
refused: that call returns an error and the one row keeps the unlock-at of the
first call.  Run one after the other, the same two calls leave one row, with
the unlock-at of the second. -/
theorem LockAccount_interleaved_duplicates :
    SecurityRepository.interleave Demo.libs [false, true, false, true]
        (.start "user123" 1700001800000000000 "first",
          .start "user123" 1700001800000000500 "second", { now := 1700000000000000000 })
      = (.done none, .done none,
          { now := 1700000000000000000, uuids := 2,
            account_locks :=
              [{ ID := "00000000-0000-4000-8000-000000000000", UserID := "user123",
                 LockedAt := 1700000000000000000, UnlockAt := 1700001800000000000,
                 Reason := "first", CreatedBy := "system" },
               { ID := "00000000-0000-4000-8000-000000000001", UserID := "user123",
                 LockedAt := 1700000000000000000, UnlockAt := 1700001800000000500,
                 Reason := "second", CreatedBy := "system" }] })
    ∧ SecurityRepository.interleave Demo.libs [false, true, false, true]
        (.start "user123" 1700001800000000000 "first",
          .start "user123" 1700001800000000500 "second",
          { now := 1700000000000000000, uniqueLockUser := true })
      = (.done none,
          .done (some (.text
            "failed to lock account: UNIQUE constraint failed: account_locks.user_id")),
          { now := 1700000000000000000, uuids := 2, uniqueLockUser := true,
            account_locks :=
              [{ ID := "00000000-0000-4000-8000-000000000000", UserID := "user123",
                 LockedAt := 1700000000000000000, UnlockAt := 1700001800000000000,
                 Reason := "first", CreatedBy := "system" }] })
    ∧ SecurityRepository.interleave Demo.libs [false, false, true, true]
        (.start "user123" 1700001800000000000 "first",
          .start "user123" 1700001800000000500 "second", { now := 1700000000000000000 })
      = (.done none, .done none,
          { now := 1700000000000000000, uuids := 1,
            account_locks :=
              [{ ID := "00000000-0000-4000-8000-000000000000", UserID := "user123",
                 LockedAt := 1700000000000000000, UnlockAt := 1700001800000000500,
                 Reason := "second", CreatedBy := "system" }] }) := by
  decide

/-- The calls of Login are appended to the trace, and each is one of its four. -/
theorem Login_trace {σ : Type} (P : Platform) (s : PasetoService σ) (req : LoginRequest)
    (w : Sys σ) :
    ∃ cs, (Login P s req w).2.trace = w.trace ++ cs ∧ ∀ c ∈ cs, c.ofLogin = true := by
  have key : ∀ A cs : List Call, (∀ c ∈ cs, c.ofLogin = true)
      → ∃ cs2, A ++ cs = A ++ cs2 ∧ ∀ c ∈ cs2, c.ofLogin = true :=
    fun _ cs h => ⟨cs, rfl, h⟩
  unfold Login
  simp only [Sys.call, generateToken_snd]
  cases (s.cacheSvc.CheckRateLimit _ _ _ w.st).1 with
  | error e =>
    simp only [List.append_assoc, List.cons_append, List.nil_append]
    exact key _ _ (by simp [Call.ofLogin])
  | ok allowed =>
    cases allowed with
    | false =>
      simp only [List.append_assoc, List.cons_append, List.nil_append]
      exact key _ _ (by simp [Call.ofLogin])
    | true =>
      simp only [Bool.not_true, Bool.false_eq_true, if_false]
      cases (s.userSvc.GetUser req.Email _).1 with
      | error e =>
        simp only [List.append_assoc, List.cons_append, List.nil_append]
        exact key _ _ (by simp [Call.ofLogin])
      | ok user =>
        simp only []
        cases (generateToken P s user.ID "access" s.config.AccessTokenTTL _).1 with
        | error e =>
          simp only [List.append_assoc, List.cons_append, List.nil_append]
          exact key _ _ (by simp [Call.ofLogin])
        | ok accessToken =>
          simp only []
          cases (generateToken P s user.ID "refresh" s.config.RefreshTokenTTL _).1 with
          | error e =>
            simp only [List.append_assoc, List.cons_append, List.nil_append]
            exact key _ _ (by simp [Call.ofLogin])
          | ok refreshToken =>
            simp only []
            cases (s.cacheSvc.StoreSession refreshToken user.ID s.config.RefreshTokenTTL _).1 with
            | some e =>
              simp only [List.append_assoc, List.cons_append, List.nil_append]
              exact key _ _ (by simp [Call.ofLogin])
            | none =>
              simp only [List.append_assoc, List.cons_append, List.nil_append]
              exact key _ _ (by simp [Call.ofLogin])

/-- Login does not consult the account lock.  Whatever the state of the stores,
the only calls Login makes are the rate-limit check of the cache, the user
lookup, the signing of the two tokens and the storing of the session: it makes
no IsAccountLocked call. -/
theorem Login_never_checks_lock {σ : Type} (P : Platform) (s : PasetoService σ)
    (req : LoginRequest) (w : Sys σ) :
    ∃ cs, (Login P s req w).2.trace = w.trace ++ cs
      ∧ (∀ c ∈ cs, c.ofLogin = true)
      ∧ ∀ userID, Call.IsAccountLocked userID ∉ cs := by
  obtain ⟨cs, h1, h2⟩ := Login_trace P s req w
  refine ⟨cs, h1, h2, ?_⟩
  intro userID hmem
  have := h2 _ hmem
  simp [Call.ofLogin] at this

/-- C11: five failed logins of the user, recorded by the security service, have
locked the account: IsAccountLocked reports the lock, with an unlock-at thirty
minutes ahead.  Login for that user is not rejected: it returns the user and
two tokens. -/
theorem Login_while_locked :
    Demo.user.ID = "user123"
    ∧ (SecurityRepository.IsAccountLocked "user123" Demo.lockedDatabase).1
        = (true, 1700001800000000020, "Too many failed login attempts (5)", none)
    ∧ Demo.lockedDatabase.now = 1700000000000000000
    ∧ (Login (Demo.platform Demo.clock) Demo.service ⟨"test@example.com", "secret"⟩
        { st := ({} : Redis) }).1
      = .ok { User := Demo.user, AccessToken := Demo.accessToken,
              RefreshToken := Demo.loginRefreshToken } := by
  decide

/-! ## Registration, token ids and email verification -/

/-- C22: Register returns the user that CreateUser produced, with no error,
whenever CreateUser succeeds, whatever the user lookup, the signing of the
verification token and the two email calls return; when CreateUser fails it
returns the error of CreateUser after that one call; so Register fails exactly
when CreateUser fails. -/
theorem Register_spec {σ : Type} (P : Platform) (s : PasetoService σ)
    (req : CreateUserRequest) (w : Sys σ) :
    (∀ user, (s.userSvc.CreateUser req w.st).1 = .ok user
      → (Register P s req w).1 = .ok user)
    ∧ (∀ err, (s.userSvc.CreateUser req w.st).1 = .error err
      → (Register P s req w).1 = .error err
        ∧ (Register P s req w).2.trace = w.trace ++ [Call.CreateUser req]
        ∧ (Register P s req w).2.st = (s.userSvc.CreateUser req w.st).2)
    ∧ ((∃ err, (Register P s req w).1 = .error err)
      ↔ ∃ err, (s.userSvc.CreateUser req w.st).1 = .error err) := by
  unfold Register
  simp only [Sys.call]
  cases h : (s.userSvc.CreateUser req w.st).1 with
  | error e => simp
  | ok user => simp

/-- C23: generateToken signs claims whose id is the decimal text of the clock
reading that generateUUID takes, the second reading of the call.  Two
issuances whose readings are equal carry the same id: under a clock that
stands still, the access token and the refresh token that Login issues have
the id 1700000000000000000 both. -/
theorem generateToken_id_repeats :
    (∀ {σ : Type} (P : Platform) (s : PasetoService σ) (subject1 type1 : String)
        (expiration1 : Int) (w1 : Sys σ) (subject2 type2 : String) (expiration2 : Int)
        (w2 : Sys σ),
      ∃ c1 c2,
        (generateToken P s subject1 type1 expiration1 w1).2.trace
          = w1.trace ++ [Call.Sign c1]
        ∧ (generateToken P s subject2 type2 expiration2 w2).2.trace
          = w2.trace ++ [Call.Sign c2]
        ∧ c1.ID = toString (P.Now (w1.tick + 1))
        ∧ c2.ID = toString (P.Now (w2.tick + 1))
        ∧ (P.Now (w1.tick + 1) = P.Now (w2.tick + 1) → c1.ID = c2.ID))
    ∧ (Login (Demo.platform Demo.frozen) Demo.service ⟨"test@example.com", "secret"⟩
        { st := ({} : Redis) }).2.trace.filterMap
          (fun c => match c with
            | .Sign claims => some (claims.Typ, claims.ID)
            | _ => none)
        = [("access", "1700000000000000000"), ("refresh", "1700000000000000000")] := by
  constructor
  · intro σ P s subject1 type1 expiration1 w1 subject2 type2 expiration2 w2
    refine ⟨_, _, by rw [generateToken_snd], by rw [generateToken_snd], rfl, rfl, ?_⟩
    intro h
    simp only [h]
  · decide

/-- C24: for a correctly signed, unexpired token of type verification,
VerifyEmail calls UpdateUser for the subject of the token with the update
request whose four fields are all nil, a request that names no change and
cannot mark the email as verified, and returns what that call returns.  For a
correctly signed, unexpired token of another type it returns the
authentication error invalid token type and makes no UpdateUser call. -/
theorem VerifyEmail_empty_update {σ : Type} (P : Platform) (s : PasetoService σ)
    (req : VerifyEmailRequest) (w : Sys σ) :
    (∀ claims, P.Verify req.Token s.publicKey = .ok claims
      → ¬ claims.ExpiresAt < P.Now w.tick
      → claims.Typ = "verification"
      → (VerifyEmail P s req w).2.trace
          = w.trace ++ [Call.Verify req.Token,
              Call.UpdateUser claims.Subject
                { Email := none, Password := none, FullName := none, AvatarURL := none }]
        ∧ ((VerifyEmail P s req w).1 = none
          ↔ ∃ user, (s.userSvc.UpdateUser claims.Subject
                { Email := none, Password := none, FullName := none, AvatarURL := none }
                w.st).1 = .ok user))
    ∧ (∀ claims, P.Verify req.Token s.publicKey = .ok claims
      → ¬ claims.ExpiresAt < P.Now w.tick
      → claims.Typ ≠ "verification"
      → (VerifyEmail P s req w).1
          = some (.app (NewAuthenticationError "invalid token type"))
        ∧ (VerifyEmail P s req w).2.trace = w.trace ++ [Call.Verify req.Token]) := by
  constructor
  · intro claims hv hexp hty
    unfold VerifyEmail
    rw [validateToken_of_verify P s req.Token claims w hv]
    simp only [hexp, if_false, hty, bne_self_eq_false, Bool.false_eq_true, Sys.call]
    cases h : (s.userSvc.UpdateUser claims.Subject {} w.st).1 with
    | error e => simp
    | ok user => simp
  · intro claims hv hexp hty
    unfold VerifyEmail
    rw [validateToken_of_verify P s req.Token claims w hv]
    have hb : (claims.Typ != "verification") = true := by simpa using hty
    simp [hexp, hb]

/-! ## Locations of addresses -/

namespace Security

/-- The IPv4 addresses of the private ranges and of the loopback range are
private for isPrivateIP. -/
theorem isPrivateIP_of_range (L : Libs) (ip : String) (bytes ip4 : List Nat)
    (hparse : L.ParseIP ip = some bytes) (h4 : To4 bytes = some ip4)
    (hrange : ip4.getD 0 0 = 10
      ∨ (ip4.getD 0 0 = 172 ∧ 16 ≤ ip4.getD 1 0 ∧ ip4.getD 1 0 ≤ 31)
      ∨ (ip4.getD 0 0 = 192 ∧ ip4.getD 1 0 = 168)
      ∨ ip4.getD 0 0 = 127) :
    isPrivateIP L ip = true := by
  unfold isPrivateIP
  simp only [hparse, h4, IsLoopback]
  simp only [List.getD_eq_getElem?_getD] at hrange
  rcases hrange with h | ⟨h, h1, h2⟩ | ⟨h, h1⟩ | h
  · simp [h]
  · simp [h, h1, h2]
  · simp [h, h1]
  · simp [h]

/-- The IPv6 loopback address is private for isPrivateIP. -/
theorem isPrivateIP_of_loopback6 (L : Libs) (ip : String)
    (hparse : L.ParseIP ip = some [0, 0, 0, 0, 0, 0, 0, 0, 0, 0, 0, 0, 0, 0, 0, 1]) :
    isPrivateIP L ip = true := by
  unfold isPrivateIP
  simp only [hparse]
  decide

theorem getLocationString_local {σ : Type} (L : Libs) (s : Service σ) (ip : String)
    (w : Sys σ) (h : ip = "127.0.0.1" ∨ ip = "::1" ∨ isPrivateIP L ip = true) :
    getLocationString L s ip w = (.ok "Local Network", w) := by
  unfold getLocationString
  rcases h with h | h | h <;> simp [h]

end Security

/-- The stand-in for net.ParseIP reads the usual texts, and isPrivateIP sorts
them as the ranges say. -/
theorem Demo.isPrivateIP_examples :
    ["10.1.2.3", "172.16.0.1", "172.31.255.254", "192.168.1.10", "127.0.0.53", "::1",
      "169.254.10.10"].map (Security.isPrivateIP Demo.libs)
      = [true, true, true, true, true, true, true]
    ∧ ["203.0.113.7", "172.32.0.1", "172.15.0.1", "192.169.1.1", "11.0.0.1", "8.8.8.8",
      "not an address"].map (Security.isPrivateIP Demo.libs)
      = [false, false, false, false, false, false, false] := by
  decide

/-- C21: for an address that net.ParseIP reads as an IPv4 address a.b.c.d with
a = 10, or a = 172 and 16 <= b <= 31, or a = 192 and b = 168, or a = 127, for
one it reads as the IPv6 loopback address, for the texts 127.0.0.1 and ::1, and
for every address that isPrivateIP accepts, getLocationString returns Local
Network with no error and makes no call.  For any other address it makes the
one GetLocation call and returns its error, or else City, Country when both
are set, the country alone when only it is set, and Unknown Location
otherwise. -/
theorem getLocationString_spec {σ : Type} (L : Libs) (s : Security.Service σ)
    (ip : String) (w : Sys σ) :
    (∀ bytes ip4, L.ParseIP ip = some bytes → Security.To4 bytes = some ip4
      → (ip4.getD 0 0 = 10
          ∨ (ip4.getD 0 0 = 172 ∧ 16 ≤ ip4.getD 1 0 ∧ ip4.getD 1 0 ≤ 31)
          ∨ (ip4.getD 0 0 = 192 ∧ ip4.getD 1 0 = 168)
          ∨ ip4.getD 0 0 = 127)
      → Security.getLocationString L s ip w = (.ok "Local Network", w))
    ∧ (L.ParseIP ip = some [0, 0, 0, 0, 0, 0, 0, 0, 0, 0, 0, 0, 0, 0, 0, 1]
      → Security.getLocationString L s ip w = (.ok "Local Network", w))
    ∧ (ip = "127.0.0.1" ∨ ip = "::1" ∨ Security.isPrivateIP L ip = true
      → Security.getLocationString L s ip w = (.ok "Local Network", w))
    ∧ (ip ≠ "127.0.0.1" → ip ≠ "::1" → Security.isPrivateIP L ip = false
      → (Security.getLocationString L s ip w).2.trace = w.trace ++ [Call.GetLocation ip]
        ∧ (Security.getLocationString L s ip w).2.st = (s.geoIPLookup.GetLocation ip w.st).2
        ∧ (∀ err, (s.geoIPLookup.GetLocation ip w.st).1 = .error err
          → (Security.getLocationString L s ip w).1 = .error err)
        ∧ (∀ location, (s.geoIPLookup.GetLocation ip w.st).1 = .ok location
          → (Security.getLocationString L s ip w).1
              = .ok (if location.City ≠ "" ∧ location.Country ≠ "" then
                  location.City ++ ", " ++ location.Country
                else if location.Country ≠ "" then location.Country
                else "Unknown Location"))) := by
  refine ⟨?_, ?_, Security.getLocationString_local L s ip w, ?_⟩
  · intro bytes ip4 hparse h4 hrange
    exact Security.getLocationString_local L s ip w
      (Or.inr (Or.inr (Security.isPrivateIP_of_range L ip bytes ip4 hparse h4 hrange)))
  · intro hparse
    exact Security.getLocationString_local L s ip w
      (Or.inr (Or.inr (Security.isPrivateIP_of_loopback6 L ip hparse)))
  · intro h1 h2 h3
    have hcond : (ip == "127.0.0.1" || ip == "::1" || Security.isPrivateIP L ip) = false := by
      simp [h1, h2, h3]
    unfold Security.getLocationString
    simp only [hcond, Bool.false_eq_true, if_false, Sys.call]
    cases hl : (s.geoIPLookup.GetLocation ip w.st).1 with
    | error e => simp
    | ok location =>
      simp only []
      by_cases hc : location.City = "" <;> by_cases hk : location.Country = "" <;>
        simp [hc, hk]

/-! ## The rate limit of the Redis cache -/

/-- C25: CheckRateLimit sends EXPIRE with every call.  A first call on a key at
the server time 0, with limit 2 and a window of 900 seconds, leaves the counter
1 with the expiry time 900 s.  A second call 600 seconds later, on the key that
exists, moves the expiry time to 1500 s.  A third call at 1000 s, after the
window of the first call has ended, finds the counter still there, raises it to
3 and is denied, and moves the expiry time to 1900 s. -/
theorem CheckRateLimit_extends_window :
    RedisService.CheckRateLimit Demo.loginKey 2 900 {}
      = (.ok true,
          { entries := [{ key := Demo.loginKey, val := "1",
                          expireAt := some 900000000000 }] })
    ∧ RedisService.CheckRateLimit Demo.loginKey 2 900 (Demo.firstCheck.elapse 600000000000)
      = (.ok true,
          { entries := [{ key := Demo.loginKey, val := "2",
                          expireAt := some 1500000000000 }],
            now := 600000000000 })
    ∧ RedisService.CheckRateLimit Demo.loginKey 2 900 (Demo.secondCheck.elapse 400000000000)
      = (.ok false,
          { entries := [{ key := Demo.loginKey, val := "3",
                          expireAt := some 1900000000000 }],
            now := 1000000000000 }) := by
  decide

/-! ## cleanup of the in-memory rate limiter -/

namespace RateLimiter

theorem lookup_filter_ne (key k : String) (h : k ≠ key) (l : List (String × client)) :
    (l.filter (fun p => p.1 != key)).lookup k = l.lookup k := by
  induction l with
  | nil => rfl
  | cons p rest ih =>
    obtain ⟨a, c⟩ := p
    by_cases ha : a = key
    · subst ha
      have hk : (k == a) = false := by simpa using h
      simp [List.filter_cons, List.lookup, hk, ih]
    · have hb : (a != key) = true := by simpa using ha
      simp only [List.filter_cons, hb, if_true, List.lookup, ih]

theorem lookup_store_ne (rl : RateLimiter) (key k : String) (c : client) (h : k ≠ key) :
    (rl.store key c).clients.lookup k = rl.clients.lookup k := by
  have hk : (k == key) = false := by simpa using h
  simp only [store, List.lookup, hk]
  exact lookup_filter_ne key k h rl.clients

theorem lookup_filter_none (k : String) (keep : String × client → Bool)
    (l : List (String × client)) (h : k ∉ l.map Prod.fst) :
    (l.filter keep).lookup k = none := by
  induction l with
  | nil => rfl
  | cons p rest ih =>
    obtain ⟨a, c⟩ := p
    simp only [List.map_cons, List.mem_cons, not_or] at h
    have hk : (k == a) = false := by simpa using h.1
    rw [List.filter_cons]
    split
    · simp only [List.lookup, hk]; exact ih h.2
    · exact ih h.2

/-- What cleanup leaves of the record of a key: the record itself, or nothing
when there was none or when its reset time is before the time of the
cleanup. -/
theorem lookup_cleanup (t : Int) (k : String) (l : List (String × client))
    (hkeys : (l.map Prod.fst).Nodup) :
    (l.filter (fun p => !decide (p.2.resetTime < t))).lookup k = l.lookup k
    ∨ ((l.filter (fun p => !decide (p.2.resetTime < t))).lookup k = none
      ∧ ∃ cl, l.lookup k = some cl ∧ cl.resetTime < t) := by
  induction l with
  | nil => left; rfl
  | cons p rest ih =>
    obtain ⟨a, c⟩ := p
    simp only [List.map_cons, List.nodup_cons] at hkeys
    by_cases hk : k = a
    · subst hk
      by_cases hc : c.resetTime < t
      · right
        refine ⟨?_, c, by simp [List.lookup], hc⟩
        simp only [List.filter_cons, hc, decide_True, Bool.not_true, Bool.false_eq_true,
          if_false]
        exact lookup_filter_none k _ rest hkeys.1
      · left
        simp [List.filter_cons, hc, List.lookup]
    · have hk2 : (k == a) = false := by simpa using hk
      rcases ih hkeys.2 with h | ⟨h, cl, hcl, hlt⟩
      · left
        rw [List.filter_cons]
        split
        · simp only [List.lookup, hk2]; exact h
        · simp only [List.lookup, hk2]; exact h
      · right
        refine ⟨?_, cl, by simp only [List.lookup, hk2]; exact hcl, hlt⟩
        rw [List.filter_cons]
        split
        · simp only [List.lookup, hk2]; exact h
        · exact h

/-- One request handled by two limiters of the same configuration whose
records of the key of the request agree, or of which the second has none where
the first has one whose reset time is before the request: the responses are
equal, and both limiters are left unchanged or both store the same record. -/
theorem Middleware_congr (rl1 rl2 : RateLimiter) (req : Request) (now : Int)
    (hc : rl2.config = rl1.config)
    (hl : rl2.clients.lookup (rl1.config.KeyFunc req) = rl1.clients.lookup (rl1.config.KeyFunc req)
      ∨ (rl2.clients.lookup (rl1.config.KeyFunc req) = none
        ∧ ∃ cl, rl1.clients.lookup (rl1.config.KeyFunc req) = some cl ∧ cl.resetTime < now)) :
    (rl2.Middleware req now).1 = (rl1.Middleware req now).1
    ∧ (((rl1.Middleware req now).2 = rl1 ∧ (rl2.Middleware req now).2 = rl2)
      ∨ ∃ c, (rl1.Middleware req now).2 = rl1.store (rl1.config.KeyFunc req) c
          ∧ (rl2.Middleware req now).2 = rl2.store (rl1.config.KeyFunc req) c) := by
  unfold Middleware
  have hex : rl2.isExcluded req.Path = rl1.isExcluded req.Path := by
    unfold isExcluded; rw [hc]
  rw [hex, hc]
  cases rl1.isExcluded req.Path with
  | true => simp
  | false =>
    simp only [Bool.false_eq_true, if_false]
    rcases hl with h | ⟨h, cl, hcl, hlt⟩
    · rw [h]
      cases rl1.clients.lookup (rl1.config.KeyFunc req) with
      | none => exact ⟨rfl, Or.inr ⟨_, rfl, rfl⟩⟩
      | some cl =>
        simp only []
        split_ifs <;> exact ⟨rfl, Or.inr ⟨_, rfl, rfl⟩⟩
    · rw [h, hcl]
      simp only [hlt, if_true]
      exact ⟨trivial, Or.inr ⟨_, rfl, rfl⟩⟩

/-- Two limiters that agree but for records of the first that had expired by
the time `t` give the same responses to requests handled at `t` or later. -/
theorem serve_congr (t : Int) (qs : List (Request × Int)) :
    ∀ (rl1 rl2 : RateLimiter), rl2.config = rl1.config
      → (∀ k, rl2.clients.lookup k = rl1.clients.lookup k
          ∨ (rl2.clients.lookup k = none
            ∧ ∃ cl, rl1.clients.lookup k = some cl ∧ cl.resetTime < t))
      → (∀ q ∈ qs, t ≤ q.2)
      → (rl2.serve qs).1 = (rl1.serve qs).1 := by
  induction qs with
  | nil => intro rl1 rl2 _ _ _; rfl
  | cons q qs ih =>
    intro rl1 rl2 hc hl hlater
    have hq : t ≤ q.2 := hlater q (List.mem_cons_self _ _)
    have hkey : rl2.clients.lookup (rl1.config.KeyFunc q.1)
          = rl1.clients.lookup (rl1.config.KeyFunc q.1)
        ∨ (rl2.clients.lookup (rl1.config.KeyFunc q.1) = none
          ∧ ∃ cl, rl1.clients.lookup (rl1.config.KeyFunc q.1) = some cl
            ∧ cl.resetTime < q.2) := by
      rcases hl (rl1.config.KeyFunc q.1) with h | ⟨h, cl, hcl, hlt⟩
      · exact Or.inl h
      · exact Or.inr ⟨h, cl, hcl, lt_of_lt_of_le hlt hq⟩
    obtain ⟨hresp, hstate⟩ := Middleware_congr rl1 rl2 q.1 q.2 hc hkey
    simp only [serve]
    rw [hresp]
    congr 1
    apply ih
    · rcases hstate with ⟨h1, h2⟩ | ⟨c, h1, h2⟩
      · rw [h1, h2]; exact hc
      · rw [h1, h2]; exact hc
    · intro k
      rcases hstate with ⟨h1, h2⟩ | ⟨c, h1, h2⟩
      · rw [h1, h2]; exact hl k
      · rw [h1, h2]
        by_cases hk : k = rl1.config.KeyFunc q.1
        · subst hk
          left
          rw [lookup_store, lookup_store]
        · rw [lookup_store_ne _ _ _ _ hk, lookup_store_ne _ _ _ _ hk]
          exact hl k
    · intro q2 hq2
      exact hlater q2 (List.mem_cons_of_mem _ hq2)

end RateLimiter

/-- C26: cleanup run at the time t removes exactly the records whose reset time
is strictly before t and leaves the others, and the configuration, as they
are; and for every limiter state (a map: at most one record per key) and every
sequence of requests handled at t or later, the responses of Middleware after
the cleanup, the allow or deny outcome and the headers, are the responses had
cleanup not run. -/
theorem cleanup_advisory (rl : RateLimiter) (t : Int) (qs : List (Request × Int))
    (hkeys : (rl.clients.map Prod.fst).Nodup) (hlater : ∀ q ∈ qs, t ≤ q.2) :
    (∀ p, p ∈ (rl.cleanup t).clients ↔ p ∈ rl.clients ∧ ¬ p.2.resetTime < t)
    ∧ (rl.cleanup t).clients.Sublist rl.clients
    ∧ (rl.cleanup t).config = rl.config
    ∧ ((rl.cleanup t).serve qs).1 = (rl.serve qs).1 := by
  refine ⟨?_, ?_, rfl, ?_⟩
  · intro p
    simp [RateLimiter.cleanup, List.mem_filter]
  · exact List.filter_sublist _
  · exact RateLimiter.serve_congr t qs rl (rl.cleanup t) rfl
      (fun k => RateLimiter.lookup_cleanup t k rl.clients hkeys) hlater

theorem cleanup_advisory_witness :
    (∀ p, p ∈ (Demo.usedLimiter.cleanup 70000000000).clients
      ↔ p ∈ Demo.usedLimiter.clients ∧ ¬ p.2.resetTime < 70000000000)
    ∧ (Demo.usedLimiter.cleanup 70000000000).clients.Sublist Demo.usedLimiter.clients
    ∧ (Demo.usedLimiter.cleanup 70000000000).config = Demo.usedLimiter.config
    ∧ ((Demo.usedLimiter.cleanup 70000000000).serve Demo.laterRequests).1
      = (Demo.usedLimiter.serve Demo.laterRequests).1 :=
  cleanup_advisory Demo.usedLimiter 70000000000 Demo.laterRequests (by decide) (by decide)

/-! ## Password validation -/

namespace Validation

/-- The flags at the end of the loop of validatePassword. -/
theorem scanPassword_flags (U : Unicode) (l : List Char) :
    ∀ flags : Flags,
      (scanPassword U l flags).hasUpper = (flags.hasUpper || l.any U.IsUpper)
      ∧ (scanPassword U l flags).hasLower
          = (flags.hasLower || l.any (fun c => !U.IsUpper c && U.IsLower c))
      ∧ (scanPassword U l flags).hasNumber
          = (flags.hasNumber
            || l.any (fun c => !U.IsUpper c && !U.IsLower c && U.IsNumber c))
      ∧ (scanPassword U l flags).hasSpecial
          = (flags.hasSpecial
            || l.any (fun c => !U.IsUpper c && !U.IsLower c && !U.IsNumber c
                && (U.IsPunct c || U.IsSymbol c))) := by
  induction l with
  | nil => intro flags; simp [scanPassword]
  | cons c rest ih =>
    intro flags
    simp only [scanPassword, List.any_cons]
    cases hu : U.IsUpper c <;> cases hl : U.IsLower c <;> cases hn : U.IsNumber c <;>
      cases hp : U.IsPunct c <;> cases hs : U.IsSymbol c <;>
      simp [ih, Bool.or_assoc]

end Validation

/-- C27: ValidatePassword panics on every password: it hands the nil interface
to validatePassword, whose first statement calls a method on it, and it never
reads the password.  Called on a field that holds the password, validatePassword
itself returns true exactly when the password is 8 to 72 bytes long and has an
uppercase letter, a lowercase letter, a number and a punctuation or symbol
character (each counted under the first case of the switch that takes it). -/
theorem ValidatePassword_panics (U : Validation.Unicode) (password : String) :
    Validation.ValidatePassword U password = .error Validation.nilDereference
    ∧ Validation.validatePassword U (some ⟨password⟩)
      = .ok (decide (8 ≤ password.utf8ByteSize ∧ password.utf8ByteSize ≤ 72)
          && password.data.any U.IsUpper
          && password.data.any (fun c => !U.IsUpper c && U.IsLower c)
          && password.data.any (fun c => !U.IsUpper c && !U.IsLower c && U.IsNumber c)
          && password.data.any (fun c => !U.IsUpper c && !U.IsLower c && !U.IsNumber c
              && (U.IsPunct c || U.IsSymbol c))) := by
  refine ⟨rfl, ?_⟩
  unfold Validation.validatePassword
  obtain ⟨h1, h2, h3, h4⟩ := Validation.scanPassword_flags U password.data {}
  simp only [Validation.minPasswordLength, Validation.maxPasswordLength]
  by_cases hlen : 8 ≤ password.utf8ByteSize ∧ password.utf8ByteSize ≤ 72
  · have hc : (decide (password.utf8ByteSize < 8) || decide (password.utf8ByteSize > 72))
        = false := by
      simp only [Bool.or_eq_false_iff, decide_eq_false_iff_not]
      omega
    simp only [hc, Bool.false_eq_true, if_false, h1, h2, h3, h4, hlen, and_self, decide_True,
      Bool.true_and, Bool.false_or]
  · have hc : (decide (password.utf8ByteSize < 8) || decide (password.utf8ByteSize > 72))
        = true := by
      simp only [Bool.or_eq_true, decide_eq_true_eq]
      omega
    simp only [hc, if_true, hlen, decide_False, Bool.false_and]

/-! ## The headers of the in-memory rate limiter -/

/-- C28: the headers hold the text of one character, the one whose code point
is the number.  With limit 100, the second request of a client is passed on
with X-RateLimit-Limit d (code point 100) and X-RateLimit-Remaining b (code
point 98), where the decimal texts are 100 and 98.  With limit 2, the third
request, 5 seconds into a window of 60, is answered 429 with
X-RateLimit-Remaining 0 and Retry-After 7 (code point 55), where the decimal
text of the seconds left is 55. -/
theorem Middleware_headers_not_decimal :
    (RateLimiter.NewRateLimiter (Demo.limiterConfig 100 [])).map
        (fun rl => (rl.serve [(Demo.loginRequest, 0), (Demo.loginRequest, 5000000000)]).1.map
          (fun r => (r.next, r.headers.take 2)))
      = .ok [(true, []),
         (true, [("X-RateLimit-Limit", "d"), ("X-RateLimit-Remaining", "b")])]
    ∧ toString (100 : Int) = "100" ∧ toString ((100 : Int) - 2) = "98"
    ∧ (RateLimiter.NewRateLimiter (Demo.limiterConfig 2 [])).map
        (fun rl => (rl.serve [(Demo.loginRequest, 0), (Demo.loginRequest, 1000000000),
          (Demo.loginRequest, 5000000000)]).1.map
          (fun r => (r.status, r.headers)))
      = .ok [(none, []),
         (none, [("X-RateLimit-Limit", String.singleton (Char.ofNat 2)),
            ("X-RateLimit-Remaining", String.singleton (Char.ofNat 0)),
            ("X-RateLimit-Reset", "<")]),
         (some 429, [("X-RateLimit-Limit", String.singleton (Char.ofNat 2)),
            ("X-RateLimit-Remaining", "0"), ("X-RateLimit-Reset", "<"),
            ("Retry-After", "7")])]
    ∧ toString (durationSeconds (60000000000 - 5000000000)) = "55"
    ∧ toString (unixSeconds 60000000000) = "60" := by
  decide

/-! ## Names -/

namespace UserHandler

theorem lastSpace_of_no_space (l : List Char) (h : ' ' ∉ l) :
    ∀ (i : Nat) (acc : Int), lastSpace l i acc = acc := by
  induction l with
  | nil => intro i acc; rfl
  | cons c rest ih =>
    intro i acc
    simp only [List.mem_cons, not_or] at h
    have hc : ¬ c = ' ' := fun e => h.1 e.symm
    simp only [lastSpace, hc, if_false]
    exact ih h.2 (i + 1) acc

theorem lastSpace_append (l1 l2 : List Char) :
    ∀ (i : Nat) (acc : Int),
      lastSpace (l1 ++ l2) i acc = lastSpace l2 (i + l1.length) (lastSpace l1 i acc) := by
  induction l1 with
  | nil => intro i acc; simp [lastSpace]
  | cons c rest ih =>
    intro i acc
    have hi : i + 1 + rest.length = i + (rest.length + 1) := by omega
    simp only [List.cons_append, lastSpace, List.length_cons]
    rw [← hi]
    exact ih (i + 1) _

theorem take_drop_middle (l1 l2 : List Char) (c : Char) :
    (l1 ++ c :: l2).take l1.length = l1 ∧ (l1 ++ c :: l2).drop (l1.length + 1) = l2 := by
  induction l1 with
  | nil => exact ⟨rfl, rfl⟩
  | cons a rest ih => exact ⟨by simp, by simp⟩

end UserHandler

/-- C30, amended: for every first name and every last name that holds no
space, splitFullName applied to the full name first + space + last returns
(first, last); and a full name that holds no space is returned as the first
name, with an empty last name. -/
theorem splitFullName_fullName (firstName lastName name : String)
    (hlast : ' ' ∉ lastName.data) (hname : ' ' ∉ name.data) :
    UserHandler.splitFullName (UserHandler.fullName firstName lastName)
      = (firstName, lastName)
    ∧ UserHandler.splitFullName name = (name, "") := by
  constructor
  · unfold UserHandler.splitFullName UserHandler.fullName
    have hdata : (firstName ++ " " ++ lastName).data
        = firstName.data ++ (' ' :: lastName.data) := by
      simp [String.data_append]
    have hidx : UserHandler.lastSpace (firstName.data ++ (' ' :: lastName.data)) 0 (-1)
        = (firstName.data.length : Int) := by
      rw [UserHandler.lastSpace_append]
      simp only [UserHandler.lastSpace, if_true, Nat.zero_add]
      exact UserHandler.lastSpace_of_no_space _ hlast _ _
    simp only [hdata, hidx]
    have hne : ¬ ((firstName.data.length : Int) = -1) := by omega
    simp only [hne, if_false, Int.toNat_ofNat,
      (UserHandler.take_drop_middle firstName.data lastName.data ' ').1,
      (UserHandler.take_drop_middle firstName.data lastName.data ' ').2]
  · unfold UserHandler.splitFullName
    simp [UserHandler.lastSpace_of_no_space _ hname]

theorem splitFullName_fullName_witness :
    UserHandler.splitFullName (UserHandler.fullName "Mary Ann" "Smith")
      = ("Mary Ann", "Smith")
    ∧ UserHandler.splitFullName "Cher" = ("Cher", "") :=
  splitFullName_fullName "Mary Ann" "Smith" "Cher" (by decide) (by decide)

/-- C30, counterexample: the first name Ana and the last name de Souza, both
non-empty, make the full name Ana de Souza, which splitFullName splits at its
last space into Ana de and Souza. -/
theorem splitFullName_last_name_with_space :
    UserHandler.fullName "Ana" "de Souza" = "Ana de Souza"
    ∧ UserHandler.splitFullName (UserHandler.fullName "Ana" "de Souza")
      = ("Ana de", "Souza") := by
  decide

/-! ## The ids of security events -/

theorem SecurityRepository.exec_security_events (db : SecurityRepository.DB) :
    (SecurityRepository.exec db).2.security_events = db.security_events := by
  unfold SecurityRepository.exec; split <;> rfl

/-- C29: RecordSecurityEvent of the repository gives a fresh id only to an event
whose id is empty: an event with an id is stored under that id.  The event that
DetectSuspiciousActivity records as suspicious_activity is the activity event
as the first call left it, with its type and description changed and its id
kept.  For a flagged activity the two rows stored, password_change and
suspicious_activity, carry the same id. -/
theorem DetectSuspiciousActivity_reuses_id :
    (∀ (L : Libs) (event : SecurityEvent) (db : SecurityRepository.DB), event.ID ≠ ""
      → (SecurityRepository.RecordSecurityEvent L event db).1.2 = event
        ∧ ((SecurityRepository.RecordSecurityEvent L event db).1.1 = none
          → (SecurityRepository.RecordSecurityEvent L event db).2.security_events
              = db.security_events ++ [event]))
    ∧ (∀ event : SecurityEvent, (Security.asSuspicious event).ID = event.ID)
    ∧ (Security.DetectSuspiciousActivity (Demo.platform Demo.clock) Demo.libs
        Demo.securityService "user123" "test@example.com" "203.0.113.7" Demo.firefox
        "password_change" Demo.eventWorld).1 = none
    ∧ (Security.DetectSuspiciousActivity (Demo.platform Demo.clock) Demo.libs
        Demo.securityService "user123" "test@example.com" "203.0.113.7" Demo.firefox
        "password_change" Demo.eventWorld).2.trace.filterMap
          (fun c => match c with
            | .RecordSecurityEvent event => some (event.ID, event.EventType)
            | _ => none)
        = [("", "password_change"),
           ("00000000-0000-4000-8000-000000000000", "suspicious_activity")]
    ∧ ((Security.DetectSuspiciousActivity (Demo.platform Demo.clock) Demo.libs
        Demo.securityService "user123" "test@example.com" "203.0.113.7" Demo.firefox
        "password_change" Demo.eventWorld).2.st.security_events.drop 3).map
          (fun e => (e.ID, e.EventType))
        = [("00000000-0000-4000-8000-000000000000", "password_change"),
           ("00000000-0000-4000-8000-000000000000", "suspicious_activity")] := by
  refine ⟨?_, fun _ => rfl, ?_⟩
  · intro L event db hid
    have hb : (event.ID == "") = false := by simpa using hid
    unfold SecurityRepository.RecordSecurityEvent
    simp only [hb, Bool.false_eq_true, if_false]
    cases h : (SecurityRepository.exec db).1 with
    | some e => simp
    | none => simp [SecurityRepository.exec_security_events]
  · decide

/-- The conversion int(d.Seconds()) goes through float64: it gives the whole
seconds of the usual durations, and one second more where the sum of the seconds
and of the fraction rounds up to the next whole number. -/
theorem durationSeconds_examples :
    durationSeconds 900000000000 = 900
    ∧ durationSeconds 1999999999 = 1
    ∧ durationSeconds (-1999999999) = -1
    ∧ durationSeconds 16777216999999998 = 16777216
    ∧ durationSeconds 16777216999999999 = 16777217
    ∧ durationSeconds 9223372036854775807 = 9223372036 := by
  decide

/-- C20, amended: when the fetch of the security events of the user fails,
DetectSuspiciousActivity returns that error and records nothing.  When the
events have been fetched, it hands the activity event to the repository; when
storing that event fails it returns the error and flags nothing; when the event
has been stored, it flags the activity (it records the event again as
suspicious_activity and writes the notification) exactly when the locations of
the fetched events that are within 24 hours number at least 3 and the current
location is not one of them, and otherwise makes no further call.  In no case
does it make a LockAccount call. -/
theorem DetectSuspiciousActivity_paths {σ : Type} (P : Platform) (L : Libs)
    (s : Security.Service σ) (userID email ip ua activityType : String) (w : Sys σ) :
    let location := (Security.locate L s ip w).1
    let wl := (Security.locate L s ip w).2
    let out := Security.DetectSuspiciousActivity P L s userID email ip ua activityType w
    (∀ err, (s.repo.GetUserSecurityEvents userID 10 wl.st).1 = .error err
      → out.1 = some (GoError.wrap "failed to get user security events" err)
        ∧ out.2.trace = wl.trace ++ [Call.GetUserSecurityEvents userID 10]
        ∧ out.2.st = (s.repo.GetUserSecurityEvents userID 10 wl.st).2)
    ∧ (∀ events, (s.repo.GetUserSecurityEvents userID 10 wl.st).1 = .ok events
      → let fetched := (s.repo.GetUserSecurityEvents userID 10 wl.st).2
        let locations := (Security.collectLocations P events []
          { st := fetched, tick := wl.tick,
            trace := wl.trace ++ [Call.GetUserSecurityEvents userID 10] }).1
        let activity : SecurityEvent :=
          { UserID := userID, EventType := activityType, IPAddress := ip, UserAgent := ua,
            Location := location, Description := activityType ++ " from " ++ location,
            CreatedAt := P.Now (wl.tick + events.length) }
        let stored := (s.repo.RecordSecurityEvent activity fetched).1
        (locations.Nodup
          ∧ ∀ x, x ∈ locations ↔ ∃ i e, events[i]? = some e ∧ e.Location = x
              ∧ P.Now (wl.tick + i) - e.CreatedAt < 24 * hour)
        ∧ Call.RecordSecurityEvent activity ∈ out.2.trace
        ∧ (∀ err, stored.1 = some err
          → out.1 = some (GoError.wrap "failed to record security event" err)
            ∧ out.2.trace
              = wl.trace ++ [Call.GetUserSecurityEvents userID 10,
                  Call.RecordSecurityEvent activity])
        ∧ (stored.1 = none
          → out.1 = none
            ∧ ((3 ≤ locations.length ∧ location ∉ locations)
              → ∃ logs, out.2.trace
                  = wl.trace ++ [Call.GetUserSecurityEvents userID 10,
                      Call.RecordSecurityEvent activity,
                      Call.RecordSecurityEvent (Security.asSuspicious stored.2)]
                    ++ logs ++ [Call.Log "info" "Suspicious activity detected"]
                ∧ ∀ c ∈ logs, ∃ m, c = Call.Log "error" m)
            ∧ (¬ (3 ≤ locations.length ∧ location ∉ locations)
              → out.2.trace
                  = wl.trace ++ [Call.GetUserSecurityEvents userID 10,
                      Call.RecordSecurityEvent activity])))
    ∧ (∀ u t r, Call.LockAccount u t r ∈ out.2.trace → Call.LockAccount u t r ∈ w.trace) := by
  intro location wl out
  have herr : ∀ err, (s.repo.GetUserSecurityEvents userID 10 wl.st).1 = .error err
      → out.1 = some (GoError.wrap "failed to get user security events" err)
        ∧ out.2.trace = wl.trace ++ [Call.GetUserSecurityEvents userID 10]
        ∧ out.2.st = (s.repo.GetUserSecurityEvents userID 10 wl.st).2 := by
    intro err he
    show (Security.DetectSuspiciousActivity P L s userID email ip ua activityType w).1 = _
      ∧ (Security.DetectSuspiciousActivity P L s userID email ip ua activityType w).2.trace = _
      ∧ (Security.DetectSuspiciousActivity P L s userID email ip ua activityType w).2.st = _
    have he2 : (s.repo.GetUserSecurityEvents userID 10 (Security.locate L s ip w).2.st).1
        = .error err := he
    unfold Security.DetectSuspiciousActivity
    simp only [Sys.call, he2]
    exact ⟨trivial, trivial, trivial⟩
  refine ⟨herr, ?_, ?_⟩
  · intro events hget
    obtain ⟨h1, h2, h3, _⟩ := DetectSuspiciousActivity_fetched P L s userID email ip ua
      activityType w events hget
    obtain ⟨a1, _⟩ := Security.DetectSuspiciousActivity_aux P L s userID email ip ua
      activityType w events location wl _ rfl hget rfl _ rfl
    exact ⟨h1, h2, a1, h3⟩
  · intro u t r hmem
    cases hf : (s.repo.GetUserSecurityEvents userID 10 wl.st).1 with
    | error err =>
      obtain ⟨pre, hpre, _, hgeo⟩ := Security.locate_trace L s ip w
      rw [(herr err hf).2.1] at hmem
      have hwl : wl.trace = w.trace ++ pre := hpre
      rw [hwl] at hmem
      simp only [List.mem_append, List.mem_singleton] at hmem
      rcases hmem with (h | h) | h
      · exact h
      · rcases hgeo _ h with h2 | h2 <;> cases h2
      · cases h
    | ok events =>
      exact (DetectSuspiciousActivity_fetched P L s userID email ip ua activityType w
        events hf).2.2.2 u t r hmem

/-- C20, counterexample: the user has events of the last minute at three places
and the activity comes from a fourth.  When the fetch of the events fails,
DetectSuspiciousActivity returns the error and hands no event to the
repository: the activity event is not recorded.  When the fetch succeeds and
the store of the activity event fails, it returns the error after that one
call: nothing is flagged, no suspicious_activity event is recorded and no
notification is written. -/
theorem DetectSuspiciousActivity_store_fails :
    (Security.DetectSuspiciousActivity (Demo.platform Demo.clock) Demo.libs
        Demo.securityService "user123" "test@example.com" "203.0.113.7" Demo.firefox
        "password_change" (Demo.eventWorldWith [some "connection refused"])).1
      = some (.text ("failed to get user security events: "
          ++ "failed to get user security events: connection refused"))
    ∧ (Security.DetectSuspiciousActivity (Demo.platform Demo.clock) Demo.libs
        Demo.securityService "user123" "test@example.com" "203.0.113.7" Demo.firefox
        "password_change" (Demo.eventWorldWith [some "connection refused"])).2.trace
      = [Call.GetLocation "203.0.113.7", Call.GetUserSecurityEvents "user123" 10]
    ∧ (Security.DetectSuspiciousActivity (Demo.platform Demo.clock) Demo.libs
        Demo.securityService "user123" "test@example.com" "203.0.113.7" Demo.firefox
        "password_change"
        (Demo.eventWorldWith [some "connection refused"])).2.st.security_events
      = Demo.threePlaces
    ∧ (Security.DetectSuspiciousActivity (Demo.platform Demo.clock) Demo.libs
        Demo.securityService "user123" "test@example.com" "203.0.113.7" Demo.firefox
        "password_change" (Demo.eventWorldWith [none, some "disk full"])).1
      = some (.text ("failed to record security event: "
          ++ "failed to record security event: disk full"))
    ∧ (Security.DetectSuspiciousActivity (Demo.platform Demo.clock) Demo.libs
        Demo.securityService "user123" "test@example.com" "203.0.113.7" Demo.firefox
        "password_change"
        (Demo.eventWorldWith [none, some "disk full"])).2.trace.filterMap
          (fun c => match c with
            | .RecordSecurityEvent event => some event.EventType
            | .Log _ message => some message
            | _ => none)
      = ["password_change"]
    ∧ (Security.DetectSuspiciousActivity (Demo.platform Demo.clock) Demo.libs
        Demo.securityService "user123" "test@example.com" "203.0.113.7" Demo.firefox
        "password_change"
        (Demo.eventWorldWith [none, some "disk full"])).2.st.security_events
      = Demo.threePlaces
    ∧ (Demo.threePlaces.map (fun e => e.Location)).Nodup
    ∧ Demo.unknownCity ∉ Demo.threePlaces.map (fun e => e.Location) := by
  decide

theorem DetectSuspiciousActivity_paths_witness :
    let location := (Security.locate Demo.libs Demo.securityService "203.0.113.7" Demo.eventWorld).1
    let wl := (Security.locate Demo.libs Demo.securityService "203.0.113.7" Demo.eventWorld).2
    let out := Security.DetectSuspiciousActivity (Demo.platform Demo.clock) Demo.libs Demo.securityService "user123" "test@example.com" "203.0.113.7" Demo.firefox "password_change" Demo.eventWorld
    let fetched := (Demo.securityService.repo.GetUserSecurityEvents "user123" 10 wl.st).2
    let locations := (Security.collectLocations (Demo.platform Demo.clock) Demo.threePlaces.reverse []
      { st := fetched, tick := wl.tick,
        trace := wl.trace ++ [Call.GetUserSecurityEvents "user123" 10] }).1
    let activity : SecurityEvent :=
      { UserID := "user123", EventType := "password_change", IPAddress := "203.0.113.7", UserAgent := Demo.firefox,
        Location := location, Description := "password_change" ++ " from " ++ location,
        CreatedAt := (Demo.platform Demo.clock).Now (wl.tick + Demo.threePlaces.reverse.length) }
    let stored := (Demo.securityService.repo.RecordSecurityEvent activity fetched).1
    (locations.Nodup
      ∧ ∀ x, x ∈ locations ↔ ∃ i e, Demo.threePlaces.reverse[i]? = some e ∧ e.Location = x
          ∧ (Demo.platform Demo.clock).Now (wl.tick + i) - e.CreatedAt < 24 * hour)
    ∧ Call.RecordSecurityEvent activity ∈ out.2.trace
    ∧ (∀ err, stored.1 = some err
      → out.1 = some (GoError.wrap "failed to record security event" err)
        ∧ out.2.trace
          = wl.trace ++ [Call.GetUserSecurityEvents "user123" 10,
              Call.RecordSecurityEvent activity])
    ∧ (stored.1 = none
      → out.1 = none
        ∧ ((3 ≤ locations.length ∧ location ∉ locations)
          → ∃ logs, out.2.trace
              = wl.trace ++ [Call.GetUserSecurityEvents "user123" 10,
                  Call.RecordSecurityEvent activity,
                  Call.RecordSecurityEvent (Security.asSuspicious stored.2)]
                ++ logs ++ [Call.Log "info" "Suspicious activity detected"]
            ∧ ∀ c ∈ logs, ∃ m, c = Call.Log "error" m)
        ∧ (¬ (3 ≤ locations.length ∧ location ∉ locations)
          → out.2.trace
              = wl.trace ++ [Call.GetUserSecurityEvents "user123" 10,
                  Call.RecordSecurityEvent activity])) :=
  (DetectSuspiciousActivity_paths (Demo.platform Demo.clock) Demo.libs Demo.securityService
    "user123" "test@example.com" "203.0.113.7" Demo.firefox "password_change"
    Demo.eventWorld).2.1 Demo.threePlaces.reverse (by decide)

end AuthBackend
